import Mathlib

/-!
# Week5-1-CrateApp.cpp: frame resources, constant uploads, scene build, orbit camera

A shallow embedding of `CrateApp` (src/A2/Week2Solution/Week2Project/Week5-1-CrateApp.cpp).

* Scalars (`float` in the source) are elements of a linearly ordered field `α`; the
  theorems about the camera instantiate `α` with the reals, executable examples use
  the rationals.  Rounding is not modelled.
* Pointers into the owning containers (`Material*`, `MeshGeometry*`, `RenderItem*`,
  `FrameResource*`) are handles: the key of the map entry or the position in the
  vector; a null pointer is `none`.
* Undefined behaviour (null dereference, vector index out of range) and a fence wait
  that never returns are explicit outcomes of type `Halt`.
* The GPU is the environment: the value returned by `mFence->GetCompletedValue()` can
  grow by any amount between two observations and never shrinks.
-/

namespace GAME3111

/-! ## Scalars, vectors and matrices (DirectXMath) -/

/-- Number of frame resources in the ring, `const int gNumFrameResources = 3`. -/
def gNumFrameResources : Nat := 3

/-- Number of swap-chain buffers, `D3DApp::SwapChainBufferCount`. -/
def SwapChainBufferCount : Nat := 2

/-- Range of `UINT`. -/
def UINT_RANGE : Nat := 2 ^ 32

/-- Range of `UINT64`. -/
def UINT64_RANGE : Nat := 2 ^ 64

/-- DirectXMath `XMFLOAT2`. -/
structure XMFLOAT2 (α : Type) where
  x : α
  y : α

/-- DirectXMath `XMFLOAT3`. -/
structure XMFLOAT3 (α : Type) where
  x : α
  y : α
  z : α

/-- DirectXMath `XMFLOAT4` (also used for `XMVECTOR`). -/
structure XMFLOAT4 (α : Type) where
  x : α
  y : α
  z : α
  w : α

/-- DirectXMath `XMFLOAT4X4`: a 4x4 matrix, entry `M i j` is row `i`, column `j`
(the member `_(i+1)(j+1)`). -/
abbrev XMFLOAT4X4 (α : Type) := Matrix (Fin 4) (Fin 4) α

section Scalars

variable {α : Type} [LinearOrderedField α]

/-- DirectXMath `XMMatrixTranspose`. -/
def XMMatrixTranspose (M : XMFLOAT4X4 α) : XMFLOAT4X4 α := M.transpose

/-- DirectXMath `XMMatrixMultiply(M1, M2)`, also `operator*`: the matrix product `M1 M2`. -/
def XMMatrixMultiply (M1 M2 : XMFLOAT4X4 α) : XMFLOAT4X4 α := M1 * M2

/-- DirectXMath `XMMatrixScaling`. -/
def XMMatrixScaling (ScaleX ScaleY ScaleZ : α) : XMFLOAT4X4 α :=
  !![ScaleX, 0, 0, 0;
     0, ScaleY, 0, 0;
     0, 0, ScaleZ, 0;
     0, 0, 0, 1]

/-- DirectXMath `XMMatrixTranslation` (row-vector convention: the offset is the last row). -/
def XMMatrixTranslation (OffsetX OffsetY OffsetZ : α) : XMFLOAT4X4 α :=
  !![1, 0, 0, 0;
     0, 1, 0, 0;
     0, 0, 1, 0;
     OffsetX, OffsetY, OffsetZ, 1]

/-- DirectXMath `XMConvertToRadians`: `fDegrees * (XM_PI / 180.0f)`, with `pi` for `XM_PI`. -/
def XMConvertToRadians (pi : α) (fDegrees : α) : α := fDegrees * (pi / 180)

/-- Modelled from the spec: `MathHelper::Identity4x4` of Common/MathHelper.h, which is not
under src/; the identity matrix. -/
def MathHelper.Identity4x4 : XMFLOAT4X4 α := 1

/-- Modelled from the spec: `MathHelper::Clamp` of Common/MathHelper.h, which is not under
src/; `x < low ? low : (x > high ? high : x)`. -/
def MathHelper.Clamp (x low high : α) : α :=
  if x < low then low else (if x > high then high else x)

end Scalars

/-- The DirectXMath and C library functions whose values the model does not compute
(transcendental functions, look-at, inverse); they are parameters of `Update`. -/
structure DirectXMath (α : Type) where
  sinf : α → α
  cosf : α → α
  XMMatrixLookAtLH : XMFLOAT4 α → XMFLOAT4 α → XMFLOAT4 α → XMFLOAT4X4 α
  XMMatrixInverse : XMFLOAT4X4 α → XMFLOAT4X4 α

/-- The two readings of `GameTimer` used by `Update`. -/
structure GameTimer (α : Type) where
  TotalTime : α
  DeltaTime : α

/-! ## Outcomes -/

/-- Ways in which a call does not return normally. -/
inductive Halt where
  /-- Null pointer dereference or out-of-range vector access. -/
  | undefinedBehaviour : Halt
  /-- The call `WaitForSingleObject(eventHandle, INFINITE)` on the given fence value never
  returns: the GPU does not reach the value. -/
  | blockedOnFence (value : Nat) : Halt
  deriving DecidableEq, Repr

/-! ## `std::unordered_map<std::string, V>` -/

/-- An unordered map: the entries in some iteration order, keys pairwise distinct. -/
abbrev UMap (V : Type) := List (String × V)

/-- The call `m[k]` of `std::unordered_map::operator[]`: the value stored under `k`, and the
map afterwards; a missing key is inserted with the value-initialised `dflt`. -/
def UMap.index {V : Type} (m : UMap V) (k : String) (dflt : V) : V × UMap V :=
  match m.lookup k with
  | some v => (v, m)
  | none => (dflt, m ++ [(k, dflt)])

/-- The assignment `m[k] = v`: the entry under `k` is replaced, a missing key is inserted. -/
def UMap.assign {V : Type} : UMap V → String → V → UMap V
  | [], k, v => [(k, v)]
  | (k1, v1) :: rest, k, v =>
    if k1 = k then (k, v) :: rest else (k1, v1) :: UMap.assign rest k v

/-! ## Records of FrameResource.h, d3dUtil.h and UploadBuffer.h -/

/-- Modelled from the spec: `ObjectConstants` of FrameResource.h, which is not under src/;
the per-object constants are the world and texture transforms. -/
structure ObjectConstants (α : Type) where
  World : XMFLOAT4X4 α
  TexTransform : XMFLOAT4X4 α

/-- Modelled from the spec: `MaterialConstants` of d3dUtil.h, which is not under src/;
"transform, albedo, Fresnel term, roughness". -/
structure MaterialConstants (α : Type) where
  DiffuseAlbedo : XMFLOAT4 α
  FresnelR0 : XMFLOAT3 α
  Roughness : α
  MatTransform : XMFLOAT4X4 α

/-- Modelled from the spec: `Light` of d3dUtil.h, which is not under src/; a directional
light is "direction + strength". -/
structure Light (α : Type) where
  Strength : XMFLOAT3 α
  Direction : XMFLOAT3 α

/-- Modelled from the spec: `PassConstants` of FrameResource.h, which is not under src/;
"view/projection/their inverses/their product and its inverse, eye position,
render-target size and its reciprocal, near/far planes, elapsed and delta time, ambient
light term, and a fixed-size array of up to 3 directional lights". -/
structure PassConstants (α : Type) where
  View : XMFLOAT4X4 α
  InvView : XMFLOAT4X4 α
  Proj : XMFLOAT4X4 α
  InvProj : XMFLOAT4X4 α
  ViewProj : XMFLOAT4X4 α
  InvViewProj : XMFLOAT4X4 α
  EyePosW : XMFLOAT3 α
  RenderTargetSize : XMFLOAT2 α
  InvRenderTargetSize : XMFLOAT2 α
  NearZ : α
  FarZ : α
  TotalTime : α
  DeltaTime : α
  AmbientLight : XMFLOAT4 α
  Lights : List (Light α)

/-- Modelled from the spec: `UploadBuffer<T>` of Common/UploadBuffer.h, which is not under
src/; a "constant staging buffer" of slots addressed by element index, created with
`elementCount` slots at a GPU virtual address.  `mappedData i` is the content of slot `i`,
`none` while nothing has been copied there. -/
structure UploadBuffer (T : Type) where
  elementCount : Nat
  gpuVirtualAddress : Nat
  mappedData : Nat → Option T

/-- Modelled from the spec: the constructor of `UploadBuffer<T>`; no slot is written yet. -/
def UploadBuffer.create {T : Type} (elementCount gpuVirtualAddress : Nat) : UploadBuffer T :=
  { elementCount := elementCount, gpuVirtualAddress := gpuVirtualAddress,
    mappedData := fun _ => none }

/-- Modelled from the spec: `UploadBuffer<T>::CopyData(elementIndex, data)`, "copy them into
the current frame resource's ... slot at that item's fixed index". -/
def UploadBuffer.CopyData {T : Type} (b : UploadBuffer T) (elementIndex : Nat) (data : T) :
    UploadBuffer T :=
  { b with mappedData := fun i => if i = elementIndex then some data else b.mappedData i }

/-- Modelled from the spec: `FrameResource` of FrameResource.h, which is not under src/;
"per-object constant staging buffer, per-material constant staging buffer, single-slot
per-pass constant staging buffer, last-submitted fence value (0 = never submitted)". -/
structure FrameResource (α : Type) where
  PassCB : UploadBuffer (PassConstants α)
  ObjectCB : UploadBuffer (ObjectConstants α)
  MaterialCB : UploadBuffer (MaterialConstants α)
  Fence : Nat

/-- GPU virtual addresses the device gives to the three upload buffers of one frame resource. -/
structure FrameAddresses where
  passCB : Nat
  objectCB : Nat
  materialCB : Nat

/-- Modelled from the spec: the constructor `FrameResource(device, passCount, objectCount,
materialCount)`; the fence starts at 0, "never submitted". -/
def FrameResource.create {α : Type} (va : FrameAddresses)
    (passCount objectCount materialCount : Nat) : FrameResource α :=
  { PassCB := UploadBuffer.create passCount va.passCB,
    ObjectCB := UploadBuffer.create objectCount va.objectCB,
    MaterialCB := UploadBuffer.create materialCount va.materialCB,
    Fence := 0 }

/-- Modelled from the spec: `Material` of d3dUtil.h, which is not under src/; "name,
constant-buffer slot index, binding-table slot index referencing a Texture, diffuse albedo,
Fresnel reflectance, roughness scalar, UV transform, dirty-frames-remaining counter". -/
structure Material (α : Type) where
  Name : String
  MatCBIndex : Nat
  DiffuseSrvHeapIndex : Nat
  NumFramesDirty : Int
  DiffuseAlbedo : XMFLOAT4 α
  FresnelR0 : XMFLOAT3 α
  Roughness : α
  MatTransform : XMFLOAT4X4 α

/-- Modelled from the spec: `SubmeshGeometry` of d3dUtil.h, which is not under src/; the
"{index count, start index, base vertex} triple". -/
structure SubmeshGeometry where
  IndexCount : Nat
  StartIndexLocation : Nat
  BaseVertexLocation : Int
  deriving DecidableEq, Repr

/-- The value-initialised `SubmeshGeometry`, which `DrawArgs[...]` inserts for a missing key. -/
def SubmeshGeometry.zero : SubmeshGeometry :=
  { IndexCount := 0, StartIndexLocation := 0, BaseVertexLocation := 0 }

/-- Modelled from the spec: `Vertex` of FrameResource.h, which is not under src/;
"position, normal, texture coordinate". -/
structure Vertex (α : Type) where
  Pos : XMFLOAT3 α
  Normal : XMFLOAT3 α
  TexC : XMFLOAT2 α

/-- Modelled from the spec: `MeshGeometry` of d3dUtil.h, which is not under src/; "name,
CPU-side copies of vertex/index bytes, ..., mapping from sub-mesh name to a {index count,
start index, base vertex} triple". -/
structure MeshGeometry (α : Type) where
  Name : String
  VertexBufferCPU : List (Vertex α)
  IndexBufferCPU : List Nat
  VertexByteStride : Nat
  VertexBufferByteSize : Nat
  IndexBufferByteSize : Nat
  DrawArgs : UMap SubmeshGeometry

/-- Modelled from the spec: `Texture` of d3dUtil.h, which is not under src/; "name, file
identifier" (the GPU handles are not modelled). -/
structure Texture where
  Name : String
  Filename : String
  deriving DecidableEq, Repr

/-! ## `RenderItem` (lines 41-71) -/

/-- The struct `RenderItem`.  `Mat` and `Geo` are handles into `mMaterials` and
`mGeometries` (the key under which the pointee is stored), `none` for `nullptr`. -/
structure RenderItem (α : Type) where
  World : XMFLOAT4X4 α
  TexTransform : XMFLOAT4X4 α
  NumFramesDirty : Int
  ObjCBIndex : Nat
  Mat : Option String
  Geo : Option String
  PrimitiveType : Nat
  IndexCount : Nat
  StartIndexLocation : Nat
  BaseVertexLocation : Int

/-- The value of `D3D_PRIMITIVE_TOPOLOGY_TRIANGLELIST`. -/
def D3D_PRIMITIVE_TOPOLOGY_TRIANGLELIST : Nat := 4

/-- The default member initialisers of `RenderItem`; `UINT ObjCBIndex = -1` is `2^32 - 1`. -/
def RenderItem.default {α : Type} [LinearOrderedField α] : RenderItem α :=
  { World := MathHelper.Identity4x4,
    TexTransform := MathHelper.Identity4x4,
    NumFramesDirty := gNumFrameResources,
    ObjCBIndex := UINT_RANGE - 1,
    Mat := none,
    Geo := none,
    PrimitiveType := D3D_PRIMITIVE_TOPOLOGY_TRIANGLELIST,
    IndexCount := 0,
    StartIndexLocation := 0,
    BaseVertexLocation := 0 }

/-! ## Command list and command queue -/

/-- Pipeline state objects built by `BuildPSOs` (lines 838-869): only `mOpaquePSO`. -/
inductive PipelineState where
  | mOpaquePSO : PipelineState
  deriving DecidableEq, Repr

/-- Resource states used by the barriers of `Draw`. -/
inductive ResourceState where
  | PRESENT : ResourceState
  | RENDER_TARGET : ResourceState
  deriving DecidableEq, Repr

/-- The calls on `ID3D12GraphicsCommandList` made by `Draw` and `DrawRenderItems`, with
the arguments that depend on the application state.  A descriptor handle is given as its
byte offset from the start of `mSrvDescriptorHeap`; vertex and index buffer views are
given by the key of their geometry. -/
inductive Command where
  | Reset (pso : PipelineState) : Command
  | RSSetViewports : Command
  | RSSetScissorRects : Command
  | ResourceBarrier (before after : ResourceState) : Command
  | ClearRenderTargetView : Command
  | ClearDepthStencilView : Command
  | OMSetRenderTargets : Command
  | SetDescriptorHeaps : Command
  | SetGraphicsRootSignature : Command
  | SetGraphicsRootDescriptorTable (rootParameterIndex : Nat) (offsetFromHeapStart : Nat) : Command
  | SetGraphicsRootConstantBufferView (rootParameterIndex : Nat) (bufferLocation : Nat) : Command
  | IASetVertexBuffers (geo : String) : Command
  | IASetIndexBuffer (geo : String) : Command
  | IASetPrimitiveTopology (topology : Nat) : Command
  | DrawIndexedInstanced (IndexCountPerInstance InstanceCount StartIndexLocation : Nat)
      (BaseVertexLocation : Int) (StartInstanceLocation : Nat) : Command
  | Close : Command
  deriving DecidableEq, Repr

/-- The calls on `mCommandQueue` and `mSwapChain` made by `Draw`, in order. -/
inductive QueueOp where
  | ExecuteCommandLists (cmds : List Command) : QueueOp
  | Present : QueueOp
  | Signal (value : Nat) : QueueOp
  deriving DecidableEq, Repr

/-! ## Application state -/

/-- The members of the base class `D3DApp` (Common/d3dApp.h, not under src/) that
`CrateApp` reads or writes.  `mFence` is the completed value of the fence object, the
result of `mFence->GetCompletedValue()` at the last observation; `mCommandList` is the
list of commands recorded since the last `Reset`; `mCommandQueue` is the history of
submissions. -/
structure D3DApp where
  mCurrentFence : Nat
  mFence : Nat
  mClientWidth : Int
  mClientHeight : Int
  mCurrBackBuffer : Nat
  mCommandList : List Command
  mCommandQueue : List QueueOp

/-- The members of `CrateApp` (lines 118-160).  `mCurrFrameResource` is the position of
the pointee in `mFrameResources`, an element of `mOpaqueRitems` is the position of the
pointee in `mAllRitems`; `mSrvDescriptorHeap` lists, per descriptor, the texture it views. -/
structure CrateApp (α : Type) extends D3DApp where
  mFrameResources : List (FrameResource α)
  mCurrFrameResource : Option Nat
  mCurrFrameResourceIndex : Nat
  mCbvSrvDescriptorSize : Nat
  mSrvDescriptorHeap : List String
  mGeometries : UMap (Option (MeshGeometry α))
  mMaterials : UMap (Option (Material α))
  mTextures : UMap (Option Texture)
  mAllRitems : List (RenderItem α)
  mOpaqueRitems : List Nat
  mMainPassCB : PassConstants α
  mEyePos : XMFLOAT3 α
  mView : XMFLOAT4X4 α
  mProj : XMFLOAT4X4 α
  mTheta : α
  mPhi : α
  mRadius : α
  mLastMousePos : Int × Int

/-- GPU progress seen by one call of `Update`: by how much the completed fence value has
grown since the last observation when `GetCompletedValue` is read (line 330), and by how
much more it grows while the CPU waits in `WaitForSingleObject` (line 334). -/
structure GpuProgress where
  beforeCheck : Nat
  duringWait : Nat
  deriving DecidableEq, Repr

namespace CrateApp

variable {α : Type} [LinearOrderedField α]

/-- The default-constructed `PassConstants` member `mMainPassCB`. -/
def PassConstants.zero : PassConstants α :=
  { View := MathHelper.Identity4x4, InvView := MathHelper.Identity4x4,
    Proj := MathHelper.Identity4x4, InvProj := MathHelper.Identity4x4,
    ViewProj := MathHelper.Identity4x4, InvViewProj := MathHelper.Identity4x4,
    EyePosW := ⟨0, 0, 0⟩, RenderTargetSize := ⟨0, 0⟩, InvRenderTargetSize := ⟨0, 0⟩,
    NearZ := 0, FarZ := 0, TotalTime := 0, DeltaTime := 0,
    AmbientLight := ⟨0, 0, 0, 1⟩, Lights := [] }

/-- The object after the constructor `CrateApp(hInstance)` (lines 120-159, 185-188): the
default member initialisers.  `pi` stands for `XM_PI`; the base-class members and the
uninitialised `mLastMousePos` are parameters. -/
def new (pi : α) (base : D3DApp) (lastMousePos : Int × Int) : CrateApp α :=
  { base with
    mFrameResources := [],
    mCurrFrameResource := none,
    mCurrFrameResourceIndex := 0,
    mCbvSrvDescriptorSize := 0,
    mSrvDescriptorHeap := [],
    mGeometries := [],
    mMaterials := [],
    mTextures := [],
    mAllRitems := [],
    mOpaqueRitems := [],
    mMainPassCB := PassConstants.zero,
    mEyePos := ⟨0, 0, 0⟩,
    mView := MathHelper.Identity4x4,
    mProj := MathHelper.Identity4x4,
    mTheta := 1.3 * pi,
    mPhi := 0.4 * pi,
    mRadius := 2.5,
    mLastMousePos := lastMousePos }

/-! ### Mouse input (lines 404-447) -/

/-- The flag `MK_LBUTTON` of `btnState`. -/
def MK_LBUTTON : Nat := 1

/-- The flag `MK_RBUTTON` of `btnState`. -/
def MK_RBUTTON : Nat := 2

/-- The method `CrateApp::OnMouseMove` (lines 417-447); `pi` stands for `XM_PI` and
`MathHelper::Pi`. -/
def OnMouseMove (pi : α) (app : CrateApp α) (btnState : Nat) (x y : Int) : CrateApp α :=
  let app :=
    if (btnState &&& MK_LBUTTON) ≠ 0 then
      -- Make each pixel correspond to a quarter of a degree.
      let dx := XMConvertToRadians pi (0.25 * ((x - app.mLastMousePos.1 : Int) : α))
      let dy := XMConvertToRadians pi (0.25 * ((y - app.mLastMousePos.2 : Int) : α))
      -- Update angles based on input to orbit camera around box.
      let mTheta := app.mTheta + dx
      let mPhi := app.mPhi + dy
      -- Restrict the angle mPhi.
      { app with mTheta := mTheta, mPhi := MathHelper.Clamp mPhi 0.1 (pi - 0.1) }
    else if (btnState &&& MK_RBUTTON) ≠ 0 then
      let dx := 0.05 * ((x - app.mLastMousePos.1 : Int) : α)
      let dy := 0.05 * ((y - app.mLastMousePos.2 : Int) : α)
      -- Update the camera radius based on input.
      let mRadius := app.mRadius + (dx - dy)
      -- Restrict the radius.
      { app with mRadius := MathHelper.Clamp mRadius 5.0 150.0 }
    else app
  { app with mLastMousePos := (x, y) }

/-- One mouse-move event: the button state and the pointer position. -/
structure MouseMove where
  btnState : Nat
  x : Int
  y : Int
  deriving DecidableEq, Repr

/-- Delivery of a finite sequence of mouse-move events, in order. -/
def mouseMoves (pi : α) (app : CrateApp α) (events : List MouseMove) : CrateApp α :=
  events.foldl (fun a e => OnMouseMove pi a e.btnState e.x e.y) app

/-! ### Constant upload stage (lines 449-557) -/

/-- The method `CrateApp::OnKeyboardInput` (lines 449-451): the body is empty. -/
def OnKeyboardInput (_gt : GameTimer α) (app : CrateApp α) : CrateApp α := app

/-- The method `CrateApp::UpdateCamera` (lines 453-467). -/
def UpdateCamera (dx : DirectXMath α) (_gt : GameTimer α) (app : CrateApp α) : CrateApp α :=
  -- Convert Spherical to Cartesian coordinates.
  let ex := app.mRadius * dx.sinf app.mPhi * dx.cosf app.mTheta
  let ez := app.mRadius * dx.sinf app.mPhi * dx.sinf app.mTheta
  let ey := app.mRadius * dx.cosf app.mPhi
  -- Build the view matrix.
  let pos : XMFLOAT4 α := ⟨ex, ey, ez, 1⟩
  let target : XMFLOAT4 α := ⟨0, 0, 0, 0⟩
  let up : XMFLOAT4 α := ⟨0, 1, 0, 0⟩
  { app with mEyePos := ⟨ex, ey, ez⟩, mView := dx.XMMatrixLookAtLH pos target up }

/-- The method `CrateApp::AnimateMaterials` (lines 469-472): the body is empty. -/
def AnimateMaterials (_gt : GameTimer α) (app : CrateApp α) : CrateApp α := app

/-- The constants `UpdateObjectCBs` stores for a render item (lines 483-488). -/
def objConstants (e : RenderItem α) : ObjectConstants α :=
  { World := XMMatrixTranspose e.World,
    TexTransform := XMMatrixTranspose e.TexTransform }

/-- The loop of `UpdateObjectCBs` (lines 477-495) over `mAllRitems`, writing into
`currObjectCB`: the buffer and the items after the loop. -/
def UpdateObjectCBs.forEach (currObjectCB : UploadBuffer (ObjectConstants α)) :
    List (RenderItem α) → UploadBuffer (ObjectConstants α) × List (RenderItem α)
  | [] => (currObjectCB, [])
  | e :: rest =>
    -- Only update the cbuffer data if the constants have changed.
    if e.NumFramesDirty > 0 then
      let cb := currObjectCB.CopyData e.ObjCBIndex (objConstants e)
      -- Next FrameResource need to be updated too.
      let e := { e with NumFramesDirty := e.NumFramesDirty - 1 }
      let r := UpdateObjectCBs.forEach cb rest
      (r.1, e :: r.2)
    else
      let r := UpdateObjectCBs.forEach currObjectCB rest
      (r.1, e :: r.2)

/-- The method `CrateApp::UpdateObjectCBs` (lines 474-496). -/
def UpdateObjectCBs (_gt : GameTimer α) (app : CrateApp α) : Except Halt (CrateApp α) :=
  match app.mCurrFrameResource with
  | none => .error .undefinedBehaviour
  | some cur =>
    match app.mFrameResources[cur]? with
    | none => .error .undefinedBehaviour
    | some fr =>
      let r := UpdateObjectCBs.forEach fr.ObjectCB app.mAllRitems
      .ok { app with
            mFrameResources := app.mFrameResources.set cur { fr with ObjectCB := r.1 },
            mAllRitems := r.2 }

/-- The constants `UpdateMaterialCBs` stores for a material (lines 508-514). -/
def matConstants (mat : Material α) : MaterialConstants α :=
  { DiffuseAlbedo := mat.DiffuseAlbedo,
    FresnelR0 := mat.FresnelR0,
    Roughness := mat.Roughness,
    MatTransform := XMMatrixTranspose mat.MatTransform }

/-- The loop of `UpdateMaterialCBs` (lines 501-521) over the entries of `mMaterials`,
writing into `currMaterialCB`.  An entry holding a null `unique_ptr` is dereferenced. -/
def UpdateMaterialCBs.forEach (currMaterialCB : UploadBuffer (MaterialConstants α)) :
    UMap (Option (Material α)) →
      Except Halt (UploadBuffer (MaterialConstants α) × UMap (Option (Material α)))
  | [] => .ok (currMaterialCB, [])
  | (_, none) :: _ => .error .undefinedBehaviour
  | (key, some mat) :: rest =>
    if mat.NumFramesDirty > 0 then
      let cb := currMaterialCB.CopyData mat.MatCBIndex (matConstants mat)
      -- Next FrameResource need to be updated too.
      let mat := { mat with NumFramesDirty := mat.NumFramesDirty - 1 }
      match UpdateMaterialCBs.forEach cb rest with
      | .error h => .error h
      | .ok r => .ok (r.1, (key, some mat) :: r.2)
    else
      match UpdateMaterialCBs.forEach currMaterialCB rest with
      | .error h => .error h
      | .ok r => .ok (r.1, (key, some mat) :: r.2)

/-- The method `CrateApp::UpdateMaterialCBs` (lines 498-522). -/
def UpdateMaterialCBs (_gt : GameTimer α) (app : CrateApp α) : Except Halt (CrateApp α) :=
  match app.mCurrFrameResource with
  | none => .error .undefinedBehaviour
  | some cur =>
    match app.mFrameResources[cur]? with
    | none => .error .undefinedBehaviour
    | some fr =>
      match UpdateMaterialCBs.forEach fr.MaterialCB app.mMaterials with
      | .error h => .error h
      | .ok r =>
        .ok { app with
              mFrameResources := app.mFrameResources.set cur { fr with MaterialCB := r.1 },
              mMaterials := r.2 }

/-- The method `CrateApp::UpdateMainPassCB` (lines 524-557). -/
def UpdateMainPassCB (dx : DirectXMath α) (gt : GameTimer α) (app : CrateApp α) :
    Except Halt (CrateApp α) :=
  let view := app.mView
  let proj := app.mProj
  let viewProj := XMMatrixMultiply view proj
  let invView := dx.XMMatrixInverse view
  let invProj := dx.XMMatrixInverse proj
  let invViewProj := dx.XMMatrixInverse viewProj
  let cb : PassConstants α :=
    { app.mMainPassCB with
      View := XMMatrixTranspose view,
      InvView := XMMatrixTranspose invView,
      Proj := XMMatrixTranspose proj,
      InvProj := XMMatrixTranspose invProj,
      ViewProj := XMMatrixTranspose viewProj,
      InvViewProj := XMMatrixTranspose invViewProj,
      EyePosW := app.mEyePos,
      RenderTargetSize := ⟨(app.mClientWidth : α), (app.mClientHeight : α)⟩,
      InvRenderTargetSize := ⟨1 / (app.mClientWidth : α), 1 / (app.mClientHeight : α)⟩,
      NearZ := 1,
      FarZ := 1000,
      TotalTime := gt.TotalTime,
      DeltaTime := gt.DeltaTime,
      AmbientLight := ⟨0.25, 0.25, 0.35, 1⟩,
      Lights := [⟨⟨0.6, 0.6, 0.6⟩, ⟨0.57735, -0.57735, 0.57735⟩⟩,
                 ⟨⟨0.3, 0.3, 0.3⟩, ⟨-0.57735, -0.57735, 0.57735⟩⟩,
                 ⟨⟨0.15, 0.15, 0.15⟩, ⟨0, -0.707, -0.707⟩⟩] }
  match app.mCurrFrameResource with
  | none => .error .undefinedBehaviour
  | some cur =>
    match app.mFrameResources[cur]? with
    | none => .error .undefinedBehaviour
    | some fr =>
      .ok { app with
            mMainPassCB := cb,
            mFrameResources :=
              app.mFrameResources.set cur { fr with PassCB := fr.PassCB.CopyData 0 cb } }

/-! ### Frame synchronisation (lines 319-342) -/

/-- Lines 321-326 of `Update`: input, camera, and the advance of the ring cursor. -/
def Update.cycle (dx : DirectXMath α) (gt : GameTimer α) (app : CrateApp α) : CrateApp α :=
  let app := OnKeyboardInput gt app
  let app := UpdateCamera dx gt app
  -- Cycle through the circular frame resource array.
  { app with mCurrFrameResourceIndex := (app.mCurrFrameResourceIndex + 1) % gNumFrameResources }

/-- The condition of line 330, `mCurrFrameResource->Fence != 0 &&
mFence->GetCompletedValue() < mCurrFrameResource->Fence`, for the recorded fence of the
selected slot and the completed value read. -/
def Update.mustWait (recorded completed : Nat) : Bool :=
  recorded != 0 && decide (completed < recorded)

/-- Lines 321-336 of `Update`: the acquisition of the next frame resource.  It returns the
state in which `Update` goes on to write constants (line 338), or it does not return: the
selected slot does not exist, or the wait of line 334 never ends because the completed
value stays below the recorded fence. -/
def Update.acquire (dx : DirectXMath α) (gt : GameTimer α) (gpu : GpuProgress)
    (app : CrateApp α) : Except Halt (CrateApp α) :=
  let app := Update.cycle dx gt app
  match app.mFrameResources[app.mCurrFrameResourceIndex]? with
  | none => .error .undefinedBehaviour
  | some fr =>
    let app := { app with mCurrFrameResource := some app.mCurrFrameResourceIndex,
                          mFence := app.mFence + gpu.beforeCheck }
    -- Has the GPU finished processing the commands of the current frame resource?
    if Update.mustWait fr.Fence app.mFence then
      -- If not, wait until the GPU has completed commands up to this fence point.
      let app := { app with mFence := app.mFence + gpu.duringWait }
      if app.mFence < fr.Fence then .error (.blockedOnFence fr.Fence) else .ok app
    else .ok app

/-- Lines 338-341 of `Update`: the constant uploads into the acquired frame resource. -/
def Update.upload (dx : DirectXMath α) (gt : GameTimer α) (app : CrateApp α) :
    Except Halt (CrateApp α) :=
  (UpdateObjectCBs gt (AnimateMaterials gt app)).bind fun app =>
  (UpdateMaterialCBs gt app).bind fun app =>
  UpdateMainPassCB dx gt app

/-- The method `CrateApp::Update` (lines 319-342). -/
def Update (dx : DirectXMath α) (gt : GameTimer α) (gpu : GpuProgress) (app : CrateApp α) :
    Except Halt (CrateApp α) :=
  (Update.acquire dx gt gpu app).bind (Update.upload dx gt)

/-! ### Command submission stage (lines 344-402, 967-999) -/

/-- Modelled from the spec: `d3dUtil::CalcConstantBufferByteSize` of Common/d3dUtil.h, which
is not under src/; the "stride is rounded up to the device's minimum constant-buffer
alignment" of 256 bytes, `(byteSize + 255) & ~255` on `UINT`. -/
def CalcConstantBufferByteSize (byteSize : Nat) : Nat :=
  ((byteSize + 255) % UINT_RANGE) / 256 * 256

/-- Modelled from the spec: `sizeof(ObjectConstants)`, two 4x4 matrices of `float`. -/
def sizeofObjectConstants : Nat := 128

/-- Modelled from the spec: `sizeof(MaterialConstants)`, a 4-vector, a 3-vector, a scalar
and a 4x4 matrix of `float`. -/
def sizeofMaterialConstants : Nat := 96

/-- The body of the loop of `DrawRenderItems` (lines 978-997) for the render item at
position `ri` of `mAllRitems`, drawing from the frame resource `fr`. -/
def DrawRenderItems.item (app : CrateApp α) (fr : FrameResource α) (ri : Nat) :
    Except Halt (List Command) :=
  let objCBByteSize := CalcConstantBufferByteSize sizeofObjectConstants
  let matCBByteSize := CalcConstantBufferByteSize sizeofMaterialConstants
  match app.mAllRitems[ri]? with
  | none => .error .undefinedBehaviour
  | some item =>
    match item.Geo.bind (fun k => (app.mGeometries.lookup k).join),
          item.Mat.bind (fun k => (app.mMaterials.lookup k).join) with
    | some geo, some mat =>
      let tex := mat.DiffuseSrvHeapIndex * app.mCbvSrvDescriptorSize
      let objCBAddress :=
        fr.ObjectCB.gpuVirtualAddress + (item.ObjCBIndex * objCBByteSize) % UINT_RANGE
      let matCBAddress :=
        fr.MaterialCB.gpuVirtualAddress + (mat.MatCBIndex * matCBByteSize) % UINT_RANGE
      .ok [ .IASetVertexBuffers geo.Name,
            .IASetIndexBuffer geo.Name,
            .IASetPrimitiveTopology item.PrimitiveType,
            .SetGraphicsRootDescriptorTable 0 tex,
            .SetGraphicsRootConstantBufferView 1 objCBAddress,
            .SetGraphicsRootConstantBufferView 3 matCBAddress,
            .DrawIndexedInstanced item.IndexCount 1 item.StartIndexLocation
              item.BaseVertexLocation 0 ]
    | _, _ => .error .undefinedBehaviour

/-- The method `CrateApp::DrawRenderItems` (lines 967-999): the commands recorded for the
render items `ritems`, in order. -/
def DrawRenderItems (app : CrateApp α) (fr : FrameResource α) :
    List Nat → Except Halt (List Command)
  | [] => .ok []
  | ri :: rest =>
    match DrawRenderItems.item app fr ri with
    | .error h => .error h
    | .ok cmds =>
      match DrawRenderItems app fr rest with
      | .error h => .error h
      | .ok more => .ok (cmds ++ more)

/-- The method `CrateApp::Draw` (lines 344-402). -/
def Draw (_gt : GameTimer α) (app : CrateApp α) : Except Halt (CrateApp α) :=
  match app.mCurrFrameResource with
  | none => .error .undefinedBehaviour
  | some cur =>
    match app.mFrameResources[cur]? with
    | none => .error .undefinedBehaviour
    | some fr =>
      match DrawRenderItems app fr app.mOpaqueRitems with
      | .error h => .error h
      | .ok items =>
        let cmds : List Command :=
          [ .Reset .mOpaquePSO,
            .RSSetViewports,
            .RSSetScissorRects,
            .ResourceBarrier .PRESENT .RENDER_TARGET,
            .ClearRenderTargetView,
            .ClearDepthStencilView,
            .OMSetRenderTargets,
            .SetDescriptorHeaps,
            .SetGraphicsRootSignature,
            .SetGraphicsRootConstantBufferView 2 fr.PassCB.gpuVirtualAddress ]
          ++ items ++
          [ .ResourceBarrier .RENDER_TARGET .PRESENT,
            .Close ]
        -- Advance the fence value to mark commands up to this fence point.
        let fence := (app.mCurrentFence + 1) % UINT64_RANGE
        .ok { app with
              mCommandList := cmds,
              mCurrBackBuffer := (app.mCurrBackBuffer + 1) % SwapChainBufferCount,
              mCurrentFence := fence,
              mFrameResources := app.mFrameResources.set cur { fr with Fence := fence },
              mCommandQueue :=
                app.mCommandQueue ++ [.ExecuteCommandLists cmds, .Present, .Signal fence] }

/-- One iteration of the message loop of `D3DApp::Run`: `Update` followed by `Draw`. -/
def frame (dx : DirectXMath α) (gt : GameTimer α) (gpu : GpuProgress) (app : CrateApp α) :
    Except Halt (CrateApp α) :=
  (Update dx gt gpu app).bind (Draw gt)

/-- Consecutive frames, one per element of the GPU schedule. -/
def frames (dx : DirectXMath α) (gt : GameTimer α) :
    List GpuProgress → CrateApp α → Except Halt (CrateApp α)
  | [], app => .ok app
  | gpu :: rest, app => (frame dx gt gpu app).bind (frames dx gt rest)

/-! ### Scene build (lines 871-965) -/

/-- The method `CrateApp::BuildFrameResources` (lines 871-878); `va i` are the addresses
the device gives to the buffers of the `i`-th frame resource. -/
def BuildFrameResources (va : Nat → FrameAddresses) (app : CrateApp α) : CrateApp α :=
  (List.range gNumFrameResources).foldl
    (fun a i =>
      { a with mFrameResources := a.mFrameResources ++
          [FrameResource.create (va i) 1 (a.mAllRitems.length % UINT_RANGE)
            (a.mMaterials.length % UINT_RANGE)] })
    app

/-- One block of `BuildMaterials` (for instance lines 882-892): a default-constructed
`Material` with the given name and indices, stored under its name.  The members not
assigned keep their initialisers in d3dUtil.h (`NumFramesDirty = gNumFrameResources`,
identity `MatTransform`). -/
def BuildMaterials.add (app : CrateApp α) (name : String) (matCBIndex srvHeapIndex : Nat) :
    CrateApp α :=
  let mat : Material α :=
    { Name := name,
      MatCBIndex := matCBIndex,
      DiffuseSrvHeapIndex := srvHeapIndex,
      NumFramesDirty := gNumFrameResources,
      DiffuseAlbedo := ⟨1, 1, 1, 1⟩,
      FresnelR0 := ⟨0.05, 0.05, 0.05⟩,
      Roughness := 0.2,
      MatTransform := MathHelper.Identity4x4 }
  { app with mMaterials := app.mMaterials.assign name (some mat) }

/-- The method `CrateApp::BuildMaterials` (lines 880-945). -/
def BuildMaterials (app : CrateApp α) : CrateApp α :=
  let app := BuildMaterials.add app "woodCrate" 0 0
  let app := BuildMaterials.add app "grass" 1 1
  let app := BuildMaterials.add app "bricks" 2 2
  let app := BuildMaterials.add app "ice" 3 3
  BuildMaterials.add app "water" 4 4

/-- The method `CrateApp::BuildRenderItems` (lines 948-965). -/
def BuildRenderItems (app : CrateApp α) (name materials : String)
    (sX sY sZ tX tY tZ : α) : Except Halt (CrateApp α) :=
  let boxRitem : RenderItem α := RenderItem.default
  let boxRitem := { boxRitem with
    World := XMMatrixMultiply (XMMatrixScaling sX sY sZ) (XMMatrixTranslation tX tY tZ) }
  let boxRitem := { boxRitem with ObjCBIndex := app.mAllRitems.length % UINT_RANGE }
  -- `mMaterials[materials].get()`: a missing key is inserted with a null pointer.
  let m := app.mMaterials.index materials none
  let boxRitem := { boxRitem with Mat := m.1.map (fun _ => materials) }
  let app := { app with mMaterials := m.2 }
  -- `mGeometries[name].get()`
  let g := app.mGeometries.index name none
  let boxRitem := { boxRitem with Geo := g.1.map (fun _ => name) }
  let app := { app with mGeometries := g.2 }
  let boxRitem := { boxRitem with PrimitiveType := D3D_PRIMITIVE_TOPOLOGY_TRIANGLELIST }
  match g.1 with
  | none => .error .undefinedBehaviour
  | some geo =>
    -- `boxRitem->Geo->DrawArgs["box"]`: a missing key is inserted with a zero submesh.
    let d := geo.DrawArgs.index "box" SubmeshGeometry.zero
    let app := { app with
      mGeometries := app.mGeometries.assign name (some { geo with DrawArgs := d.2 }) }
    let boxRitem := { boxRitem with
      IndexCount := d.1.IndexCount,
      StartIndexLocation := d.1.StartIndexLocation,
      BaseVertexLocation := d.1.BaseVertexLocation }
    let app := { app with mAllRitems := app.mAllRitems ++ [boxRitem] }
    -- All the render items are opaque.
    .ok { app with mOpaqueRitems := List.range app.mAllRitems.length }

/-- The arguments of one call of `BuildRenderItems`. -/
structure BuildRenderItemsArgs (α : Type) where
  name : String
  materials : String
  sX : α
  sY : α
  sZ : α
  tX : α
  tY : α
  tZ : α

/-- A sequence of calls of `BuildRenderItems`, in order. -/
def buildRenderItems : List (BuildRenderItemsArgs α) → CrateApp α → Except Halt (CrateApp α)
  | [], app => .ok app
  | c :: rest, app =>
    (BuildRenderItems app c.name c.materials c.sX c.sY c.sZ c.tX c.tY c.tZ).bind
      (buildRenderItems rest)

/-! ### Well-formed scenes -/

/-- No entry of `mMaterials` holds a null `unique_ptr`. -/
def materialsLoaded (app : CrateApp α) : Bool :=
  app.mMaterials.all (fun p => p.2.isSome)

/-- Every element of `mOpaqueRitems` points to a render item of `mAllRitems` whose `Geo`
and `Mat` point to a geometry and a material that are registered. -/
def drawable (app : CrateApp α) : Bool :=
  app.mOpaqueRitems.all (fun ri =>
    match app.mAllRitems[ri]? with
    | none => false
    | some item =>
      (item.Geo.bind (fun k => (app.mGeometries.lookup k).join)).isSome &&
      (item.Mat.bind (fun k => (app.mMaterials.lookup k).join)).isSome)

/-- The scene can be rendered: the materials are loaded, the opaque items are drawable and
the ring has its `gNumFrameResources` frame resources. -/
def sceneReady (app : CrateApp α) : Bool :=
  materialsLoaded app && drawable app &&
    decide (gNumFrameResources ≤ app.mFrameResources.length)

/-! ### Sequences of upload calls -/

/-- The render items after consecutive runs of the loop of `UpdateObjectCBs`, one run per
element of `cbs`: the object buffer of the frame resource that is current at that call. -/
def objectUploads (cbs : List (UploadBuffer (ObjectConstants α)))
    (items : List (RenderItem α)) : List (RenderItem α) :=
  cbs.foldl (fun its cb => (UpdateObjectCBs.forEach cb its).2) items

/-- The state a run ends in, `dflt` when the run does not return. -/
def resultOr (dflt : CrateApp α) : Except Halt (CrateApp α) → CrateApp α
  | .ok app => app
  | .error _ => dflt

/-! ### A small scene over the rationals, for executable instances -/

/-- Base-class state after initialisation: the fence counter and the completed value are
equal (the queue was flushed), the window is 800 by 600. -/
def exampleBase : D3DApp :=
  { mCurrentFence := 3, mFence := 3, mClientWidth := 800, mClientHeight := 600,
    mCurrBackBuffer := 0, mCommandList := [], mCommandQueue := [] }

/-- A geometry named "Box" with one submesh "box" of 36 indices. -/
def exampleGeometry : MeshGeometry ℚ :=
  { Name := "Box", VertexBufferCPU := [], IndexBufferCPU := [],
    VertexByteStride := 32, VertexBufferByteSize := 0, IndexBufferByteSize := 0,
    DrawArgs := [("box", { IndexCount := 36, StartIndexLocation := 0, BaseVertexLocation := 0 })] }

/-- The application with the five materials and the geometry "Box", before any render
item is built; `355/113` stands in for `XM_PI`. -/
def exampleScene : CrateApp ℚ :=
  { BuildMaterials (CrateApp.new (355 / 113) exampleBase (0, 0)) with
    mGeometries := [("Box", some exampleGeometry)] }

/-- The call `BuildRenderItems("Box", "grass", 2, 2, 2, 10, -2, -5)`. -/
def exampleCall : BuildRenderItemsArgs ℚ :=
  { name := "Box", materials := "grass", sX := 2, sY := 2, sZ := 2, tX := 10, tY := -2, tZ := -5 }

/-- Addresses of the upload buffers of the `i`-th frame resource. -/
def exampleAddresses (i : Nat) : FrameAddresses :=
  { passCB := 65536 * (3 * i), objectCB := 65536 * (3 * i + 1), materialCB := 65536 * (3 * i + 2) }

/-- Stand-ins for the library functions that the model does not compute. -/
def exampleMath : DirectXMath ℚ :=
  { sinf := fun _ => 0, cosf := fun _ => 1,
    XMMatrixLookAtLH := fun _ _ _ => 1, XMMatrixInverse := fun M => M }

/-- A timer reading. -/
def exampleTimer : GameTimer ℚ := { TotalTime := 0, DeltaTime := 0 }

/-- The scene with two render items and the three frame resources, ready for the first
frame. -/
def exampleApp : CrateApp ℚ :=
  match buildRenderItems [exampleCall, exampleCall] exampleScene with
  | .ok app => BuildFrameResources exampleAddresses app
  | .error _ => exampleScene

/-- The example application after `n` frames during which the GPU completes nothing. -/
def exampleAfterFrames (n : Nat) : CrateApp ℚ :=
  resultOr exampleApp
    (frames exampleMath exampleTimer (List.replicate n ⟨0, 0⟩) exampleApp)

/-- The example application at the fourth acquisition, after three frames during which
the GPU completes nothing; during the wait the GPU completes one more fence value. -/
def exampleFourthAcquisition : CrateApp ℚ :=
  resultOr exampleApp
    ((frames exampleMath exampleTimer [⟨0, 0⟩, ⟨0, 0⟩, ⟨0, 0⟩] exampleApp).bind
      (Update.acquire exampleMath exampleTimer ⟨0, 1⟩))

/-- The example application after two frames and the `Update` of the third frame. -/
def exampleThirdUpdate : CrateApp ℚ :=
  resultOr exampleApp (Update exampleMath exampleTimer ⟨0, 0⟩ (exampleAfterFrames 2))

/-- The second render item of the example application. -/
def exampleSecondItem : RenderItem ℚ :=
  (exampleApp.mAllRitems[1]?).getD RenderItem.default

end CrateApp

/-! ## Generated meshes (Common/GeometryGenerator.h) -/

/-- Modelled from the spec: `GeometryGenerator::Vertex` of Common/GeometryGenerator.h,
which is not under src/; a generated vertex is "position/normal/texcoord". -/
structure GeneratedVertex (α : Type) where
  Position : XMFLOAT3 α
  Normal : XMFLOAT3 α
  TexC : XMFLOAT2 α

/-- Modelled from the spec: `GeometryGenerator::MeshData` of Common/GeometryGenerator.h,
which is not under src/; "a finite list of vertices (position/normal/texcoord) and a
triangle index list". -/
structure MeshData (α : Type) where
  Vertices : List (GeneratedVertex α)
  Indices32 : List Nat

/-- Modelled from the spec: `MeshData::GetIndices16`, the "16-bit indices": every index
converted to `uint16`. -/
def MeshData.GetIndices16 {α : Type} (m : MeshData α) : List Nat :=
  m.Indices32.map (fun x => x % 2 ^ 16)

/-- Modelled from the spec: the shape functions of `GeometryGenerator` that `Initialize`
calls; "given shape parameters, returns ... vertices ... and a triangle index list;
restartable (pure function of parameters)". -/
structure GeometryGenerator (α : Type) where
  CreateBox : α → α → α → Nat → MeshData α
  CreateCylinder : α → α → α → Nat → Nat → MeshData α
  CreateSphere : α → Nat → Nat → MeshData α
  CreateGrid : α → α → Nat → Nat → MeshData α
  CreatePyramid : α → α → α → Nat → MeshData α
  CreateCone : α → α → Nat → Nat → MeshData α
  CreateWedge : α → α → α → Nat → MeshData α
  CreateTriangularPrism : α → α → α → Nat → MeshData α
  CreateDiamond : α → MeshData α

/-- Whether a command is `DrawIndexedInstanced`. -/
def Command.isDrawIndexedInstanced : Command → Bool
  | .DrawIndexedInstanced _ _ _ _ _ => true
  | _ => false

namespace CrateApp

variable {α : Type} [LinearOrderedField α]

/-! ### Geometry registry (lines 754-836) -/

/-- Modelled from the spec: `sizeof(Vertex)`, three plus three plus two `float`. -/
def sizeofVertex : Nat := 32

/-- An element of `std::vector<Vertex> vertices(totalVertexCount)`: value-initialised. -/
def Vertex.zero : Vertex α :=
  { Pos := ⟨0, 0, 0⟩, Normal := ⟨0, 0, 0⟩, TexC := ⟨0, 0⟩ }

/-- The loop of lines 796-802, `for (size_t i = 0; i < box.Vertices.size(); ++i, ++k)`,
with `rem` iterations to go: `i` is the `size_t` counter, `k` the `UINT` counter, which
wraps at `2^32`. -/
def BuildShapeGeometry.pack (box : List (GeneratedVertex α)) :
    Nat → Nat → Nat → List (Vertex α) → Except Halt (List (Vertex α))
  | 0, _, _, vertices => .ok vertices
  | rem + 1, i, k, vertices =>
    match box[i]?, box[k]?, vertices[k]? with
    | some bi, some bk, some v =>
      BuildShapeGeometry.pack box rem (i + 1) ((k + 1) % UINT_RANGE)
        (vertices.set k { v with Pos := bi.Position, Normal := bk.Normal, TexC := bk.TexC })
    | _, _, _ => .error .undefinedBehaviour

/-- The method `CrateApp::BuildShapeGeometry` (lines 754-836).  The CPU copies of the
buffers hold the first `vbByteSize` bytes of `vertices` and the first `ibByteSize` bytes
of `indices`, as `CopyMemory` copies them. -/
def BuildShapeGeometry (app : CrateApp α) (name : String) (shape : MeshData α) :
    Except Halt (CrateApp α) :=
  let box := shape
  -- Cache the vertex offsets to each object in the concatenated vertex buffer.
  let boxVertexOffset : Nat := 0
  -- Cache the starting index for each object in the concatenated index buffer.
  let boxIndexOffset : Nat := 0
  let boxSubmesh : SubmeshGeometry :=
    { IndexCount := box.Indices32.length % UINT_RANGE,
      StartIndexLocation := boxIndexOffset,
      BaseVertexLocation := boxVertexOffset }
  let totalVertexCount := box.Vertices.length
  match BuildShapeGeometry.pack box.Vertices box.Vertices.length 0 0
      (List.replicate totalVertexCount Vertex.zero) with
  | .error h => .error h
  | .ok vertices =>
    let indices := box.GetIndices16
    let vbByteSize := ((vertices.length % UINT_RANGE) * sizeofVertex) % UINT_RANGE
    let ibByteSize := ((indices.length % UINT_RANGE) * 2) % UINT_RANGE
    let geo : MeshGeometry α :=
      { Name := name,
        VertexBufferCPU := vertices.take (vbByteSize / sizeofVertex),
        IndexBufferCPU := indices.take (ibByteSize / 2),
        VertexByteStride := sizeofVertex,
        VertexBufferByteSize := vbByteSize,
        IndexBufferByteSize := ibByteSize,
        DrawArgs := UMap.assign [] "box" boxSubmesh }
    .ok { app with mGeometries := app.mGeometries.assign name (some geo) }

/-- A sequence of calls of `BuildShapeGeometry`, in order. -/
def buildShapeGeometries :
    List (String × MeshData α) → CrateApp α → Except Halt (CrateApp α)
  | [], app => .ok app
  | c :: rest, app => (BuildShapeGeometry app c.1 c.2).bind (buildShapeGeometries rest)

/-! ### Textures and descriptor heap (lines 560-610, 658-736) -/

/-- One block of `LoadTextures` (for instance lines 562-569): a texture with the given
name and file, stored under its name.  The load itself is assumed to succeed. -/
def LoadTextures.load (app : CrateApp α) (name filename : String) : CrateApp α :=
  { app with mTextures := app.mTextures.assign name (some { Name := name, Filename := filename }) }

/-- The method `CrateApp::LoadTextures` (lines 560-610). -/
def LoadTextures (app : CrateApp α) : CrateApp α :=
  let app := LoadTextures.load app "woodCrateTex" "../../Textures/stone.dds"
  let app := LoadTextures.load app "grassTex" "../../Textures/grass.dds"
  let app := LoadTextures.load app "bricksTex" "../../Textures/bricks3.dds"
  let app := LoadTextures.load app "iceTex" "../../Textures/ice.dds"
  LoadTextures.load app "waterTex" "../../Textures/water1.dds"

/-- The method `CrateApp::BuildDescriptorHeaps` (lines 658-736): a heap of 5 descriptors;
descriptor `i` views the resource of the `i`-th texture looked up in lines 674-678, which
is recorded by the texture's `Name`.  A lookup `mTextures[key]->Resource` of a missing
key inserts a null pointer and dereferences it. -/
def BuildDescriptorHeaps (app : CrateApp α) : Except Halt (CrateApp α) :=
  let t0 := app.mTextures.index "woodCrateTex" none
  let t1 := t0.2.index "grassTex" none
  let t2 := t1.2.index "bricksTex" none
  let t3 := t2.2.index "iceTex" none
  let t4 := t3.2.index "waterTex" none
  match t0.1, t1.1, t2.1, t3.1, t4.1 with
  | some woodCrateTex, some grassTex, some bricksTex, some iceTex, some waterTex =>
    .ok { app with
          mTextures := t4.2,
          mSrvDescriptorHeap :=
            [woodCrateTex.Name, grassTex.Name, bricksTex.Name, iceTex.Name, waterTex.Name] }
  | _, _, _, _, _ => .error .undefinedBehaviour

/-! ### Initialisation (lines 196-308) -/

/-- The calls of `BuildShapeGeometry` in `Initialize` (lines 218-233), in order. -/
def initialShapes (geoGen : GeometryGenerator α) : List (String × MeshData α) :=
  [ ("Box", geoGen.CreateBox 1.0 1.0 1.0 0),
    ("Box2", geoGen.CreateBox 1.0 1.0 1.0 0),
    ("Box3", geoGen.CreateBox 1.0 1.0 1.0 0),
    ("Cylinder", geoGen.CreateCylinder 1.0 1.0 1.0 30 1),
    ("Sphere", geoGen.CreateSphere 1.0 30 30),
    ("Grid", geoGen.CreateGrid 1.0 5.0 2 2),
    ("Grid2", geoGen.CreateGrid 1.0 5.0 2 2),
    ("Grid3", geoGen.CreateGrid 1.0 5.0 2 2),
    ("Pyramid", geoGen.CreatePyramid 1.0 1.0 1.0 0),
    ("Cone2", geoGen.CreateCone 1.0 1.0 10 2),
    ("Wedge", geoGen.CreateWedge 1.0 1.0 1.0 0),
    ("TriangularPrism", geoGen.CreateTriangularPrism 1.0 1.0 1.0 0),
    ("Diamond", geoGen.CreateDiamond 1.0) ]

/-- The calls of `BuildRenderItems` in `Initialize` (lines 236-295), in order. -/
def initialRenderItems : List (BuildRenderItemsArgs α) :=
  [ -- Alligators
    ⟨"TriangularPrism", "grass", 2.0, 2.0, 2.0, 10.0, -2.0, -5.0⟩,
    ⟨"TriangularPrism", "grass", 2.0, 2.0, 2.0, 10.0, -2.0, 5.0⟩,
    ⟨"TriangularPrism", "grass", 2.0, 2.0, 2.0, 10.0, -2.0, -11.0⟩,
    ⟨"TriangularPrism", "grass", 2.0, 2.0, 2.0, 5.0, -2.0, -11.0⟩,
    ⟨"TriangularPrism", "grass", 2.0, 2.0, 2.0, 0.0, -2.0, -11.0⟩,
    ⟨"TriangularPrism", "grass", 2.0, 2.0, 2.0, -5.0, -2.0, -11.0⟩,
    ⟨"TriangularPrism", "grass", 2.0, 2.0, 2.0, -10.0, -2.0, -11.0⟩,
    -- Decoration
    ⟨"Diamond", "ice", 2.0, 2.0, 2.0, 0.0, 10.0, 0.0⟩,
    -- Chains for bridge
    ⟨"Wedge", "woodCrate", 6.0, 5.0, 0.5, 11.0, 0.5, -3.0⟩,
    ⟨"Wedge", "woodCrate", 6.0, 5.0, 0.5, 11.0, 0.5, 3.0⟩,
    -- Walls
    ⟨"Box", "bricks", 2.0, 6.0, 12.0, -8.0, 1.0, 0.0⟩,
    ⟨"Box", "bricks", 2.0, 6.0, 12.0, 8.0, 1.0, 0.0⟩,
    ⟨"Box", "bricks", 12.0, 6.0, 2.0, 0.0, 1.0, 8.0⟩,
    ⟨"Box", "bricks", 12.0, 6.0, 2.0, 0.0, 1.0, -8.0⟩,
    -- Towers
    ⟨"Cylinder", "grass", 2.0, 8.0, 2.0, -8.0, 2.0, 8.0⟩,
    ⟨"Cylinder", "grass", 2.0, 8.0, 2.0, 8.0, 2.0, 8.0⟩,
    ⟨"Cylinder", "grass", 2.0, 8.0, 2.0, -8.0, 2.0, -8.0⟩,
    ⟨"Cylinder", "grass", 2.0, 8.0, 2.0, 8.0, 2.0, -8.0⟩,
    -- Tower roofs
    ⟨"Cone2", "woodCrate", 2.0, 8.0, 2.0, -8.0, 8.0, 8.0⟩,
    ⟨"Cone2", "woodCrate", 2.0, 8.0, 2.0, 8.0, 8.0, 8.0⟩,
    ⟨"Cone2", "woodCrate", 2.0, 8.0, 2.0, -8.0, 8.0, -8.0⟩,
    ⟨"Cone2", "woodCrate", 2.0, 8.0, 2.0, 8.0, 8.0, -8.0⟩,
    -- Tower balls
    ⟨"Sphere", "ice", 1.0, 1.0, 1.0, -8.0, 12.0, 8.0⟩,
    ⟨"Sphere", "ice", 1.0, 1.0, 1.0, 8.0, 12.0, 8.0⟩,
    ⟨"Sphere", "ice", 1.0, 1.0, 1.0, -8.0, 12.0, -8.0⟩,
    ⟨"Sphere", "ice", 1.0, 1.0, 1.0, 8.0, 12.0, -8.0⟩,
    -- Gate and door
    ⟨"Box2", "woodCrate", 6.0, 0.5, 6.0, 11.0, -2.0, 0.0⟩,
    ⟨"Box3", "woodCrate", 0.5, 6.0, 6.0, 9.0, 1.0, 0.0⟩,
    -- Decoration on walls
    ⟨"Pyramid", "ice", 1.0, 1.0, 1.0, -8.0, 4.0, 0.0⟩,
    ⟨"Pyramid", "ice", 1.0, 1.0, 1.0, -8.0, 4.0, 4.0⟩,
    ⟨"Pyramid", "ice", 1.0, 1.0, 1.0, -8.0, 4.0, -4.0⟩,
    ⟨"Pyramid", "ice", 1.0, 1.0, 1.0, 0.0, 4.0, 8.0⟩,
    ⟨"Pyramid", "ice", 1.0, 1.0, 1.0, 4.0, 4.0, 8.0⟩,
    ⟨"Pyramid", "ice", 1.0, 1.0, 1.0, -4.0, 4.0, 8.0⟩,
    ⟨"Pyramid", "ice", 1.0, 1.0, 1.0, 4.0, 4.0, -8.0⟩,
    ⟨"Pyramid", "ice", 1.0, 1.0, 1.0, 0.0, 4.0, -8.0⟩,
    ⟨"Pyramid", "ice", 1.0, 1.0, 1.0, -4.0, 4.0, -8.0⟩,
    -- Moat, floor and grass
    ⟨"Grid", "water", 25.0, 20.0, 5.0, 0.0, -2.0, 0.0⟩,
    ⟨"Grid2", "grass", 40.0, 20.0, 10.0, 0.0, -2.8, 0.0⟩,
    ⟨"Grid3", "woodCrate", 15.0, 20.0, 4.0, 0.0, -1.8, 0.0⟩ ]

/-- Modelled from the spec: `D3DApp::FlushCommandQueue` of Common/d3dApp.cpp, which is not
under src/; it signals a new fence value and "drains the GPU (waits for the most recent
fence)", so that the completed value has reached the fence counter when it returns. -/
def FlushCommandQueue (app : CrateApp α) : CrateApp α :=
  let fence := (app.mCurrentFence + 1) % UINT64_RANGE
  { app with
    mCurrentFence := fence,
    mCommandQueue := app.mCommandQueue ++ [QueueOp.Signal fence],
    mFence := max app.mFence fence }

/-- The method `CrateApp::Initialize` (lines 196-308), after `D3DApp::Initialize` has
returned true.  `descriptorSize` is the result of `GetDescriptorHandleIncrementSize`;
the commands that upload textures and meshes are not recorded. -/
def Initialize (geoGen : GeometryGenerator α) (descriptorSize : Nat)
    (va : Nat → FrameAddresses) (app : CrateApp α) : Except Halt (CrateApp α) :=
  -- Reset the command list to prep for initialization commands.
  let app := { app with mCommandList := [] }
  let app := { app with mCbvSrvDescriptorSize := descriptorSize }
  let app := LoadTextures app
  (BuildDescriptorHeaps app).bind fun app =>
  (buildShapeGeometries (initialShapes geoGen) app).bind fun app =>
  let app := BuildMaterials app
  (buildRenderItems initialRenderItems app).bind fun app =>
  let app := BuildFrameResources va app
  -- Execute the initialization commands.
  let app := { app with mCommandList := app.mCommandList ++ [Command.Close] }
  let app := { app with
    mCommandQueue := app.mCommandQueue ++ [QueueOp.ExecuteCommandLists app.mCommandList] }
  -- Wait until initialization is complete.
  .ok (FlushCommandQueue app)

/-! ### Further examples over the rationals -/

/-- A generated vertex whose three fields all carry the number `t`. -/
def exampleVertex (t : ℚ) : GeneratedVertex ℚ :=
  { Position := ⟨t, 0, 0⟩, Normal := ⟨0, t, 0⟩, TexC := ⟨t, t⟩ }

/-- A mesh of three distinct vertices and three indices. -/
def exampleMesh : MeshData ℚ :=
  { Vertices := [exampleVertex 1, exampleVertex 2, exampleVertex 3], Indices32 := [0, 1, 2] }

/-- A generator that returns `exampleMesh` for every shape. -/
def exampleGenerator : GeometryGenerator ℚ :=
  { CreateBox := fun _ _ _ _ => exampleMesh,
    CreateCylinder := fun _ _ _ _ _ => exampleMesh,
    CreateSphere := fun _ _ _ => exampleMesh,
    CreateGrid := fun _ _ _ _ => exampleMesh,
    CreatePyramid := fun _ _ _ _ => exampleMesh,
    CreateCone := fun _ _ _ _ => exampleMesh,
    CreateWedge := fun _ _ _ _ => exampleMesh,
    CreateTriangularPrism := fun _ _ _ _ => exampleMesh,
    CreateDiamond := fun _ => exampleMesh }

/-- A mesh of `2^32 + 1` vertices and no index: `2^32` copies of one vertex followed by a
different vertex. -/
def exampleWrapMesh : MeshData ℚ :=
  { Vertices := List.replicate UINT_RANGE (exampleVertex 1) ++ [exampleVertex 2],
    Indices32 := [] }

/-- The example application after the `Update` of the third frame, with a singular view
matrix (all entries 0). -/
def exampleSingularView : CrateApp ℚ :=
  { exampleThirdUpdate with mView := 0 }

/-! ### Frames in flight -/

/-- The fence recorded in ring slot `j`, 0 when the slot does not exist. -/
def slotFence (app : CrateApp α) (j : Nat) : Nat :=
  match app.mFrameResources[j]? with
  | some fr => fr.Fence
  | none => 0

/-- How far the fence counter `mCurrentFence` can be ahead of the completed value `mFence`
between two frames, in terms of the fences recorded in the three ring slots: the slot that
the next `Update` selects was submitted at most two fence values ago, the slot after it at
most one fence value ago, and the slot under the cursor holds the counter; a slot that was
never submitted (fence 0) stands for a frame the GPU has completed. -/
def framesInFlightBounded (app : CrateApp α) : Prop :=
  (slotFence app ((app.mCurrFrameResourceIndex + 1) % gNumFrameResources) = 0 ∧
      app.mCurrentFence ≤ app.mFence + 2 ∨
    app.mCurrentFence
      ≤ slotFence app ((app.mCurrFrameResourceIndex + 1) % gNumFrameResources) + 2) ∧
  (slotFence app ((app.mCurrFrameResourceIndex + 2) % gNumFrameResources) = 0 ∧
      app.mCurrentFence ≤ app.mFence + 1 ∨
    app.mCurrentFence
      ≤ slotFence app ((app.mCurrFrameResourceIndex + 2) % gNumFrameResources) + 1) ∧
  (slotFence app (app.mCurrFrameResourceIndex % gNumFrameResources) = 0 ∧
      app.mCurrentFence ≤ app.mFence ∨
    app.mCurrentFence
      ≤ slotFence app (app.mCurrFrameResourceIndex % gNumFrameResources)) ∧
  app.mCurrentFence ≤ app.mFence + 3

end CrateApp

end GAME3111

/-! # Theorems -/

namespace GAME3111

open CrateApp

section Camera

variable {α : Type} [LinearOrderedField α]

/-- The function `Clamp` returns a value between its bounds when the bounds are ordered. -/
theorem clamp_mem (x low high : α) (h : low ≤ high) :
    low ≤ MathHelper.Clamp x low high ∧ MathHelper.Clamp x low high ≤ high := by
  unfold MathHelper.Clamp
  split_ifs with h1 h2
  · exact ⟨le_rfl, h⟩
  · exact ⟨h, le_rfl⟩
  · exact ⟨not_lt.mp h1, not_lt.mp h2⟩

/-- The function `Clamp` is the identity on values between its bounds. -/
theorem clamp_of_mem (x low high : α) (h1 : low ≤ x) (h2 : x ≤ high) :
    MathHelper.Clamp x low high = x := by
  unfold MathHelper.Clamp
  rw [if_neg (not_lt.mpr h1), if_neg (not_lt.mpr h2)]

/-- The handler `OnMouseMove` keeps `mPhi` inside any ordered clamp range it is already in. -/
theorem OnMouseMove_mPhi_mem (pi : α) (hpi : (0.1 : α) ≤ pi - 0.1) (app : CrateApp α)
    (btnState : Nat) (x y : Int)
    (h : 0.1 ≤ app.mPhi ∧ app.mPhi ≤ pi - 0.1) :
    0.1 ≤ (OnMouseMove pi app btnState x y).mPhi ∧
      (OnMouseMove pi app btnState x y).mPhi ≤ pi - 0.1 := by
  unfold OnMouseMove
  split_ifs
  · exact clamp_mem _ _ _ hpi
  · exact h
  · exact h

/-- A sequence of mouse moves keeps `mPhi` inside the clamp range. -/
theorem mouseMoves_mPhi_mem (pi : α) (hpi : (0.1 : α) ≤ pi - 0.1) (events : List MouseMove) :
    ∀ app : CrateApp α, (0.1 ≤ app.mPhi ∧ app.mPhi ≤ pi - 0.1) →
      0.1 ≤ (mouseMoves pi app events).mPhi ∧ (mouseMoves pi app events).mPhi ≤ pi - 0.1 := by
  induction events with
  | nil => intro app h; exact h
  | cons e rest ih =>
    intro app h
    exact ih _ (OnMouseMove_mPhi_mem pi hpi app e.btnState e.x e.y h)

end Camera

/-- C7: starting from `mPhi = 0.4 * pi`, after every finite sequence of `OnMouseMove`
events (the empty sequence included; whichever buttons are held, in particular with the
left button held throughout) `mPhi` lies between `0.1` and `pi - 0.1`, over the reals. -/
theorem C7_mPhi_stays_clamped (app : CrateApp ℝ) (h0 : app.mPhi = 0.4 * Real.pi)
    (events : List MouseMove) :
    0.1 ≤ (mouseMoves Real.pi app events).mPhi ∧
      (mouseMoves Real.pi app events).mPhi ≤ Real.pi - 0.1 := by
  have h3 := Real.pi_gt_three
  apply mouseMoves_mPhi_mem
  · norm_num; linarith
  · rw [h0]; constructor <;> norm_num <;> linarith

/-- C7, instance: two left-button drags from the freshly constructed application. -/
theorem C7_mPhi_stays_clamped_witness :
    0.1 ≤ (mouseMoves Real.pi (CrateApp.new Real.pi ⟨0, 0, 800, 600, 0, [], []⟩ (0, 0))
        [⟨1, 10, 2000⟩, ⟨1, 10, -3000⟩]).mPhi ∧
      (mouseMoves Real.pi (CrateApp.new Real.pi ⟨0, 0, 800, 600, 0, [], []⟩ (0, 0))
        [⟨1, 10, 2000⟩, ⟨1, 10, -3000⟩]).mPhi ≤ Real.pi - 0.1 :=
  C7_mPhi_stays_clamped _ rfl _

section Camera

variable {α : Type} [LinearOrderedField α]

/-- The clamp of line 442 returns a radius inside `[5, 150]`. -/
theorem clamp_radius_mem (x : α) :
    5 ≤ MathHelper.Clamp x 5.0 150.0 ∧ MathHelper.Clamp x 5.0 150.0 ≤ 150 := by
  have h := clamp_mem x (5.0 : α) 150.0 (by norm_num)
  have e1 : (5.0 : α) = 5 := by norm_num
  have e2 : (150.0 : α) = 150 := by norm_num
  rw [e1, e2] at h
  rw [e1, e2]
  exact h

/-- The handler `OnMouseMove` keeps `mRadius` inside `[5, 150]` once it is there. -/
theorem OnMouseMove_mRadius_mem (pi : α) (app : CrateApp α) (btnState : Nat) (x y : Int)
    (h : 5 ≤ app.mRadius ∧ app.mRadius ≤ 150) :
    5 ≤ (OnMouseMove pi app btnState x y).mRadius ∧
      (OnMouseMove pi app btnState x y).mRadius ≤ 150 := by
  unfold OnMouseMove
  split_ifs
  · exact h
  · exact clamp_radius_mem _
  · exact h

/-- The handler `OnMouseMove` never takes `mRadius` above 150 when it was not above before. -/
theorem OnMouseMove_mRadius_le (pi : α) (app : CrateApp α) (btnState : Nat) (x y : Int)
    (h : app.mRadius ≤ 150) : (OnMouseMove pi app btnState x y).mRadius ≤ 150 := by
  unfold OnMouseMove
  split_ifs
  · exact h
  · exact (clamp_radius_mem _).2
  · exact h

/-- With the left button held `OnMouseMove` leaves `mRadius` as it is. -/
theorem OnMouseMove_mRadius_left (pi : α) (app : CrateApp α) (btnState : Nat) (x y : Int)
    (h : btnState &&& MK_LBUTTON ≠ 0) :
    (OnMouseMove pi app btnState x y).mRadius = app.mRadius := by
  unfold OnMouseMove
  rw [if_pos h]

/-- With the right button held and the left button released `OnMouseMove` clamps
`mRadius` into `[5, 150]`. -/
theorem OnMouseMove_mRadius_right (pi : α) (app : CrateApp α) (btnState : Nat) (x y : Int)
    (hl : btnState &&& MK_LBUTTON = 0) (hr : btnState &&& MK_RBUTTON ≠ 0) :
    5 ≤ (OnMouseMove pi app btnState x y).mRadius ∧
      (OnMouseMove pi app btnState x y).mRadius ≤ 150 := by
  unfold OnMouseMove
  rw [if_neg (by simpa using hl), if_pos hr]
  exact clamp_radius_mem _

/-- A sequence of mouse moves keeps `mRadius` inside `[5, 150]` once it is there. -/
theorem mouseMoves_mRadius_mem (pi : α) (events : List MouseMove) :
    ∀ app : CrateApp α, (5 ≤ app.mRadius ∧ app.mRadius ≤ 150) →
      5 ≤ (mouseMoves pi app events).mRadius ∧ (mouseMoves pi app events).mRadius ≤ 150 := by
  induction events with
  | nil => intro app h; exact h
  | cons e rest ih =>
    intro app h
    exact ih _ (OnMouseMove_mRadius_mem pi app e.btnState e.x e.y h)

/-- A sequence of mouse moves never takes `mRadius` above 150. -/
theorem mouseMoves_mRadius_le (pi : α) (events : List MouseMove) :
    ∀ app : CrateApp α, app.mRadius ≤ 150 → (mouseMoves pi app events).mRadius ≤ 150 := by
  induction events with
  | nil => intro app h; exact h
  | cons e rest ih =>
    intro app h
    exact ih _ (OnMouseMove_mRadius_le pi app e.btnState e.x e.y h)

/-- While the left button is held in every event, `mRadius` does not change. -/
theorem mouseMoves_mRadius_left (pi : α) (events : List MouseMove) :
    ∀ app : CrateApp α, (∀ e ∈ events, e.btnState &&& MK_LBUTTON ≠ 0) →
      (mouseMoves pi app events).mRadius = app.mRadius := by
  induction events with
  | nil => intro app _; rfl
  | cons e rest ih =>
    intro app h
    have h1 := ih (OnMouseMove pi app e.btnState e.x e.y)
      (fun e1 he1 => h e1 (List.mem_cons_of_mem _ he1))
    have h2 := OnMouseMove_mRadius_left pi app e.btnState e.x e.y (h e (List.mem_cons_self _ _))
    show (mouseMoves pi (OnMouseMove pi app e.btnState e.x e.y) rest).mRadius = app.mRadius
    rw [h1, h2]

/-- Once one event of the sequence has the right button held and the left button
released, `mRadius` ends inside `[5, 150]`. -/
theorem mouseMoves_mRadius_clamped (pi : α) (events : List MouseMove) :
    ∀ app : CrateApp α,
      (∃ e ∈ events, e.btnState &&& MK_LBUTTON = 0 ∧ e.btnState &&& MK_RBUTTON ≠ 0) →
      5 ≤ (mouseMoves pi app events).mRadius ∧ (mouseMoves pi app events).mRadius ≤ 150 := by
  induction events with
  | nil => intro app h; obtain ⟨e, he, _⟩ := h; cases he
  | cons e rest ih =>
    intro app h
    by_cases he : e.btnState &&& MK_LBUTTON = 0 ∧ e.btnState &&& MK_RBUTTON ≠ 0
    · exact mouseMoves_mRadius_mem pi rest _
        (OnMouseMove_mRadius_right pi app e.btnState e.x e.y he.1 he.2)
    · apply ih
      obtain ⟨e1, he1, hp⟩ := h
      rcases List.mem_cons.mp he1 with rfl | hmem
      · exact absurd hp he
      · exact ⟨e1, hmem, hp⟩

end Camera

/-- C8, counterexample: before any mouse event (the empty sequence) the radius of the
freshly constructed application is 2.5, which is below 5. -/
theorem C8_initial_radius_below_five :
    ¬ (5 ≤ (mouseMoves Real.pi (CrateApp.new Real.pi ⟨0, 0, 800, 600, 0, [], []⟩ (0, 0))
        []).mRadius ∧
      (mouseMoves Real.pi (CrateApp.new Real.pi ⟨0, 0, 800, 600, 0, [], []⟩ (0, 0))
        []).mRadius ≤ 150) := by
  intro h
  have h5 : (5 : ℝ) ≤ 2.5 := h.1
  norm_num at h5

/-- C8, amended: starting from `mRadius = 2.5`, after every finite sequence of
`OnMouseMove` events with the right button held, `mRadius <= 150`; `5 <= mRadius` holds as
soon as one event of the sequence had the left button released (so that the radius branch
ran); and while the left button is held in every event `mRadius` is still 2.5. -/
theorem C8_mRadius_clamped_after_right_drag (app : CrateApp ℝ) (h0 : app.mRadius = 2.5)
    (events : List MouseMove) (hR : ∀ e ∈ events, e.btnState &&& MK_RBUTTON ≠ 0) :
    (mouseMoves Real.pi app events).mRadius ≤ 150 ∧
    ((∃ e ∈ events, e.btnState &&& MK_LBUTTON = 0) →
      5 ≤ (mouseMoves Real.pi app events).mRadius) ∧
    ((∀ e ∈ events, e.btnState &&& MK_LBUTTON ≠ 0) →
      (mouseMoves Real.pi app events).mRadius = 2.5) := by
  refine ⟨?_, ?_, ?_⟩
  · apply mouseMoves_mRadius_le
    rw [h0]; norm_num
  · rintro ⟨e, he, hl⟩
    exact (mouseMoves_mRadius_clamped Real.pi events app ⟨e, he, hl, hR e he⟩).1
  · intro hl
    rw [mouseMoves_mRadius_left Real.pi events app hl, h0]

/-- C8, instance: two right-button drags from the freshly constructed application. -/
theorem C8_mRadius_clamped_after_right_drag_witness :
    (mouseMoves Real.pi (CrateApp.new Real.pi ⟨0, 0, 800, 600, 0, [], []⟩ (0, 0))
        [⟨2, 10, 2000⟩, ⟨2, 10, -3000⟩]).mRadius ≤ 150 ∧
    ((∃ e ∈ ([⟨2, 10, 2000⟩, ⟨2, 10, -3000⟩] : List MouseMove), e.btnState &&& MK_LBUTTON = 0) →
      5 ≤ (mouseMoves Real.pi (CrateApp.new Real.pi ⟨0, 0, 800, 600, 0, [], []⟩ (0, 0))
        [⟨2, 10, 2000⟩, ⟨2, 10, -3000⟩]).mRadius) ∧
    ((∀ e ∈ ([⟨2, 10, 2000⟩, ⟨2, 10, -3000⟩] : List MouseMove), e.btnState &&& MK_LBUTTON ≠ 0) →
      (mouseMoves Real.pi (CrateApp.new Real.pi ⟨0, 0, 800, 600, 0, [], []⟩ (0, 0))
        [⟨2, 10, 2000⟩, ⟨2, 10, -3000⟩]).mRadius = 2.5) :=
  C8_mRadius_clamped_after_right_drag _ rfl _ (by decide)

/-- C9, counterexample: from `mTheta = 1.3 * pi` and last mouse position `(100, 0)`, a
left-button move to `(0, 0)` (100 px to the left) does not give `mTheta + 5 * pi / 36`. -/
theorem C9_drag_left_does_not_increase_theta :
    ¬ ((OnMouseMove Real.pi (CrateApp.new Real.pi ⟨0, 0, 800, 600, 0, [], []⟩ (100, 0))
          1 (100 - 100) 0).mTheta =
        (CrateApp.new Real.pi ⟨0, 0, 800, 600, 0, [], []⟩ (100, 0)).mTheta
          + 5 * Real.pi / 36) := by
  have h3 := Real.pi_gt_three
  intro h
  simp [OnMouseMove, CrateApp.new, MK_LBUTTON, XMConvertToRadians] at h
  linarith

/-- C9, amended: for every camera state and last mouse position `(x0, y0)`, an
`OnMouseMove` event with the left button held that moves the mouse to `(x0 - 100, y)`,
100 px to the left, decreases `mTheta` by 25 degrees in radians:
`mTheta_after = mTheta_before - 5 * pi / 36`, over the reals. -/
theorem C9_drag_left_decreases_theta (app : CrateApp ℝ) (btnState : Nat) (y : Int)
    (hL : btnState &&& MK_LBUTTON ≠ 0) :
    (OnMouseMove Real.pi app btnState (app.mLastMousePos.1 - 100) y).mTheta
      = app.mTheta - 5 * Real.pi / 36 := by
  unfold OnMouseMove
  rw [if_pos hL]
  simp only [XMConvertToRadians]
  push_cast
  ring

/-- C9, instance: the freshly constructed application with last mouse position `(100, 0)`
and a left-button move to `(0, 0)`. -/
theorem C9_drag_left_decreases_theta_witness :
    (OnMouseMove Real.pi (CrateApp.new Real.pi ⟨0, 0, 800, 600, 0, [], []⟩ (100, 0))
        1 ((CrateApp.new Real.pi ⟨0, 0, 800, 600, 0, [], []⟩ (100, 0)).mLastMousePos.1 - 100)
        0).mTheta
      = (CrateApp.new Real.pi ⟨0, 0, 800, 600, 0, [], []⟩ (100, 0)).mTheta
          - 5 * Real.pi / 36 :=
  C9_drag_left_decreases_theta _ 1 0 (by decide)

end GAME3111

namespace GAME3111

open CrateApp

section Build

variable {α : Type} [LinearOrderedField α]

/-- Lookup of the key of the first entry. -/
theorem UMap_lookup_cons_self {V : Type} (k : String) (v : V) (rest : UMap V) :
    List.lookup k ((k, v) :: rest) = some v := by
  simp [List.lookup]

/-- Lookup of a key other than the key of the first entry. -/
theorem UMap_lookup_cons_of_ne {V : Type} (k1 k : String) (v : V) (rest : UMap V)
    (h : k1 ≠ k) : List.lookup k1 ((k, v) :: rest) = List.lookup k1 rest := by
  have hb : (k1 == k) = false := by simpa using h
  simp [List.lookup, hb]

/-- Lookup after the assignment `m[k] = v`. -/
theorem UMap_lookup_assign {V : Type} (m : UMap V) (k : String) (v : V) (k1 : String) :
    (m.assign k v).lookup k1 = if k1 = k then some v else m.lookup k1 := by
  induction m with
  | nil =>
    by_cases h : k1 = k
    · subst h; simp [UMap.assign, List.lookup]
    · rw [if_neg h]; unfold UMap.assign; rw [UMap_lookup_cons_of_ne _ _ _ _ h]
  | cons p rest ih =>
    obtain ⟨pk, pv⟩ := p
    unfold UMap.assign
    by_cases hp : pk = k
    · subst hp
      rw [if_pos rfl]
      by_cases h : k1 = pk
      · subst h; rw [if_pos rfl, UMap_lookup_cons_self]
      · rw [if_neg h, UMap_lookup_cons_of_ne _ _ _ _ h, UMap_lookup_cons_of_ne _ _ _ _ h]
    · rw [if_neg hp]
      by_cases h : k1 = pk
      · subst h
        rw [UMap_lookup_cons_self, UMap_lookup_cons_self, if_neg hp]
      · rw [UMap_lookup_cons_of_ne _ _ _ _ h, UMap_lookup_cons_of_ne _ _ _ _ h, ih]

/-- A call of `BuildRenderItems` that names a registered geometry returns; it appends one
render item, whose fields are as assigned in lines 950-958, and keeps every registered
geometry registered. -/
theorem BuildRenderItems_ok (app : CrateApp α) (name materials : String)
    (sX sY sZ tX tY tZ : α) (geo : MeshGeometry α)
    (hgeo : app.mGeometries.lookup name = some (some geo)) :
    ∃ (app1 : CrateApp α) (item : RenderItem α),
      BuildRenderItems app name materials sX sY sZ tX tY tZ = .ok app1 ∧
      app1.mAllRitems = app.mAllRitems ++ [item] ∧
      item.World = XMMatrixMultiply (XMMatrixScaling sX sY sZ) (XMMatrixTranslation tX tY tZ) ∧
      item.ObjCBIndex = app.mAllRitems.length % UINT_RANGE ∧
      item.NumFramesDirty = gNumFrameResources ∧
      (∀ k, ((app1.mGeometries.lookup k).join).isSome
              = ((app.mGeometries.lookup k).join).isSome) := by
  unfold BuildRenderItems
  simp only [UMap.index, hgeo]
  refine ⟨_, _, rfl, rfl, rfl, rfl, rfl, ?_⟩
  intro k
  simp only [UMap_lookup_assign]
  by_cases hk : k = name
  · subst hk; simp [hgeo]
  · simp [hk]

/-- The world matrix of lines 951: scale times translation, entry by entry. -/
theorem scaling_mul_translation (sX sY sZ tX tY tZ : α) :
    XMMatrixMultiply (XMMatrixScaling sX sY sZ) (XMMatrixTranslation tX tY tZ)
      = !![sX, 0, 0, 0;
           0, sY, 0, 0;
           0, 0, sZ, 0;
           tX, tY, tZ, 1] := by
  ext i j
  fin_cases i <;> fin_cases j <;>
    simp [XMMatrixMultiply, XMMatrixScaling, XMMatrixTranslation, Matrix.mul_apply,
      Fin.sum_univ_four]

/-- A sequence of calls of `BuildRenderItems` that name registered geometries returns; it
appends one render item per call, and the item of the `i`-th call has the slot index
`(n + i) mod 2^32`, where `n` is the number of render items before the first call. -/
theorem buildRenderItems_ok (calls : List (BuildRenderItemsArgs α)) :
    ∀ app : CrateApp α,
      (∀ c ∈ calls, ((app.mGeometries.lookup c.name).join).isSome) →
      ∃ (app1 : CrateApp α) (items : List (RenderItem α)),
        buildRenderItems calls app = .ok app1 ∧
        app1.mAllRitems = app.mAllRitems ++ items ∧
        items.length = calls.length ∧
        ∀ i item, items[i]? = some item →
          item.ObjCBIndex = (app.mAllRitems.length + i) % UINT_RANGE := by
  induction calls with
  | nil =>
    intro app _
    exact ⟨app, [], rfl, by simp, rfl, by simp⟩
  | cons c rest ih =>
    intro app hreg
    have hc := hreg c (List.mem_cons_self _ _)
    obtain ⟨geo, hgeo⟩ : ∃ geo, app.mGeometries.lookup c.name = some (some geo) := by
      cases h1 : app.mGeometries.lookup c.name with
      | none => rw [h1] at hc; simp at hc
      | some o =>
        cases o with
        | none => rw [h1] at hc; simp at hc
        | some geo => exact ⟨geo, rfl⟩
    obtain ⟨app2, item, hok, hitems, _, hidx, _, hkeep⟩ :=
      BuildRenderItems_ok app c.name c.materials c.sX c.sY c.sZ c.tX c.tY c.tZ geo hgeo
    obtain ⟨app1, items, hok1, hitems1, hlen1, hidx1⟩ := ih app2 (by
      intro c1 hc1
      rw [hkeep]
      exact hreg c1 (List.mem_cons_of_mem _ hc1))
    refine ⟨app1, item :: items, ?_, ?_, ?_, ?_⟩
    · show (BuildRenderItems app c.name c.materials c.sX c.sY c.sZ c.tX c.tY c.tZ).bind
        (buildRenderItems rest) = .ok app1
      rw [hok]
      exact hok1
    · rw [hitems1, hitems]; simp
    · simp [hlen1]
    · intro i it hit
      cases i with
      | zero =>
        simp at hit
        subst hit
        simpa using hidx
      | succ i =>
        simp at hit
        have := hidx1 i it hit
        rw [this, hitems]
        simp [Nat.add_assoc, Nat.add_comm 1 i]

end Build

/-- C10: for every scale and translation, a call of `BuildRenderItems` naming a registered
geometry creates a render item whose `World` is `Scale(sX,sY,sZ) * Translate(tX,tY,tZ)`,
the matrix with rows `(sX,0,0,0)`, `(0,sY,0,0)`, `(0,0,sZ,0)`, `(tX,tY,tZ,1)`; when it is
the first item created its `ObjCBIndex` is 0. -/
theorem C10_world_is_scale_then_translate {α : Type} [LinearOrderedField α]
    (app : CrateApp α) (name materials : String) (sX sY sZ tX tY tZ : α)
    (geo : MeshGeometry α) (hgeo : app.mGeometries.lookup name = some (some geo)) :
    ∃ (app1 : CrateApp α) (item : RenderItem α),
      BuildRenderItems app name materials sX sY sZ tX tY tZ = .ok app1 ∧
      app1.mAllRitems = app.mAllRitems ++ [item] ∧
      item.World = XMMatrixMultiply (XMMatrixScaling sX sY sZ) (XMMatrixTranslation tX tY tZ) ∧
      item.World = !![sX, 0, 0, 0;
                      0, sY, 0, 0;
                      0, 0, sZ, 0;
                      tX, tY, tZ, 1] ∧
      (app.mAllRitems = [] → item.ObjCBIndex = 0) := by
  obtain ⟨app1, item, hok, hitems, hworld, hidx, _, _⟩ :=
    BuildRenderItems_ok app name materials sX sY sZ tX tY tZ geo hgeo
  refine ⟨app1, item, hok, hitems, hworld, ?_, ?_⟩
  · rw [hworld, scaling_mul_translation]
  · intro hempty
    rw [hidx, hempty]
    rfl

/-- C10, instance: "Box" scaled by (2,2,2) and translated by (10,-2,-5), built first. -/
theorem C10_world_is_scale_then_translate_witness :
    ∃ (app1 : CrateApp ℚ) (item : RenderItem ℚ),
      BuildRenderItems exampleScene "Box" "grass" 2 2 2 10 (-2) (-5) = .ok app1 ∧
      app1.mAllRitems = exampleScene.mAllRitems ++ [item] ∧
      item.World = XMMatrixMultiply (XMMatrixScaling 2 2 2) (XMMatrixTranslation 10 (-2) (-5)) ∧
      item.World = !![2, 0, 0, 0;
                      0, 2, 0, 0;
                      0, 0, 2, 0;
                      10, -2, -5, 1] ∧
      (exampleScene.mAllRitems = [] → item.ObjCBIndex = 0) :=
  C10_world_is_scale_then_translate exampleScene "Box" "grass" 2 2 2 10 (-2) (-5)
    exampleGeometry rfl

end GAME3111

namespace GAME3111

open CrateApp

/-- C4, counterexample: `2^32 + 1` calls of `BuildRenderItems` from an empty render-item
list; the item created last, at position `2^32`, has `ObjCBIndex = 0`, the slot index of
the first item, because `static_cast<UINT>` truncates the vector size. -/
theorem C4_slot_index_wraps_at_uint_range :
    ∃ (app1 : CrateApp ℚ) (a b : RenderItem ℚ),
      exampleScene.mAllRitems = [] ∧
      buildRenderItems (List.replicate (UINT_RANGE + 1) exampleCall) exampleScene = .ok app1 ∧
      app1.mAllRitems[0]? = some a ∧
      app1.mAllRitems[UINT_RANGE]? = some b ∧
      a.ObjCBIndex = b.ObjCBIndex ∧
      b.ObjCBIndex ≠ UINT_RANGE := by
  obtain ⟨app1, items, hok, hitems, hlen, hidx⟩ :=
    buildRenderItems_ok (List.replicate (UINT_RANGE + 1) exampleCall) exampleScene (by
      intro c hc
      rw [List.eq_of_mem_replicate hc]
      rfl)
  have hempty : exampleScene.mAllRitems = [] := rfl
  rw [hempty, List.nil_append] at hitems
  rw [hempty, List.length_nil] at hidx
  rw [List.length_replicate] at hlen
  have h0 : 0 < items.length := by omega
  have h1 : UINT_RANGE < items.length := by omega
  refine ⟨app1, items[0], items[UINT_RANGE], rfl, hok, ?_, ?_, ?_, ?_⟩
  · rw [hitems]; exact List.getElem?_eq_getElem h0
  · rw [hitems]; exact List.getElem?_eq_getElem h1
  · rw [hidx 0 _ (List.getElem?_eq_getElem h0),
      hidx UINT_RANGE _ (List.getElem?_eq_getElem h1)]
    simp
  · rw [hidx UINT_RANGE _ (List.getElem?_eq_getElem h1)]
    simp [UINT_RANGE]

/-- C4, amended: for every sequence of `k <= 2^32` calls of `BuildRenderItems` that name
registered geometries, starting from an empty render-item list, the calls return and the
`i`-th item created (counting from 0) has `ObjCBIndex = i`: the slot indices are pairwise
distinct and are exactly `0, 1, ..., k-1`. -/
theorem C4_slot_indices_unique_and_contiguous {α : Type} [LinearOrderedField α]
    (calls : List (BuildRenderItemsArgs α)) (app : CrateApp α)
    (hempty : app.mAllRitems = [])
    (hreg : ∀ c ∈ calls, ((app.mGeometries.lookup c.name).join).isSome)
    (hk : calls.length ≤ UINT_RANGE) :
    ∃ app1 : CrateApp α,
      buildRenderItems calls app = .ok app1 ∧
      app1.mAllRitems.length = calls.length ∧
      (∀ (i : Nat) (item : RenderItem α),
        app1.mAllRitems[i]? = some item → item.ObjCBIndex = i) ∧
      (∀ (i j : Nat) (a b : RenderItem α), i ≠ j →
        app1.mAllRitems[i]? = some a → app1.mAllRitems[j]? = some b →
        a.ObjCBIndex ≠ b.ObjCBIndex) ∧
      app1.mAllRitems.map (fun item => item.ObjCBIndex) = List.range calls.length := by
  obtain ⟨app1, items, hok, hitems, hlen, hidx⟩ := buildRenderItems_ok calls app hreg
  rw [hempty, List.nil_append] at hitems
  rw [hempty] at hidx
  have hidx1 : ∀ (i : Nat) (item : RenderItem α),
      app1.mAllRitems[i]? = some item → item.ObjCBIndex = i := by
    intro i item hi
    rw [hitems] at hi
    have hlt : i < items.length := by
      by_contra hnot
      rw [List.getElem?_eq_none (not_lt.mp hnot)] at hi
      cases hi
    rw [hidx i item hi]
    simp only [List.length_nil, Nat.zero_add]
    exact Nat.mod_eq_of_lt (by omega)
  refine ⟨app1, hok, by rw [hitems, hlen], hidx1, ?_, ?_⟩
  · intro i j a b hij ha hb hab
    rw [hidx1 i a ha, hidx1 j b hb] at hab
    exact hij hab
  · apply List.ext_getElem?
    intro i
    rw [List.getElem?_map]
    by_cases hlt : i < calls.length
    · have hlt1 : i < app1.mAllRitems.length := by rw [hitems, hlen]; exact hlt
      rw [List.getElem?_eq_getElem hlt1, List.getElem?_range hlt]
      simp only [Option.map_some']
      rw [hidx1 i _ (List.getElem?_eq_getElem hlt1)]
    · have hge : app1.mAllRitems.length ≤ i := by rw [hitems, hlen]; omega
      rw [List.getElem?_eq_none hge, List.getElem?_eq_none (by simpa using not_lt.mp hlt)]
      rfl

/-- C4, instance: two calls for "Box" from the scene without render items. -/
theorem C4_slot_indices_unique_and_contiguous_witness :
    ∃ app1 : CrateApp ℚ,
      buildRenderItems [exampleCall, exampleCall] exampleScene = .ok app1 ∧
      app1.mAllRitems.length = [exampleCall, exampleCall].length ∧
      (∀ (i : Nat) (item : RenderItem ℚ),
        app1.mAllRitems[i]? = some item → item.ObjCBIndex = i) ∧
      (∀ (i j : Nat) (a b : RenderItem ℚ), i ≠ j →
        app1.mAllRitems[i]? = some a → app1.mAllRitems[j]? = some b →
        a.ObjCBIndex ≠ b.ObjCBIndex) ∧
      app1.mAllRitems.map (fun item => item.ObjCBIndex)
        = List.range [exampleCall, exampleCall].length :=
  C4_slot_indices_unique_and_contiguous [exampleCall, exampleCall] exampleScene rfl
    (by decide) (by decide)

end GAME3111

namespace GAME3111

open CrateApp

section Uploads

variable {α : Type}

/-- What one run of the loop of `UpdateObjectCBs` does to a render item. -/
theorem UpdateObjectCBs_forEach_items (items : List (RenderItem α)) :
    ∀ cb : UploadBuffer (ObjectConstants α),
      (UpdateObjectCBs.forEach cb items).2 =
        items.map (fun e =>
          if e.NumFramesDirty > 0 then { e with NumFramesDirty := e.NumFramesDirty - 1 } else e) := by
  induction items with
  | nil => intro cb; rfl
  | cons e rest ih =>
    intro cb
    unfold UpdateObjectCBs.forEach
    by_cases hd : e.NumFramesDirty > 0
    · simp only [hd, if_true, List.map_cons, ih]
    · simp only [hd, if_false, List.map_cons, ih]

/-- The loop of `UpdateObjectCBs` leaves a slot alone that belongs to none of the items. -/
theorem UpdateObjectCBs_forEach_other_slot (items : List (RenderItem α)) (slot : Nat) :
    ∀ cb : UploadBuffer (ObjectConstants α),
      (∀ x ∈ items, x.ObjCBIndex ≠ slot) →
      (UpdateObjectCBs.forEach cb items).1.mappedData slot = cb.mappedData slot := by
  induction items with
  | nil => intro cb _; rfl
  | cons e rest ih =>
    intro cb hne
    have he : e.ObjCBIndex ≠ slot := hne e (List.mem_cons_self _ _)
    have hrest : ∀ x ∈ rest, x.ObjCBIndex ≠ slot :=
      fun x hx => hne x (List.mem_cons_of_mem _ hx)
    unfold UpdateObjectCBs.forEach
    by_cases hd : e.NumFramesDirty > 0
    · simp only [hd, if_true]
      rw [ih _ hrest]
      simp [UploadBuffer.CopyData, Ne.symm he]
    · simp only [hd, if_false]
      exact ih _ hrest

/-- With pairwise distinct slot indices, one run of the loop of `UpdateObjectCBs` writes
the constants of every dirty item into its slot and leaves the slot of every clean item
as it was. -/
theorem UpdateObjectCBs_forEach_slot (items : List (RenderItem α)) :
    ∀ cb : UploadBuffer (ObjectConstants α),
      (items.map (fun e => e.ObjCBIndex)).Nodup →
      ∀ e ∈ items,
        (UpdateObjectCBs.forEach cb items).1.mappedData e.ObjCBIndex =
          if e.NumFramesDirty > 0 then some (objConstants e) else cb.mappedData e.ObjCBIndex := by
  induction items with
  | nil => intro cb _ e he; cases he
  | cons e0 rest ih =>
    intro cb hnd e he
    rw [List.map_cons, List.nodup_cons] at hnd
    obtain ⟨hnot, hnd1⟩ := hnd
    have hrest : ∀ x ∈ rest, x.ObjCBIndex ≠ e0.ObjCBIndex := by
      intro x hx hxe
      exact hnot (List.mem_map.mpr ⟨x, hx, hxe⟩)
    rcases List.mem_cons.mp he with rfl | hmem
    · unfold UpdateObjectCBs.forEach
      by_cases hd : e.NumFramesDirty > 0
      · simp only [hd, if_true]
        rw [UpdateObjectCBs_forEach_other_slot rest _ _ hrest]
        simp [UploadBuffer.CopyData]
      · simp only [hd, if_false]
        exact UpdateObjectCBs_forEach_other_slot rest _ _ hrest
    · have hne : e.ObjCBIndex ≠ e0.ObjCBIndex := hrest e hmem
      unfold UpdateObjectCBs.forEach
      by_cases hd : e0.NumFramesDirty > 0
      · simp only [hd, if_true]
        rw [ih _ hnd1 e hmem]
        simp [UploadBuffer.CopyData, hne]
      · simp only [hd, if_false]
        exact ih _ hnd1 e hmem

/-- The render items after `cbs.length` runs of the loop of `UpdateObjectCBs`: a positive
counter has been decremented once per run until it reached 0, nothing else has changed. -/
theorem objectUploads_eq (cbs : List (UploadBuffer (ObjectConstants α))) :
    ∀ items : List (RenderItem α),
      objectUploads cbs items =
        items.map (fun e =>
          { e with NumFramesDirty :=
              if e.NumFramesDirty > 0 then max (e.NumFramesDirty - cbs.length) 0
              else e.NumFramesDirty }) := by
  induction cbs with
  | nil =>
    intro items
    show items = _
    conv_lhs => rw [← List.map_id items]
    apply List.map_congr_left
    intro e _
    by_cases hd : e.NumFramesDirty > 0
    · simp only [hd, if_true, List.length_nil, Nat.cast_zero, sub_zero, id]
      rw [max_eq_left (le_of_lt hd)]
    · simp only [hd, if_false, id]
  | cons cb rest ih =>
    intro items
    show objectUploads rest (UpdateObjectCBs.forEach cb items).2 = _
    rw [ih, UpdateObjectCBs_forEach_items, List.map_map]
    apply List.map_congr_left
    intro e _
    simp only [Function.comp, List.length_cons, Nat.cast_add, Nat.cast_one]
    by_cases hd : e.NumFramesDirty > 0
    · simp only [hd, if_true]
      by_cases hd1 : e.NumFramesDirty - 1 > 0
      · simp only [hd1, if_true]
        congr 1
        congr 1
        ring
      · simp only [hd1, if_false]
        congr 1
        have h1 : e.NumFramesDirty = 1 := by omega
        rw [h1]
        have : (1 : Int) - ((rest.length : Int) + 1) ≤ 0 := by omega
        rw [max_eq_right this]
        rfl
    · simp only [hd, if_false]

/-- The loop of `UpdateMaterialCBs` returns when no entry of the map is null. -/
theorem UpdateMaterialCBs_forEach_ok (mats : UMap (Option (Material α))) :
    ∀ cb : UploadBuffer (MaterialConstants α),
      (∀ p ∈ mats, p.2.isSome) → ∃ r, UpdateMaterialCBs.forEach cb mats = .ok r := by
  induction mats with
  | nil => intro cb _; exact ⟨_, rfl⟩
  | cons p rest ih =>
    intro cb hnn
    obtain ⟨key, o⟩ := p
    have hrest : ∀ q ∈ rest, q.2.isSome := fun q hq => hnn q (List.mem_cons_of_mem _ hq)
    cases o with
    | none => have := hnn (key, none) (List.mem_cons_self _ _); simp at this
    | some mat =>
      unfold UpdateMaterialCBs.forEach
      by_cases hd : mat.NumFramesDirty > 0
      · simp only [hd, if_true]
        obtain ⟨r, hr⟩ := ih (cb.CopyData mat.MatCBIndex (matConstants mat)) hrest
        rw [hr]
        exact ⟨_, rfl⟩
      · simp only [hd, if_false]
        obtain ⟨r, hr⟩ := ih cb hrest
        rw [hr]
        exact ⟨_, rfl⟩

/-- What one run of the loop of `UpdateMaterialCBs` does to the materials. -/
theorem UpdateMaterialCBs_forEach_items (mats : UMap (Option (Material α))) :
    ∀ (cb : UploadBuffer (MaterialConstants α))
      (r : UploadBuffer (MaterialConstants α) × UMap (Option (Material α))),
      UpdateMaterialCBs.forEach cb mats = .ok r →
      r.2 = mats.map (fun p => (p.1, p.2.map (fun mat =>
          if mat.NumFramesDirty > 0 then { mat with NumFramesDirty := mat.NumFramesDirty - 1 }
          else mat))) := by
  induction mats with
  | nil => intro cb r h; cases h; rfl
  | cons p rest ih =>
    intro cb r h
    obtain ⟨key, o⟩ := p
    cases o with
    | none => cases h
    | some mat =>
      unfold UpdateMaterialCBs.forEach at h
      by_cases hd : mat.NumFramesDirty > 0
      · simp only [hd, if_true] at h
        cases hr : UpdateMaterialCBs.forEach
            (cb.CopyData mat.MatCBIndex (matConstants mat)) rest with
        | error e => rw [hr] at h; cases h
        | ok r1 =>
          rw [hr] at h
          cases h
          simp only [List.map_cons, Option.map_some', hd, if_true, ih _ _ hr]
      · simp only [hd, if_false] at h
        cases hr : UpdateMaterialCBs.forEach cb rest with
        | error e => rw [hr] at h; cases h
        | ok r1 =>
          rw [hr] at h
          cases h
          simp only [List.map_cons, Option.map_some', hd, if_false, ih _ _ hr]

/-- Upload call number `n + 1` for a render item whose counter was `c` before the first
call: it writes the item's constants when `n < c` and is a no-op for the item otherwise. -/
theorem objectUpload_call (items : List (RenderItem α)) (i : Nat) (e : RenderItem α) (c : Nat)
    (cbs : List (UploadBuffer (ObjectConstants α))) (cb : UploadBuffer (ObjectConstants α))
    (hnd : (items.map (fun x => x.ObjCBIndex)).Nodup)
    (hi : items[i]? = some e) (hc : e.NumFramesDirty = (c : Int)) :
    (cbs.length < c →
      (UpdateObjectCBs.forEach cb (objectUploads cbs items)).1.mappedData e.ObjCBIndex
          = some (objConstants e) ∧
      (UpdateObjectCBs.forEach cb (objectUploads cbs items)).2[i]?
          = some { e with NumFramesDirty := (c : Int) - (cbs.length + 1) }) ∧
    (c ≤ cbs.length →
      (UpdateObjectCBs.forEach cb (objectUploads cbs items)).1.mappedData e.ObjCBIndex
          = cb.mappedData e.ObjCBIndex ∧
      (objectUploads cbs items)[i]? = some { e with NumFramesDirty := 0 } ∧
      (UpdateObjectCBs.forEach cb (objectUploads cbs items)).2[i]?
          = some { e with NumFramesDirty := 0 }) := by
  have hbefore := objectUploads_eq cbs items
  have hnd1 : ((objectUploads cbs items).map (fun x => x.ObjCBIndex)).Nodup := by
    rw [hbefore, List.map_map]
    exact hnd
  obtain ⟨k, hk⟩ : ∃ k : Int, k =
      (if e.NumFramesDirty > 0 then max (e.NumFramesDirty - cbs.length) 0
       else e.NumFramesDirty) := ⟨_, rfl⟩
  have hget : (objectUploads cbs items)[i]? = some { e with NumFramesDirty := k } := by
    rw [hbefore, List.getElem?_map, hi, hk]
    rfl
  have hslot := UpdateObjectCBs_forEach_slot (objectUploads cbs items) cb hnd1 _
    (List.getElem?_mem hget)
  have hafter : (UpdateObjectCBs.forEach cb (objectUploads cbs items)).2[i]? =
      some (if k > 0 then { e with NumFramesDirty := k - 1 }
            else { e with NumFramesDirty := k }) := by
    rw [UpdateObjectCBs_forEach_items, List.getElem?_map, hget]
    rfl
  rw [hc] at hk
  constructor
  · intro hlt
    have h1 : (c : Int) > 0 := by omega
    have h2 : max ((c : Int) - cbs.length) 0 = (c : Int) - cbs.length :=
      max_eq_left (by omega)
    rw [if_pos h1, h2] at hk
    have h3 : k > 0 := by omega
    simp only [h3, if_true] at hslot hafter
    refine ⟨hslot, ?_⟩
    rw [hafter, hk]
    congr 2
    ring
  · intro hle
    have h0 : k = 0 := by
      by_cases h1 : (c : Int) > 0
      · rw [if_pos h1] at hk
        rw [hk]
        exact max_eq_right (by omega)
      · rw [if_neg h1] at hk
        omega
    subst h0
    simp only [gt_iff_lt, lt_self_iff_false, if_false] at hslot hafter
    exact ⟨hslot, hget, hafter⟩

end Uploads

end GAME3111

namespace GAME3111

open CrateApp

section Sync

variable {α : Type} [LinearOrderedField α]

/-- What the acquisition of lines 321-336 does when it returns: the ring cursor has
advanced, the selected slot exists, nothing but the cursor, the camera and the observed
completed value has changed, and the recorded fence of the selected slot is 0 or has been
reached by the GPU. -/
theorem Update_acquire_spec (dx : DirectXMath α) (gt : GameTimer α) (gpu : GpuProgress)
    (s s1 : CrateApp α) (h : Update.acquire dx gt gpu s = .ok s1) :
    ∃ fr : FrameResource α,
      s.mFrameResources[(s.mCurrFrameResourceIndex + 1) % gNumFrameResources]? = some fr ∧
      s1.mCurrFrameResourceIndex = (s.mCurrFrameResourceIndex + 1) % gNumFrameResources ∧
      s1.mCurrFrameResource = some ((s.mCurrFrameResourceIndex + 1) % gNumFrameResources) ∧
      s1.mFrameResources = s.mFrameResources ∧
      s1.mAllRitems = s.mAllRitems ∧
      s1.mMaterials = s.mMaterials ∧
      s1.mCurrentFence = s.mCurrentFence ∧
      s.mFence + gpu.beforeCheck ≤ s1.mFence ∧
      (fr.Fence = 0 ∨ fr.Fence ≤ s1.mFence) ∧
      (Update.mustWait fr.Fence (s.mFence + gpu.beforeCheck) = false →
        s1.mFence = s.mFence + gpu.beforeCheck) ∧
      (Update.mustWait fr.Fence (s.mFence + gpu.beforeCheck) = true →
        s1.mFence = s.mFence + gpu.beforeCheck + gpu.duringWait) := by
  unfold Update.acquire at h
  simp only [Update.cycle, OnKeyboardInput, UpdateCamera] at h
  cases hfr : s.mFrameResources[(s.mCurrFrameResourceIndex + 1) % gNumFrameResources]? with
  | none => rw [hfr] at h; cases h
  | some fr =>
    rw [hfr] at h
    simp only at h
    by_cases hw : Update.mustWait fr.Fence (s.mFence + gpu.beforeCheck) = true
    · rw [if_pos hw] at h
      by_cases hb : s.mFence + gpu.beforeCheck + gpu.duringWait < fr.Fence
      · rw [if_pos hb] at h; cases h
      · rw [if_neg hb] at h
        cases h
        refine ⟨fr, rfl, rfl, rfl, rfl, rfl, rfl, rfl, ?_, ?_, ?_, ?_⟩
        · show s.mFence + gpu.beforeCheck ≤ s.mFence + gpu.beforeCheck + gpu.duringWait
          omega
        · right
          exact not_lt.mp hb
        · intro hf; rw [hf] at hw; cases hw
        · intro _; rfl
    · rw [if_neg hw] at h
      cases h
      refine ⟨fr, rfl, rfl, rfl, rfl, rfl, rfl, rfl, le_rfl, ?_, ?_, ?_⟩
      · show fr.Fence = 0 ∨ fr.Fence ≤ s.mFence + gpu.beforeCheck
        simp only [Update.mustWait, Bool.and_eq_true, bne_iff_ne, ne_eq, decide_eq_true_eq,
          not_and, not_lt] at hw
        by_cases h0 : fr.Fence = 0
        · exact Or.inl h0
        · exact Or.inr (hw h0)
      · intro _; rfl
      · intro hf; exact absurd hf hw

omit [LinearOrderedField α] in
/-- What `UpdateObjectCBs` does when it returns. -/
theorem UpdateObjectCBs_spec (gt : GameTimer α) (s s1 : CrateApp α)
    (h : UpdateObjectCBs gt s = .ok s1) :
    ∃ (cur : Nat) (fr : FrameResource α),
      s.mCurrFrameResource = some cur ∧ s.mFrameResources[cur]? = some fr ∧
      s1 = { s with
        mFrameResources := s.mFrameResources.set cur
          { fr with ObjectCB := (UpdateObjectCBs.forEach fr.ObjectCB s.mAllRitems).1 },
        mAllRitems := (UpdateObjectCBs.forEach fr.ObjectCB s.mAllRitems).2 } := by
  unfold UpdateObjectCBs at h
  cases hcur : s.mCurrFrameResource with
  | none => rw [hcur] at h; cases h
  | some cur =>
    rw [hcur] at h
    simp only at h
    cases hfr : s.mFrameResources[cur]? with
    | none => rw [hfr] at h; cases h
    | some fr =>
      rw [hfr] at h
      cases h
      exact ⟨cur, fr, rfl, hfr, rfl⟩

omit [LinearOrderedField α] in
/-- What `UpdateMaterialCBs` does when it returns. -/
theorem UpdateMaterialCBs_spec (gt : GameTimer α) (s s1 : CrateApp α)
    (h : UpdateMaterialCBs gt s = .ok s1) :
    ∃ (cur : Nat) (fr : FrameResource α)
      (r : UploadBuffer (MaterialConstants α) × UMap (Option (Material α))),
      s.mCurrFrameResource = some cur ∧ s.mFrameResources[cur]? = some fr ∧
      UpdateMaterialCBs.forEach fr.MaterialCB s.mMaterials = .ok r ∧
      s1 = { s with
        mFrameResources := s.mFrameResources.set cur { fr with MaterialCB := r.1 },
        mMaterials := r.2 } := by
  unfold UpdateMaterialCBs at h
  cases hcur : s.mCurrFrameResource with
  | none => rw [hcur] at h; cases h
  | some cur =>
    rw [hcur] at h
    simp only at h
    cases hfr : s.mFrameResources[cur]? with
    | none => rw [hfr] at h; cases h
    | some fr =>
      rw [hfr] at h
      simp only at h
      cases hr : UpdateMaterialCBs.forEach fr.MaterialCB s.mMaterials with
      | error e => rw [hr] at h; cases h
      | ok r =>
        rw [hr] at h
        cases h
        exact ⟨cur, fr, r, rfl, hfr, hr, rfl⟩

/-- What `UpdateMainPassCB` does when it returns: it writes slot 0 of the pass buffer of
the current frame resource and `mMainPassCB`. -/
theorem UpdateMainPassCB_spec (dx : DirectXMath α) (gt : GameTimer α) (s s1 : CrateApp α)
    (h : UpdateMainPassCB dx gt s = .ok s1) :
    ∃ (cur : Nat) (fr : FrameResource α) (cb : PassConstants α),
      s.mCurrFrameResource = some cur ∧ s.mFrameResources[cur]? = some fr ∧
      s1 = { s with
        mMainPassCB := cb,
        mFrameResources := s.mFrameResources.set cur
          { fr with PassCB := fr.PassCB.CopyData 0 cb } } := by
  unfold UpdateMainPassCB at h
  cases hcur : s.mCurrFrameResource with
  | none => rw [hcur] at h; cases h
  | some cur =>
    rw [hcur] at h
    simp only at h
    cases hfr : s.mFrameResources[cur]? with
    | none => rw [hfr] at h; cases h
    | some fr =>
      rw [hfr] at h
      cases h
      exact ⟨cur, fr, _, rfl, hfr, rfl⟩

/-- What the uploads of lines 338-341 do when they return: they change the current frame
resource only, there the three buffers and not the fence; the object buffer and the
render items are the result of the loop of `UpdateObjectCBs`. -/
theorem Update_upload_spec (dx : DirectXMath α) (gt : GameTimer α) (s s2 : CrateApp α)
    (h : Update.upload dx gt s = .ok s2) :
    ∃ (cur : Nat) (fr fr2 : FrameResource α),
      s.mCurrFrameResource = some cur ∧ s.mFrameResources[cur]? = some fr ∧
      s2.mFrameResources = s.mFrameResources.set cur fr2 ∧
      fr2.Fence = fr.Fence ∧
      fr2.ObjectCB = (UpdateObjectCBs.forEach fr.ObjectCB s.mAllRitems).1 ∧
      s2.mAllRitems = (UpdateObjectCBs.forEach fr.ObjectCB s.mAllRitems).2 ∧
      s2.mCurrFrameResourceIndex = s.mCurrFrameResourceIndex ∧
      s2.mCurrFrameResource = s.mCurrFrameResource ∧
      s2.mCurrentFence = s.mCurrentFence ∧
      s2.mFence = s.mFence := by
  unfold Update.upload AnimateMaterials at h
  cases h1 : UpdateObjectCBs gt s with
  | error e => rw [h1] at h; cases h
  | ok a1 =>
    rw [h1] at h
    simp only [Except.bind] at h
    cases h2 : UpdateMaterialCBs gt a1 with
    | error e => rw [h2] at h; cases h
    | ok a2 =>
      rw [h2] at h
      simp only at h
      obtain ⟨cur, fr, hcur, hfr, e1⟩ := UpdateObjectCBs_spec gt s a1 h1
      obtain ⟨cur2, f2, r, hcur2, hfr2, _, e2⟩ := UpdateMaterialCBs_spec gt a1 a2 h2
      obtain ⟨cur3, f3, cb, hcur3, hfr3, e3⟩ := UpdateMainPassCB_spec dx gt a2 s2 h
      have hlt : cur < s.mFrameResources.length := by
        by_contra hnot
        rw [List.getElem?_eq_none (not_lt.mp hnot)] at hfr
        cases hfr
      subst e1
      simp only at hcur2 hfr2
      rw [hcur] at hcur2
      cases hcur2
      rw [List.getElem?_set_self hlt] at hfr2
      cases hfr2
      subst e2
      simp only at hcur3 hfr3
      rw [hcur] at hcur3
      cases hcur3
      rw [List.getElem?_set_self (by simpa using hlt)] at hfr3
      cases hfr3
      subst e3
      refine ⟨cur, fr,
        { PassCB := fr.PassCB.CopyData 0 cb,
          ObjectCB := (UpdateObjectCBs.forEach fr.ObjectCB s.mAllRitems).1,
          MaterialCB := r.1,
          Fence := fr.Fence }, hcur, hfr, ?_, rfl, rfl, rfl, rfl, rfl, rfl, rfl⟩
      simp only [List.set_set]

omit [LinearOrderedField α] in
/-- What `Draw` does to the synchronisation state when it returns: the fence counter is
incremented modulo `2^64` and recorded in the current frame resource; the other frame
resources, the render items, the materials, the ring cursor and the observed completed
value are unchanged. -/
theorem Draw_spec (gt : GameTimer α) (s s1 : CrateApp α) (h : Draw gt s = .ok s1) :
    ∃ (cur : Nat) (fr : FrameResource α),
      s.mCurrFrameResource = some cur ∧ s.mFrameResources[cur]? = some fr ∧
      s1.mCurrentFence = (s.mCurrentFence + 1) % UINT64_RANGE ∧
      s1.mFrameResources = s.mFrameResources.set cur
        { fr with Fence := (s.mCurrentFence + 1) % UINT64_RANGE } ∧
      s1.mAllRitems = s.mAllRitems ∧
      s1.mMaterials = s.mMaterials ∧
      s1.mCurrFrameResourceIndex = s.mCurrFrameResourceIndex ∧
      s1.mCurrFrameResource = s.mCurrFrameResource ∧
      s1.mFence = s.mFence := by
  unfold Draw at h
  cases hcur : s.mCurrFrameResource with
  | none => rw [hcur] at h; cases h
  | some cur =>
    rw [hcur] at h
    simp only at h
    cases hfr : s.mFrameResources[cur]? with
    | none => rw [hfr] at h; cases h
    | some fr =>
      rw [hfr] at h
      simp only at h
      cases hd : DrawRenderItems s fr s.mOpaqueRitems with
      | error e => rw [hd] at h; cases h
      | ok items =>
        rw [hd] at h
        cases h
        exact ⟨cur, fr, rfl, hfr, rfl, rfl, rfl, rfl, rfl, rfl, rfl⟩

/-- What `Update` does when it returns, in terms of the slot `c` it selects. -/
theorem Update_spec (dx : DirectXMath α) (gt : GameTimer α) (gpu : GpuProgress)
    (s s2 : CrateApp α) (h : Update dx gt gpu s = .ok s2) :
    ∃ fr fr2 : FrameResource α,
      s.mFrameResources[(s.mCurrFrameResourceIndex + 1) % gNumFrameResources]? = some fr ∧
      s2.mFrameResources = s.mFrameResources.set
        ((s.mCurrFrameResourceIndex + 1) % gNumFrameResources) fr2 ∧
      fr2.Fence = fr.Fence ∧
      fr2.ObjectCB = (UpdateObjectCBs.forEach fr.ObjectCB s.mAllRitems).1 ∧
      s2.mAllRitems = (UpdateObjectCBs.forEach fr.ObjectCB s.mAllRitems).2 ∧
      s2.mCurrFrameResourceIndex = (s.mCurrFrameResourceIndex + 1) % gNumFrameResources ∧
      s2.mCurrFrameResource = some ((s.mCurrFrameResourceIndex + 1) % gNumFrameResources) ∧
      s2.mCurrentFence = s.mCurrentFence ∧
      s.mFence + gpu.beforeCheck ≤ s2.mFence ∧
      (fr.Fence = 0 ∨ fr.Fence ≤ s2.mFence) ∧
      (Update.mustWait fr.Fence (s.mFence + gpu.beforeCheck) = false →
        s2.mFence = s.mFence + gpu.beforeCheck) := by
  unfold Update at h
  cases h1 : Update.acquire dx gt gpu s with
  | error e => rw [h1] at h; cases h
  | ok s1 =>
    rw [h1] at h
    simp only [Except.bind] at h
    obtain ⟨fr, hfr, hidx, hcur, hfrs, hitems, _, hcf, hle, hsafe, hnowait, _⟩ :=
      Update_acquire_spec dx gt gpu s s1 h1
    obtain ⟨cur, fr1, fr2, hcur1, hfr1, hset, hfence, hobj, hitems2, hidx2, hcur2, hcf2, hfen2⟩ :=
      Update_upload_spec dx gt s1 s2 h
    rw [hcur] at hcur1
    cases hcur1
    rw [hfrs, hfr] at hfr1
    cases hfr1
    refine ⟨fr, fr2, hfr, ?_, hfence, ?_, ?_, ?_, ?_, ?_, ?_, ?_, ?_⟩
    · rw [hset, hfrs]
    · rw [hobj, hitems]
    · rw [hitems2, hitems]
    · rw [hidx2, hidx]
    · rw [hcur2, hcur]
    · rw [hcf2, hcf]
    · rw [hfen2]; exact hle
    · rw [hfen2]; exact hsafe
    · intro hw; rw [hfen2]; exact hnowait hw

/-- What one frame does when it returns, in terms of the slot `c` that `Update` selects:
slot `c` gets the uploads and the new fence value, the other slots are unchanged. -/
theorem frame_spec (dx : DirectXMath α) (gt : GameTimer α) (gpu : GpuProgress)
    (s s3 : CrateApp α) (h : frame dx gt gpu s = .ok s3) :
    ∃ fr fr3 : FrameResource α,
      s.mFrameResources[(s.mCurrFrameResourceIndex + 1) % gNumFrameResources]? = some fr ∧
      s3.mFrameResources = s.mFrameResources.set
        ((s.mCurrFrameResourceIndex + 1) % gNumFrameResources) fr3 ∧
      fr3.Fence = (s.mCurrentFence + 1) % UINT64_RANGE ∧
      fr3.ObjectCB = (UpdateObjectCBs.forEach fr.ObjectCB s.mAllRitems).1 ∧
      s3.mAllRitems = (UpdateObjectCBs.forEach fr.ObjectCB s.mAllRitems).2 ∧
      s3.mCurrFrameResourceIndex = (s.mCurrFrameResourceIndex + 1) % gNumFrameResources ∧
      s3.mCurrFrameResource = some ((s.mCurrFrameResourceIndex + 1) % gNumFrameResources) ∧
      s3.mCurrentFence = (s.mCurrentFence + 1) % UINT64_RANGE ∧
      s.mFence + gpu.beforeCheck ≤ s3.mFence ∧
      (fr.Fence = 0 ∨ fr.Fence ≤ s3.mFence) ∧
      (Update.mustWait fr.Fence (s.mFence + gpu.beforeCheck) = false →
        s3.mFence = s.mFence + gpu.beforeCheck) := by
  unfold frame at h
  cases h1 : Update dx gt gpu s with
  | error e => rw [h1] at h; cases h
  | ok s2 =>
    rw [h1] at h
    simp only [Except.bind] at h
    obtain ⟨fr, fr2, hfr, hset, hfence, hobj, hitems, hidx, hcur, hcf, hle, hsafe, hnowait⟩ :=
      Update_spec dx gt gpu s s2 h1
    obtain ⟨cur, fr2b, hcur3, hfr3, hcf3, hset3, hitems3, _, hidx3, hcur3b, hfen3⟩ :=
      Draw_spec gt s2 s3 h
    rw [hcur] at hcur3
    cases hcur3
    have hlt : (s.mCurrFrameResourceIndex + 1) % gNumFrameResources < s.mFrameResources.length := by
      by_contra hnot
      rw [List.getElem?_eq_none (not_lt.mp hnot)] at hfr
      cases hfr
    rw [hset, List.getElem?_set_self hlt] at hfr3
    cases hfr3
    refine ⟨fr, { fr2 with Fence := (s.mCurrentFence + 1) % UINT64_RANGE },
      hfr, ?_, rfl, hobj, ?_, ?_, ?_, ?_, ?_, ?_, ?_⟩
    · rw [hset3, hset, List.set_set, hcf]
    · rw [hitems3, hitems]
    · rw [hidx3, hidx]
    · rw [hcur3b, hcur]
    · rw [hcf3, hcf]
    · rw [hfen3]; exact hle
    · rw [hfen3]; exact hsafe
    · intro hw; rw [hfen3]; exact hnowait hw

end Sync

end GAME3111

namespace GAME3111

open CrateApp

end GAME3111

namespace GAME3111

open CrateApp

section Sync

variable {α : Type} [LinearOrderedField α]

/-- The ring cursor after a run of frames that returns. -/
theorem frames_cursor (dx : DirectXMath α) (gt : GameTimer α) (gs : List GpuProgress) :
    ∀ s s1 : CrateApp α, frames dx gt gs s = .ok s1 →
      s1.mCurrFrameResourceIndex % gNumFrameResources
        = (s.mCurrFrameResourceIndex + gs.length) % gNumFrameResources := by
  induction gs with
  | nil => intro s s1 h; cases h; rfl
  | cons g rest ih =>
    intro s s1 h
    unfold frames at h
    cases h1 : frame dx gt g s with
    | error e => rw [h1] at h; cases h
    | ok s2 =>
      rw [h1] at h
      simp only [Except.bind] at h
      obtain ⟨_, _, _, _, _, _, _, hidx, _⟩ := frame_spec dx gt g s s2 h1
      rw [ih s2 s1 h, hidx]
      simp only [gNumFrameResources, List.length_cons]
      omega

/-- The acquisition does not return when the GPU stays below the recorded fence of the
selected slot. -/
theorem Update_acquire_blocked (dx : DirectXMath α) (gt : GameTimer α) (gpu : GpuProgress)
    (s : CrateApp α) (fr : FrameResource α)
    (hfr : s.mFrameResources[(s.mCurrFrameResourceIndex + 1) % gNumFrameResources]? = some fr)
    (hw : Update.mustWait fr.Fence (s.mFence + gpu.beforeCheck) = true)
    (hb : s.mFence + gpu.beforeCheck + gpu.duringWait < fr.Fence) :
    Update.acquire dx gt gpu s = .error (.blockedOnFence fr.Fence) := by
  unfold Update.acquire
  simp only [Update.cycle, OnKeyboardInput, UpdateCamera]
  rw [hfr]
  simp only
  rw [if_pos hw, if_pos hb]

end Sync

/-- C1: for every number of frames and every GPU schedule (the completed value grows by
arbitrary amounts and never shrinks, the wait returns only once the completed value has
reached the waited value), in the state in which `Update` goes on to write constants the
selected slot exists and its recorded fence is 0 or at most the completed value; and the
uploads that follow change no other slot. -/
theorem C1_acquired_slot_is_released_by_gpu {α : Type} [LinearOrderedField α]
    (dx : DirectXMath α) (gt : GameTimer α) (app : CrateApp α)
    (gs : List GpuProgress) (gpu : GpuProgress) (s1 : CrateApp α)
    (h : (frames dx gt gs app).bind (Update.acquire dx gt gpu) = .ok s1) :
    s1.mCurrFrameResource = some s1.mCurrFrameResourceIndex ∧
    (∃ fr : FrameResource α,
      s1.mFrameResources[s1.mCurrFrameResourceIndex]? = some fr ∧
      (fr.Fence = 0 ∨ fr.Fence ≤ s1.mFence)) ∧
    (∀ s2 : CrateApp α, Update.upload dx gt s1 = .ok s2 →
      ∀ k : Nat, k ≠ s1.mCurrFrameResourceIndex →
        s2.mFrameResources[k]? = s1.mFrameResources[k]?) := by
  cases hrun : frames dx gt gs app with
  | error e => rw [hrun] at h; cases h
  | ok s =>
    rw [hrun] at h
    simp only [Except.bind] at h
    obtain ⟨fr, hfr, hidx, hcur, hfrs, _, _, _, _, hsafe, _⟩ :=
      Update_acquire_spec dx gt gpu s s1 h
    refine ⟨by rw [hcur, hidx], ⟨fr, by rw [hidx, hfrs]; exact hfr, hsafe⟩, ?_⟩
    intro s2 hup k hk
    obtain ⟨cur, _, fr2, hcur2, _, hset, _⟩ := Update_upload_spec dx gt s1 s2 hup
    rw [hcur] at hcur2
    cases hcur2
    rw [hset, List.getElem?_set_ne]
    rw [hidx] at hk
    exact fun h => hk h.symm

/-- C1, instance: three frames during which the GPU completes nothing, then the fourth
acquisition, during whose wait the GPU completes one more fence value. -/
theorem C1_acquired_slot_is_released_by_gpu_witness :
    exampleFourthAcquisition.mCurrFrameResource
      = some exampleFourthAcquisition.mCurrFrameResourceIndex ∧
    (∃ fr : FrameResource ℚ,
      exampleFourthAcquisition.mFrameResources[
        exampleFourthAcquisition.mCurrFrameResourceIndex]? = some fr ∧
      (fr.Fence = 0 ∨ fr.Fence ≤ exampleFourthAcquisition.mFence)) ∧
    (∀ s2 : CrateApp ℚ,
      Update.upload exampleMath exampleTimer exampleFourthAcquisition = .ok s2 →
      ∀ k : Nat, k ≠ exampleFourthAcquisition.mCurrFrameResourceIndex →
        s2.mFrameResources[k]? = exampleFourthAcquisition.mFrameResources[k]?) :=
  C1_acquired_slot_is_released_by_gpu exampleMath exampleTimer exampleApp
    [⟨0, 0⟩, ⟨0, 0⟩, ⟨0, 0⟩] ⟨0, 1⟩ exampleFourthAcquisition rfl

/-- C6, counterexample: from `mCurrFrameResourceIndex = 0` the first acquisition (k = 1)
selects slot 1, not slot `(1 - 1) mod 3 = 0`. -/
theorem C6_first_acquisition_selects_slot_one :
    exampleApp.mCurrFrameResourceIndex = 0 ∧
    ∃ s1 : CrateApp ℚ,
      Update.acquire exampleMath exampleTimer ⟨0, 0⟩ exampleApp = .ok s1 ∧
      s1.mCurrFrameResourceIndex = 1 ∧
      ¬ (s1.mCurrFrameResourceIndex = (1 - 1) % 3) :=
  ⟨rfl, _, rfl, rfl, by decide⟩

/-- C6, amended: starting from `mCurrFrameResourceIndex = 0`, successive acquisitions in
`Update` select the ring slots 1, 2, 0, 1, 2, 0, ...: for every `k >= 1` the `k`-th
acquisition (after `k - 1` complete frames, here `k = gs.length + 1`) selects slot
`k mod 3`. -/
theorem C6_kth_acquisition_selects_k_mod_three {α : Type} [LinearOrderedField α]
    (dx : DirectXMath α) (gt : GameTimer α) (app : CrateApp α)
    (gs : List GpuProgress) (gpu : GpuProgress) (s1 : CrateApp α)
    (h0 : app.mCurrFrameResourceIndex = 0)
    (h : (frames dx gt gs app).bind (Update.acquire dx gt gpu) = .ok s1) :
    s1.mCurrFrameResourceIndex = (gs.length + 1) % 3 ∧
    s1.mCurrFrameResource = some ((gs.length + 1) % 3) := by
  cases hrun : frames dx gt gs app with
  | error e => rw [hrun] at h; cases h
  | ok s =>
    rw [hrun] at h
    simp only [Except.bind] at h
    obtain ⟨_, _, hidx, hcur, _⟩ := Update_acquire_spec dx gt gpu s s1 h
    have hc := frames_cursor dx gt gs app s hrun
    rw [h0] at hc
    simp only [gNumFrameResources] at hc hidx hcur
    have e : (s.mCurrFrameResourceIndex + 1) % 3 = (gs.length + 1) % 3 := by omega
    rw [hidx, hcur, e]
    exact ⟨rfl, rfl⟩

/-- C6, instance: the fourth acquisition of the example application selects slot 1. -/
theorem C6_kth_acquisition_selects_k_mod_three_witness :
    exampleFourthAcquisition.mCurrFrameResourceIndex
        = (([⟨0, 0⟩, ⟨0, 0⟩, ⟨0, 0⟩] : List GpuProgress).length + 1) % 3 ∧
    exampleFourthAcquisition.mCurrFrameResource
        = some ((([⟨0, 0⟩, ⟨0, 0⟩, ⟨0, 0⟩] : List GpuProgress).length + 1) % 3) :=
  C6_kth_acquisition_selects_k_mod_three exampleMath exampleTimer exampleApp
    [⟨0, 0⟩, ⟨0, 0⟩, ⟨0, 0⟩] ⟨0, 1⟩ exampleFourthAcquisition rfl rfl

end GAME3111

namespace GAME3111

open CrateApp

section Progress

variable {α : Type} [LinearOrderedField α]

/-- Lookup in a map whose values have been transformed. -/
theorem UMap_lookup_map {V W : Type} (f : V → W) (m : UMap V) (k : String) :
    List.lookup k (m.map (fun p => (p.1, f p.2))) = (List.lookup k m).map f := by
  induction m with
  | nil => rfl
  | cons p rest ih =>
    obtain ⟨pk, pv⟩ := p
    by_cases h : k = pk
    · subst h
      rw [List.map_cons, UMap_lookup_cons_self, UMap_lookup_cons_self]
      rfl
    · rw [List.map_cons, UMap_lookup_cons_of_ne _ _ _ _ h, UMap_lookup_cons_of_ne _ _ _ _ h, ih]

omit [LinearOrderedField α] in
/-- The commands of `DrawRenderItems` are recorded when every listed render item exists
and its geometry and material are registered. -/
theorem DrawRenderItems_ok (app : CrateApp α) (fr : FrameResource α) (ritems : List Nat)
    (h : ∀ ri ∈ ritems, ∃ (item : RenderItem α) (geo : MeshGeometry α) (mat : Material α),
      app.mAllRitems[ri]? = some item ∧
      item.Geo.bind (fun k => (app.mGeometries.lookup k).join) = some geo ∧
      item.Mat.bind (fun k => (app.mMaterials.lookup k).join) = some mat) :
    ∃ cmds, DrawRenderItems app fr ritems = .ok cmds := by
  induction ritems with
  | nil => exact ⟨[], rfl⟩
  | cons ri rest ih =>
    obtain ⟨item, geo, mat, hitem, hgeo, hmat⟩ := h ri (List.mem_cons_self _ _)
    obtain ⟨more, hmore⟩ := ih (fun r hr => h r (List.mem_cons_of_mem _ hr))
    unfold DrawRenderItems
    have h1 : ∃ cmds, DrawRenderItems.item app fr ri = .ok cmds := by
      unfold DrawRenderItems.item
      simp only [hitem, hgeo, hmat]
      exact ⟨_, rfl⟩
    obtain ⟨cmds, hcmds⟩ := h1
    rw [hcmds, hmore]
    exact ⟨_, rfl⟩

omit [LinearOrderedField α] in
/-- The listed render items of a drawable scene exist with registered geometry and material. -/
theorem drawable_items (app : CrateApp α) (h : drawable app = true) :
    ∀ ri ∈ app.mOpaqueRitems, ∃ (item : RenderItem α) (geo : MeshGeometry α) (mat : Material α),
      app.mAllRitems[ri]? = some item ∧
      item.Geo.bind (fun k => (app.mGeometries.lookup k).join) = some geo ∧
      item.Mat.bind (fun k => (app.mMaterials.lookup k).join) = some mat := by
  intro ri hri
  unfold drawable at h
  rw [List.all_eq_true] at h
  have h1 := h ri hri
  cases hitem : app.mAllRitems[ri]? with
  | none => rw [hitem] at h1; cases h1
  | some item =>
    rw [hitem] at h1
    simp only [Bool.and_eq_true, Option.isSome_iff_exists] at h1
    obtain ⟨⟨geo, hgeo⟩, ⟨mat, hmat⟩⟩ := h1
    exact ⟨item, geo, mat, rfl, hgeo, hmat⟩

omit [LinearOrderedField α] in
/-- In a drawable scene with a current frame resource `Draw` returns. -/
theorem Draw_ok (gt : GameTimer α) (s : CrateApp α) (cur : Nat) (fr : FrameResource α)
    (hcur : s.mCurrFrameResource = some cur) (hfr : s.mFrameResources[cur]? = some fr)
    (hd : drawable s = true) : ∃ s1, Draw gt s = .ok s1 := by
  obtain ⟨cmds, hcmds⟩ := DrawRenderItems_ok s fr s.mOpaqueRitems (drawable_items s hd)
  unfold Draw
  rw [hcur]
  simp only
  rw [hfr]
  simp only
  rw [hcmds]
  exact ⟨_, rfl⟩

/-- With the materials loaded and a current frame resource the uploads of `Update` return. -/
theorem Update_upload_ok (dx : DirectXMath α) (gt : GameTimer α) (s : CrateApp α)
    (cur : Nat) (fr : FrameResource α)
    (hcur : s.mCurrFrameResource = some cur) (hfr : s.mFrameResources[cur]? = some fr)
    (hm : materialsLoaded s = true) : ∃ s2, Update.upload dx gt s = .ok s2 := by
  have hlt : cur < s.mFrameResources.length := by
    by_contra hnot
    rw [List.getElem?_eq_none (not_lt.mp hnot)] at hfr
    cases hfr
  have hnn : ∀ p ∈ s.mMaterials, p.2.isSome := by
    unfold materialsLoaded at hm
    rw [List.all_eq_true] at hm
    exact hm
  obtain ⟨r, hr⟩ := UpdateMaterialCBs_forEach_ok s.mMaterials fr.MaterialCB hnn
  unfold Update.upload AnimateMaterials UpdateObjectCBs
  rw [hcur]
  simp only
  rw [hfr]
  simp only [Except.bind]
  unfold UpdateMaterialCBs
  simp only [hcur, List.getElem?_set_self hlt, hr]
  unfold UpdateMainPassCB
  simp only [hcur, List.getElem?_set_self, List.length_set, hlt]
  exact ⟨_, rfl⟩

/-- The acquisition returns when the selected slot exists and the GPU reaches the
recorded fence, if a wait is needed. -/
theorem Update_acquire_ok (dx : DirectXMath α) (gt : GameTimer α) (gpu : GpuProgress)
    (s : CrateApp α) (fr : FrameResource α)
    (hfr : s.mFrameResources[(s.mCurrFrameResourceIndex + 1) % gNumFrameResources]? = some fr)
    (hgo : Update.mustWait fr.Fence (s.mFence + gpu.beforeCheck) = true →
      fr.Fence ≤ s.mFence + gpu.beforeCheck + gpu.duringWait) :
    ∃ s1, Update.acquire dx gt gpu s = .ok s1 := by
  unfold Update.acquire
  simp only [Update.cycle, OnKeyboardInput, UpdateCamera]
  rw [hfr]
  simp only
  by_cases hw : Update.mustWait fr.Fence (s.mFence + gpu.beforeCheck) = true
  · rw [if_pos hw, if_neg (not_lt.mpr (hgo hw))]
    exact ⟨_, rfl⟩
  · rw [if_neg hw]
    exact ⟨_, rfl⟩

/-- The acquisition leaves the scene as it is. -/
theorem Update_acquire_scene (dx : DirectXMath α) (gt : GameTimer α) (gpu : GpuProgress)
    (s s1 : CrateApp α) (h : Update.acquire dx gt gpu s = .ok s1) :
    s1.mGeometries = s.mGeometries ∧ s1.mOpaqueRitems = s.mOpaqueRitems ∧
    s1.mAllRitems = s.mAllRitems ∧ s1.mMaterials = s.mMaterials := by
  unfold Update.acquire at h
  simp only [Update.cycle, OnKeyboardInput, UpdateCamera] at h
  cases hfr : s.mFrameResources[(s.mCurrFrameResourceIndex + 1) % gNumFrameResources]? with
  | none => rw [hfr] at h; cases h
  | some fr =>
    rw [hfr] at h
    simp only at h
    split_ifs at h <;> cases h <;> exact ⟨rfl, rfl, rfl, rfl⟩

/-- The uploads change the scene only by decrementing positive dirty counters. -/
theorem Update_upload_scene (dx : DirectXMath α) (gt : GameTimer α) (s s2 : CrateApp α)
    (h : Update.upload dx gt s = .ok s2) :
    s2.mGeometries = s.mGeometries ∧ s2.mOpaqueRitems = s.mOpaqueRitems ∧
    s2.mAllRitems = s.mAllRitems.map (fun e =>
      if e.NumFramesDirty > 0 then { e with NumFramesDirty := e.NumFramesDirty - 1 } else e) ∧
    s2.mMaterials = s.mMaterials.map (fun p => (p.1, p.2.map (fun mat =>
      if mat.NumFramesDirty > 0 then { mat with NumFramesDirty := mat.NumFramesDirty - 1 }
      else mat))) := by
  unfold Update.upload AnimateMaterials at h
  cases h1 : UpdateObjectCBs gt s with
  | error e => rw [h1] at h; cases h
  | ok a1 =>
    rw [h1] at h
    simp only [Except.bind] at h
    cases h2 : UpdateMaterialCBs gt a1 with
    | error e => rw [h2] at h; cases h
    | ok a2 =>
      rw [h2] at h
      simp only at h
      obtain ⟨cur, fr, _, _, e1⟩ := UpdateObjectCBs_spec gt s a1 h1
      obtain ⟨cur2, f2, r, _, _, hr, e2⟩ := UpdateMaterialCBs_spec gt a1 a2 h2
      obtain ⟨cur3, f3, cb, _, _, e3⟩ := UpdateMainPassCB_spec dx gt a2 s2 h
      have hmat := UpdateMaterialCBs_forEach_items _ _ r hr
      subst e3
      subst e2
      subst e1
      refine ⟨rfl, rfl, ?_, ?_⟩
      · exact UpdateObjectCBs_forEach_items s.mAllRitems fr.ObjectCB
      · exact hmat

omit [LinearOrderedField α] in
/-- The method `Draw` leaves the scene as it is. -/
theorem Draw_scene (gt : GameTimer α) (s s1 : CrateApp α) (h : Draw gt s = .ok s1) :
    s1.mGeometries = s.mGeometries ∧ s1.mOpaqueRitems = s.mOpaqueRitems ∧
    s1.mAllRitems = s.mAllRitems ∧ s1.mMaterials = s.mMaterials := by
  unfold Draw at h
  cases hcur : s.mCurrFrameResource with
  | none => rw [hcur] at h; cases h
  | some cur =>
    rw [hcur] at h
    simp only at h
    cases hfr : s.mFrameResources[cur]? with
    | none => rw [hfr] at h; cases h
    | some fr =>
      rw [hfr] at h
      simp only at h
      cases hd : DrawRenderItems s fr s.mOpaqueRitems with
      | error e => rw [hd] at h; cases h
      | ok items =>
        rw [hd] at h
        cases h
        exact ⟨rfl, rfl, rfl, rfl⟩

omit [LinearOrderedField α] in
/-- Decrementing dirty counters keeps the materials loaded and the scene drawable. -/
theorem scene_kept (s s2 : CrateApp α)
    (hg : s2.mGeometries = s.mGeometries) (ho : s2.mOpaqueRitems = s.mOpaqueRitems)
    (hi : s2.mAllRitems = s.mAllRitems.map (fun e =>
      if e.NumFramesDirty > 0 then { e with NumFramesDirty := e.NumFramesDirty - 1 } else e))
    (hm : s2.mMaterials = s.mMaterials.map (fun p => (p.1, p.2.map (fun mat =>
      if mat.NumFramesDirty > 0 then { mat with NumFramesDirty := mat.NumFramesDirty - 1 }
      else mat))))
    (h1 : materialsLoaded s = true) (h2 : drawable s = true) :
    materialsLoaded s2 = true ∧ drawable s2 = true := by
  constructor
  · unfold materialsLoaded at h1 ⊢
    rw [List.all_eq_true] at h1 ⊢
    intro q hq
    rw [hm] at hq
    obtain ⟨p, hp, rfl⟩ := List.mem_map.mp hq
    have := h1 p hp
    cases hp2 : p.2 with
    | none => rw [hp2] at this; cases this
    | some m => rfl
  · have hitems := drawable_items s h2
    unfold drawable
    rw [List.all_eq_true]
    intro ri hri
    rw [ho] at hri
    obtain ⟨item, geo, mat, hitem, hgeo, hmat⟩ := hitems ri hri
    rw [hi, List.getElem?_map, hitem, hg, hm]
    simp only [Option.map_some']
    have hgeo1 : ((if item.NumFramesDirty > 0 then
          { item with NumFramesDirty := item.NumFramesDirty - 1 } else item).Geo.bind
        (fun k => (s.mGeometries.lookup k).join)).isSome = true := by
      split_ifs <;> simp only [hgeo] <;> rfl
    have hmat1 : ((if item.NumFramesDirty > 0 then
          { item with NumFramesDirty := item.NumFramesDirty - 1 } else item).Mat.bind
        (fun k => ((s.mMaterials.map (fun p => (p.1, p.2.map (fun mat : Material α =>
          if mat.NumFramesDirty > 0 then
            { mat with NumFramesDirty := mat.NumFramesDirty - 1 }
          else mat)))).lookup k).join)).isSome = true := by
      have hM : (if item.NumFramesDirty > 0 then
          { item with NumFramesDirty := item.NumFramesDirty - 1 } else item).Mat = item.Mat := by
        split_ifs <;> rfl
      rw [hM]
      cases hk : item.Mat with
      | none => rw [hk] at hmat; cases hmat
      | some k =>
        rw [hk] at hmat
        simp only [Option.bind] at hmat ⊢
        rw [UMap_lookup_map]
        cases hl : List.lookup k s.mMaterials with
        | none => rw [hl] at hmat; cases hmat
        | some o =>
          rw [hl] at hmat
          cases o with
          | none => cases hmat
          | some m => rfl
    rw [hgeo1, hmat1]
    rfl

/-- A frame of a ready scene returns when the acquisition does not wait forever, and the
scene is ready again afterwards. -/
theorem frame_ok (dx : DirectXMath α) (gt : GameTimer α) (gpu : GpuProgress)
    (s : CrateApp α) (fr : FrameResource α) (hready : sceneReady s = true)
    (hfr : s.mFrameResources[(s.mCurrFrameResourceIndex + 1) % gNumFrameResources]? = some fr)
    (hgo : Update.mustWait fr.Fence (s.mFence + gpu.beforeCheck) = true →
      fr.Fence ≤ s.mFence + gpu.beforeCheck + gpu.duringWait) :
    ∃ s3, frame dx gt gpu s = .ok s3 ∧ sceneReady s3 = true := by
  unfold sceneReady at hready
  simp only [Bool.and_eq_true, decide_eq_true_eq] at hready
  obtain ⟨⟨hm, hd⟩, hlen⟩ := hready
  obtain ⟨s1, h1⟩ := Update_acquire_ok dx gt gpu s fr hfr hgo
  obtain ⟨_, _, _, hcur, hfrs, _⟩ := Update_acquire_spec dx gt gpu s s1 h1
  obtain ⟨hg1, ho1, hi1, hm1⟩ := Update_acquire_scene dx gt gpu s s1 h1
  have hm1b : materialsLoaded s1 = true := by
    unfold materialsLoaded at hm ⊢; rw [hm1]; exact hm
  obtain ⟨s2, h2⟩ := Update_upload_ok dx gt s1 _ fr hcur (by rw [hfrs]; exact hfr) hm1b
  obtain ⟨cur, _, fr2, hcur2, hfr2, hset2, _, _, _, _, hcur2b, _⟩ :=
    Update_upload_spec dx gt s1 s2 h2
  obtain ⟨hg2, ho2, hi2, hm2⟩ := Update_upload_scene dx gt s1 s2 h2
  rw [hg1] at hg2
  rw [ho1] at ho2
  rw [hi1] at hi2
  rw [hm1] at hm2
  obtain ⟨hm2b, hd2⟩ := scene_kept s s2 hg2 ho2 hi2 hm2 hm hd
  have hlt : cur < s1.mFrameResources.length := by
    by_contra hnot
    rw [List.getElem?_eq_none (not_lt.mp hnot)] at hfr2
    cases hfr2
  obtain ⟨s3, h3⟩ := Draw_ok gt s2 cur fr2 (by rw [hcur2b, hcur2])
    (by rw [hset2, List.getElem?_set_self hlt]) hd2
  obtain ⟨_, _, _, _, _, hset3, _⟩ := Draw_spec gt s2 s3 h3
  obtain ⟨hg3, ho3, hi3, hm3⟩ := Draw_scene gt s2 s3 h3
  refine ⟨s3, ?_, ?_⟩
  · unfold frame Update
    rw [h1]
    simp only [Except.bind]
    rw [h2]
    exact h3
  · unfold sceneReady
    simp only [Bool.and_eq_true, decide_eq_true_eq]
    refine ⟨⟨?_, ?_⟩, ?_⟩
    · unfold materialsLoaded at hm2b ⊢; rw [hm3]; exact hm2b
    · unfold drawable at hd2 ⊢; rw [hg3, ho3, hi3, hm3]; exact hd2
    · rw [hset3, List.length_set, hset2, List.length_set, hfrs]; exact hlen

end Progress

end GAME3111

namespace GAME3111

open CrateApp

/-- Three frames that return, from a state with all recorded fences 0 and a completed
value that is not above the fence counter and does not advance: the acquisitions of the
three frames do not wait, the fourth selects the slot of the first, waits on the value
recorded there in the first frame and does not return. -/
theorem fourth_acquisition_waits {α : Type} [LinearOrderedField α]
    (dx : DirectXMath α) (gt : GameTimer α) (app s1 s2 s3 : CrateApp α)
    (hzero : ∀ fr ∈ app.mFrameResources, fr.Fence = 0)
    (hgpu : app.mFence ≤ app.mCurrentFence)
    (hrange : app.mCurrentFence + 1 < UINT64_RANGE)
    (h1 : frame dx gt ⟨0, 0⟩ app = .ok s1)
    (h2 : frame dx gt ⟨0, 0⟩ s1 = .ok s2)
    (h3 : frame dx gt ⟨0, 0⟩ s2 = .ok s3) :
    (∃ fr : FrameResource α,
      app.mFrameResources[(Update.cycle dx gt app).mCurrFrameResourceIndex]? = some fr ∧
      Update.mustWait fr.Fence app.mFence = false) ∧
    (∃ fr : FrameResource α,
      s1.mFrameResources[(Update.cycle dx gt s1).mCurrFrameResourceIndex]? = some fr ∧
      Update.mustWait fr.Fence s1.mFence = false) ∧
    (∃ fr : FrameResource α,
      s2.mFrameResources[(Update.cycle dx gt s2).mCurrFrameResourceIndex]? = some fr ∧
      Update.mustWait fr.Fence s2.mFence = false) ∧
    (Update.cycle dx gt s3).mCurrFrameResourceIndex
      = (Update.cycle dx gt app).mCurrFrameResourceIndex ∧
    (∃ fr1 fr : FrameResource α,
      s1.mFrameResources[(Update.cycle dx gt app).mCurrFrameResourceIndex]? = some fr1 ∧
      fr1.Fence = s1.mCurrentFence ∧
      s3.mFrameResources[(Update.cycle dx gt s3).mCurrFrameResourceIndex]? = some fr ∧
      fr.Fence = fr1.Fence ∧
      s3.mFence = app.mFence ∧
      Update.mustWait fr.Fence s3.mFence = true ∧
      Update dx gt ⟨0, 0⟩ s3 = .error (.blockedOnFence fr.Fence)) := by
  have hmw0 : ∀ c : Nat, Update.mustWait 0 c = false := fun c => rfl
  obtain ⟨fa, fa3, hfa, hset1, hfen1, _, _, hidx1, _, hcf1, _, _, hnw1⟩ :=
    frame_spec dx gt ⟨0, 0⟩ app s1 h1
  obtain ⟨fb, fb3, hfb, hset2, hfen2, _, _, hidx2, _, hcf2, _, _, hnw2⟩ :=
    frame_spec dx gt ⟨0, 0⟩ s1 s2 h2
  obtain ⟨fc, fc3, hfc, hset3, hfen3, _, _, hidx3, _, hcf3, _, _, hnw3⟩ :=
    frame_spec dx gt ⟨0, 0⟩ s2 s3 h3
  simp only [gNumFrameResources, Nat.add_zero] at *
  have hlt1 : (app.mCurrFrameResourceIndex + 1) % 3 < app.mFrameResources.length := by
    by_contra hnot
    rw [List.getElem?_eq_none (not_lt.mp hnot)] at hfa
    cases hfa
  -- frame 1
  have hfa0 : fa.Fence = 0 := hzero fa (List.getElem?_mem hfa)
  have hF1 : s1.mFence = app.mFence := hnw1 (by rw [hfa0]; rfl)
  -- frame 2
  rw [hset1, hidx1, List.getElem?_set_ne (by omega)] at hfb
  have hfb0 : fb.Fence = 0 := hzero fb (List.getElem?_mem hfb)
  have hF2 : s2.mFence = s1.mFence := hnw2 (by rw [hfb0]; rfl)
  -- frame 3
  rw [hset2, hset1, hidx2, hidx1, List.getElem?_set_ne (by omega),
    List.getElem?_set_ne (by omega)] at hfc
  have hfc0 : fc.Fence = 0 := hzero fc (List.getElem?_mem hfc)
  have hF3 : s3.mFence = s2.mFence := hnw3 (by rw [hfc0]; rfl)
  -- the slot of the fourth acquisition
  have hc4 : (s3.mCurrFrameResourceIndex + 1) % 3 = (app.mCurrFrameResourceIndex + 1) % 3 := by
    rw [hidx3, hidx2, hidx1]; omega
  have hrec : fa3.Fence = app.mCurrentFence + 1 := by
    rw [hfen1]; exact Nat.mod_eq_of_lt hrange
  have hs1 : s1.mFrameResources[(app.mCurrFrameResourceIndex + 1) % 3]? = some fa3 := by
    rw [hset1, List.getElem?_set_self hlt1]
  have hs3 : s3.mFrameResources[(s3.mCurrFrameResourceIndex + 1) % 3]? = some fa3 := by
    rw [hc4, hset3, hset2, hset1, hidx2, hidx1, List.getElem?_set_ne (by omega),
      List.getElem?_set_ne (by omega), List.getElem?_set_self hlt1]
  have hmw : Update.mustWait fa3.Fence s3.mFence = true := by
    rw [hrec, hF3, hF2, hF1]
    simp only [Update.mustWait, Bool.and_eq_true, bne_iff_ne, ne_eq, decide_eq_true_eq]
    omega
  refine ⟨⟨fa, hfa, by rw [hfa0]; rfl⟩, ⟨fb, ?_, by rw [hfb0]; rfl⟩,
    ⟨fc, ?_, by rw [hfc0]; rfl⟩, hc4, fa3, fa3, hs1, ?_, hs3, rfl, ?_, hmw, ?_⟩
  · show s1.mFrameResources[(s1.mCurrFrameResourceIndex + 1) % 3]? = some fb
    rw [hset1, hidx1, List.getElem?_set_ne (by omega)]
    exact hfb
  · show s2.mFrameResources[(s2.mCurrFrameResourceIndex + 1) % 3]? = some fc
    rw [hset2, hset1, hidx2, hidx1, List.getElem?_set_ne (by omega),
      List.getElem?_set_ne (by omega)]
    exact hfc
  · rw [hfen1, hcf1]
  · rw [hF3, hF2, hF1]
  · unfold Update
    rw [Update_acquire_blocked dx gt ⟨0, 0⟩ s3 fa3 hs3 hmw (by
      rw [hrec, hF3, hF2, hF1]
      show app.mFence + 0 + 0 < app.mCurrentFence + 1
      omega)]
    rfl

/-- C5: with 3 ring slots whose recorded fences are all 0 at start, in a scene that is
ready to render, with a completed value that is not above the fence counter and never
advances (and no wrap of the 64-bit counter in the first frame): the first three
`Update`/`Draw` frames return, the fence-wait condition of `Update` is false on the 1st,
2nd and 3rd acquisitions and true on the 4th, which selects the slot acquired 1st; the
fence value the 4th acquisition waits on is the value `Draw` recorded in that slot at the
end of the 1st frame, and the 4th `Update` does not return while the GPU stays idle. -/
theorem C5_fourth_acquisition_waits_on_first_fence {α : Type} [LinearOrderedField α]
    (dx : DirectXMath α) (gt : GameTimer α) (app : CrateApp α)
    (hready : sceneReady app = true)
    (hzero : ∀ fr ∈ app.mFrameResources, fr.Fence = 0)
    (hgpu : app.mFence ≤ app.mCurrentFence)
    (hrange : app.mCurrentFence + 1 < UINT64_RANGE) :
    ∃ s1 s2 s3 : CrateApp α,
      frame dx gt ⟨0, 0⟩ app = .ok s1 ∧
      frame dx gt ⟨0, 0⟩ s1 = .ok s2 ∧
      frame dx gt ⟨0, 0⟩ s2 = .ok s3 ∧
      (∃ fr : FrameResource α,
        app.mFrameResources[(Update.cycle dx gt app).mCurrFrameResourceIndex]? = some fr ∧
        Update.mustWait fr.Fence app.mFence = false) ∧
      (∃ fr : FrameResource α,
        s1.mFrameResources[(Update.cycle dx gt s1).mCurrFrameResourceIndex]? = some fr ∧
        Update.mustWait fr.Fence s1.mFence = false) ∧
      (∃ fr : FrameResource α,
        s2.mFrameResources[(Update.cycle dx gt s2).mCurrFrameResourceIndex]? = some fr ∧
        Update.mustWait fr.Fence s2.mFence = false) ∧
      (Update.cycle dx gt s3).mCurrFrameResourceIndex
        = (Update.cycle dx gt app).mCurrFrameResourceIndex ∧
      (∃ fr1 fr : FrameResource α,
        s1.mFrameResources[(Update.cycle dx gt app).mCurrFrameResourceIndex]? = some fr1 ∧
        fr1.Fence = s1.mCurrentFence ∧
        s3.mFrameResources[(Update.cycle dx gt s3).mCurrFrameResourceIndex]? = some fr ∧
        fr.Fence = fr1.Fence ∧
        s3.mFence = app.mFence ∧
        Update.mustWait fr.Fence s3.mFence = true ∧
        Update dx gt ⟨0, 0⟩ s3 = .error (.blockedOnFence fr.Fence)) := by
  have hlen : 3 ≤ app.mFrameResources.length := by
    unfold sceneReady at hready
    simp only [Bool.and_eq_true, decide_eq_true_eq, gNumFrameResources] at hready
    exact hready.2
  have hnowait : ∀ (fr : FrameResource α) (c : Nat), fr.Fence = 0 →
      Update.mustWait fr.Fence c = true → fr.Fence ≤ c + 0 := by
    intro fr c h0 hw
    rw [h0] at hw
    cases hw
  -- frame 1
  have hlt1 : (app.mCurrFrameResourceIndex + 1) % gNumFrameResources
      < app.mFrameResources.length := by
    simp only [gNumFrameResources]; omega
  have hfa := List.getElem?_eq_getElem hlt1
  obtain ⟨s1, h1, hr1⟩ := frame_ok dx gt ⟨0, 0⟩ app _ hready hfa
    (hnowait _ _ (hzero _ (List.getElem?_mem hfa)))
  obtain ⟨_, fa3, _, hset1, _, _, _, hidx1, _⟩ := frame_spec dx gt ⟨0, 0⟩ app s1 h1
  -- frame 2
  have hlt2 : (s1.mCurrFrameResourceIndex + 1) % gNumFrameResources
      < app.mFrameResources.length := by
    simp only [gNumFrameResources]; omega
  have hfb : s1.mFrameResources[(s1.mCurrFrameResourceIndex + 1) % gNumFrameResources]?
      = some (app.mFrameResources[(s1.mCurrFrameResourceIndex + 1) % gNumFrameResources]) := by
    rw [hset1, List.getElem?_set_ne (by
      rw [hidx1]; simp only [gNumFrameResources]; omega)]
    exact List.getElem?_eq_getElem hlt2
  obtain ⟨s2, h2, hr2⟩ := frame_ok dx gt ⟨0, 0⟩ s1 _ hr1 hfb
    (hnowait _ _ (hzero _ (List.getElem_mem _)))
  obtain ⟨_, fb3, _, hset2, _, _, _, hidx2, _⟩ := frame_spec dx gt ⟨0, 0⟩ s1 s2 h2
  -- frame 3
  have hlt3 : (s2.mCurrFrameResourceIndex + 1) % gNumFrameResources
      < app.mFrameResources.length := by
    simp only [gNumFrameResources]; omega
  have hfc : s2.mFrameResources[(s2.mCurrFrameResourceIndex + 1) % gNumFrameResources]?
      = some (app.mFrameResources[(s2.mCurrFrameResourceIndex + 1) % gNumFrameResources]) := by
    rw [hset2, hset1, List.getElem?_set_ne (by
      rw [hidx2]; simp only [gNumFrameResources]; omega),
      List.getElem?_set_ne (by
      rw [hidx2, hidx1]; simp only [gNumFrameResources]; omega)]
    exact List.getElem?_eq_getElem hlt3
  obtain ⟨s3, h3, _⟩ := frame_ok dx gt ⟨0, 0⟩ s2 _ hr2 hfc
    (hnowait _ _ (hzero _ (List.getElem_mem _)))
  exact ⟨s1, s2, s3, h1, h2, h3,
    fourth_acquisition_waits dx gt app s1 s2 s3 hzero hgpu hrange h1 h2 h3⟩

/-- C5, instance: the example application, whose fence counter and completed value are
both 3 before the first frame. -/
theorem C5_fourth_acquisition_waits_on_first_fence_witness :
    ∃ s1 s2 s3 : CrateApp ℚ,
      frame exampleMath exampleTimer ⟨0, 0⟩ exampleApp = .ok s1 ∧
      frame exampleMath exampleTimer ⟨0, 0⟩ s1 = .ok s2 ∧
      frame exampleMath exampleTimer ⟨0, 0⟩ s2 = .ok s3 ∧
      (∃ fr : FrameResource ℚ,
        exampleApp.mFrameResources[
          (Update.cycle exampleMath exampleTimer exampleApp).mCurrFrameResourceIndex]?
            = some fr ∧
        Update.mustWait fr.Fence exampleApp.mFence = false) ∧
      (∃ fr : FrameResource ℚ,
        s1.mFrameResources[
          (Update.cycle exampleMath exampleTimer s1).mCurrFrameResourceIndex]? = some fr ∧
        Update.mustWait fr.Fence s1.mFence = false) ∧
      (∃ fr : FrameResource ℚ,
        s2.mFrameResources[
          (Update.cycle exampleMath exampleTimer s2).mCurrFrameResourceIndex]? = some fr ∧
        Update.mustWait fr.Fence s2.mFence = false) ∧
      (Update.cycle exampleMath exampleTimer s3).mCurrFrameResourceIndex
        = (Update.cycle exampleMath exampleTimer exampleApp).mCurrFrameResourceIndex ∧
      (∃ fr1 fr : FrameResource ℚ,
        s1.mFrameResources[
          (Update.cycle exampleMath exampleTimer exampleApp).mCurrFrameResourceIndex]?
            = some fr1 ∧
        fr1.Fence = s1.mCurrentFence ∧
        s3.mFrameResources[
          (Update.cycle exampleMath exampleTimer s3).mCurrFrameResourceIndex]? = some fr ∧
        fr.Fence = fr1.Fence ∧
        s3.mFence = exampleApp.mFence ∧
        Update.mustWait fr.Fence s3.mFence = true ∧
        Update exampleMath exampleTimer ⟨0, 0⟩ s3 = .error (.blockedOnFence fr.Fence)) :=
  C5_fourth_acquisition_waits_on_first_fence exampleMath exampleTimer exampleApp
    (by decide) (by decide) (by decide) (by decide)

end GAME3111

namespace GAME3111

open CrateApp

/-- C3: for every render item whose dirty counter is 3 (slot indices pairwise distinct,
as `BuildRenderItems` assigns them), for every starting position of the ring cursor and
every GPU schedule: after 3 consecutive calls of `Update` that return (with the `Draw`
calls of the frame loop in between), each of the 3 frame resources holds, at the item's
`ObjCBIndex` of its per-object buffer, the transposes of the item's `World` and
`TexTransform` (entry `(a, b)` of each written matrix is entry `(b, a)` of the item's
matrix), and the counter is 0; the `Draw` that follows keeps this. -/
theorem C3_three_updates_reach_every_ring_slot {α : Type} [LinearOrderedField α]
    (dx : DirectXMath α) (gt : GameTimer α) (g1 g2 g3 : GpuProgress)
    (app s1 s2 s3 : CrateApp α) (i : Nat) (e : RenderItem α)
    (hnd : (app.mAllRitems.map (fun x => x.ObjCBIndex)).Nodup)
    (hi : app.mAllRitems[i]? = some e) (he : e.NumFramesDirty = 3)
    (h1 : frame dx gt g1 app = .ok s1)
    (h2 : frame dx gt g2 s1 = .ok s2)
    (h3 : Update dx gt g3 s2 = .ok s3) :
    (∀ k : Nat, k < gNumFrameResources →
      ∃ (fr : FrameResource α) (c : ObjectConstants α),
        s3.mFrameResources[k]? = some fr ∧
        fr.ObjectCB.mappedData e.ObjCBIndex = some c ∧
        c = { World := XMMatrixTranspose e.World,
              TexTransform := XMMatrixTranspose e.TexTransform } ∧
        (∀ a b : Fin 4, c.World a b = e.World b a) ∧
        (∀ a b : Fin 4, c.TexTransform a b = e.TexTransform b a)) ∧
    s3.mAllRitems[i]? = some { e with NumFramesDirty := 0 } ∧
    (∀ s4 : CrateApp α, Draw gt s3 = .ok s4 →
      (∀ k : Nat, k < gNumFrameResources →
        ∃ (fr : FrameResource α) (c : ObjectConstants α),
          s4.mFrameResources[k]? = some fr ∧
          fr.ObjectCB.mappedData e.ObjCBIndex = some c ∧
          c = { World := XMMatrixTranspose e.World,
                TexTransform := XMMatrixTranspose e.TexTransform } ∧
          (∀ a b : Fin 4, c.World a b = e.World b a) ∧
          (∀ a b : Fin 4, c.TexTransform a b = e.TexTransform b a)) ∧
      s4.mAllRitems[i]? = some { e with NumFramesDirty := 0 }) := by
  have hc : e.NumFramesDirty = ((3 : Nat) : Int) := by rw [he]; rfl
  obtain ⟨fa, fa3, hfa, hset1, _, hobj1, hitems1, hidx1, _⟩ := frame_spec dx gt g1 app s1 h1
  obtain ⟨fb, fb3, hfb, hset2, _, hobj2, hitems2, hidx2, _⟩ := frame_spec dx gt g2 s1 s2 h2
  obtain ⟨fc, fc3, hfc, hset3, _, hobj3, hitems3, hidx3, hcur3, _⟩ :=
    Update_spec dx gt g3 s2 s3 h3
  -- the three upload calls
  have u1 := (objectUpload_call app.mAllRitems i e 3 [] fa.ObjectCB hnd hi hc).1
    (by simp)
  have u2 := (objectUpload_call app.mAllRitems i e 3 [fa.ObjectCB] fb.ObjectCB hnd hi hc).1
    (by simp)
  have u3 := (objectUpload_call app.mAllRitems i e 3 [fa.ObjectCB, fb.ObjectCB] fc.ObjectCB
    hnd hi hc).1 (by simp)
  have r1 : fa3.ObjectCB.mappedData e.ObjCBIndex = some (objConstants e) := by
    rw [hobj1]; exact u1.1
  have r2 : fb3.ObjectCB.mappedData e.ObjCBIndex = some (objConstants e) := by
    rw [hobj2, hitems1]; exact u2.1
  have r3 : fc3.ObjectCB.mappedData e.ObjCBIndex = some (objConstants e) := by
    rw [hobj3, hitems2, hitems1]; exact u3.1
  have hcount : s3.mAllRitems[i]? = some { e with NumFramesDirty := 0 } := by
    rw [hitems3, hitems2, hitems1]
    have := u3.2
    simp only [List.length_cons, List.length_nil] at this
    exact this
  simp only [gNumFrameResources] at *
  -- the three slots
  have hlen1 : s1.mFrameResources.length = app.mFrameResources.length := by
    rw [hset1, List.length_set]
  have hlen2 : s2.mFrameResources.length = app.mFrameResources.length := by
    rw [hset2, List.length_set, hlen1]
  have hlt1 : (app.mCurrFrameResourceIndex + 1) % 3 < app.mFrameResources.length := by
    by_contra hnot
    rw [List.getElem?_eq_none (not_lt.mp hnot)] at hfa
    cases hfa
  have hlt2 : (s1.mCurrFrameResourceIndex + 1) % 3 < app.mFrameResources.length := by
    by_contra hnot
    rw [List.getElem?_eq_none (by rw [hlen1]; exact not_lt.mp hnot)] at hfb
    cases hfb
  have hlt3 : (s2.mCurrFrameResourceIndex + 1) % 3 < app.mFrameResources.length := by
    by_contra hnot
    rw [List.getElem?_eq_none (by rw [hlen2]; exact not_lt.mp hnot)] at hfc
    cases hfc
  have hslots : ∀ k : Nat, k < 3 →
      ∃ fr : FrameResource α, s3.mFrameResources[k]? = some fr ∧
        fr.ObjectCB.mappedData e.ObjCBIndex = some (objConstants e) := by
    intro k hk
    rw [hset3, hset2, hset1]
    by_cases hk3 : k = (s2.mCurrFrameResourceIndex + 1) % 3
    · refine ⟨fc3, ?_, r3⟩
      rw [hk3, List.getElem?_set_self (by simpa using hlt3)]
    · by_cases hk2 : k = (s1.mCurrFrameResourceIndex + 1) % 3
      · refine ⟨fb3, ?_, r2⟩
        rw [List.getElem?_set_ne (fun h => hk3 h.symm), hk2,
          List.getElem?_set_self (by simpa using hlt2)]
      · refine ⟨fa3, ?_, r1⟩
        have hk1 : k = (app.mCurrFrameResourceIndex + 1) % 3 := by
          rw [hidx2] at hk3
          rw [hidx1] at hk2 hk3
          omega
        rw [List.getElem?_set_ne (fun h => hk3 h.symm),
          List.getElem?_set_ne (fun h => hk2 h.symm), hk1, List.getElem?_set_self hlt1]
  refine ⟨?_, hcount, ?_⟩
  · intro k hk
    obtain ⟨frk, hfrk, hrk⟩ := hslots k hk
    exact ⟨frk, objConstants e, hfrk, hrk, rfl, fun _ _ => rfl, fun _ _ => rfl⟩
  intro s4 h4
  obtain ⟨cur, fr, _, hfr4, _, hset4, hitems4, _⟩ := Draw_spec gt s3 s4 h4
  refine ⟨?_, by rw [hitems4]; exact hcount⟩
  intro k hk
  obtain ⟨frk, hfrk, hrk⟩ := hslots k hk
  rw [hset4]
  by_cases hkc : k = cur
  · subst hkc
    rw [hfrk] at hfr4
    cases hfr4
    have hltk : k < s3.mFrameResources.length := by
      by_contra hnot
      rw [List.getElem?_eq_none (not_lt.mp hnot)] at hfrk
      cases hfrk
    exact ⟨_, objConstants e, List.getElem?_set_self hltk, hrk, rfl, fun _ _ => rfl,
      fun _ _ => rfl⟩
  · exact ⟨frk, objConstants e, by rw [List.getElem?_set_ne (fun h => hkc h.symm)]; exact hfrk,
      hrk, rfl, fun _ _ => rfl, fun _ _ => rfl⟩

/-- C3, instance: the second render item of the example application, over the first three
frames. -/
theorem C3_three_updates_reach_every_ring_slot_witness :
    (∀ k : Nat, k < gNumFrameResources →
      ∃ (fr : FrameResource ℚ) (c : ObjectConstants ℚ),
        exampleThirdUpdate.mFrameResources[k]? = some fr ∧
        fr.ObjectCB.mappedData exampleSecondItem.ObjCBIndex = some c ∧
        c = { World := XMMatrixTranspose exampleSecondItem.World,
              TexTransform := XMMatrixTranspose exampleSecondItem.TexTransform } ∧
        (∀ a b : Fin 4, c.World a b = exampleSecondItem.World b a) ∧
        (∀ a b : Fin 4, c.TexTransform a b = exampleSecondItem.TexTransform b a)) ∧
    exampleThirdUpdate.mAllRitems[1]? = some { exampleSecondItem with NumFramesDirty := 0 } ∧
    (∀ s4 : CrateApp ℚ, Draw exampleTimer exampleThirdUpdate = .ok s4 →
      (∀ k : Nat, k < gNumFrameResources →
        ∃ (fr : FrameResource ℚ) (c : ObjectConstants ℚ),
          s4.mFrameResources[k]? = some fr ∧
          fr.ObjectCB.mappedData exampleSecondItem.ObjCBIndex = some c ∧
          c = { World := XMMatrixTranspose exampleSecondItem.World,
                TexTransform := XMMatrixTranspose exampleSecondItem.TexTransform } ∧
          (∀ a b : Fin 4, c.World a b = exampleSecondItem.World b a) ∧
          (∀ a b : Fin 4, c.TexTransform a b = exampleSecondItem.TexTransform b a)) ∧
      s4.mAllRitems[1]? = some { exampleSecondItem with NumFramesDirty := 0 }) :=
  C3_three_updates_reach_every_ring_slot exampleMath exampleTimer ⟨0, 0⟩ ⟨0, 0⟩ ⟨0, 0⟩
    exampleApp (exampleAfterFrames 1) (exampleAfterFrames 2) exampleThirdUpdate 1
    exampleSecondItem (by decide) rfl rfl rfl rfl rfl

end GAME3111

namespace GAME3111

open CrateApp

/-- C20: for every camera state and every mouse-move event, `OnMouseMove` stores the event
position in `mLastMousePos`; with the left button held (the right button held or not) it
changes nothing else but `mTheta` and `mPhi`, so `mRadius` is unchanged; with only the
right button held it changes nothing else but `mRadius`, so `mTheta` and `mPhi` are
unchanged; with neither held it changes nothing but `mLastMousePos`. -/
theorem C20_mouse_move_changes_only_the_dragged_coordinates {α : Type} [LinearOrderedField α]
    (pi : α) (app : CrateApp α) (btnState : Nat) (x y : Int) :
    (OnMouseMove pi app btnState x y).mLastMousePos = (x, y) ∧
    ((btnState &&& MK_LBUTTON) ≠ 0 →
      OnMouseMove pi app btnState x y =
        { app with
          mTheta := app.mTheta +
            XMConvertToRadians pi (0.25 * ((x - app.mLastMousePos.1 : Int) : α)),
          mPhi := MathHelper.Clamp
            (app.mPhi + XMConvertToRadians pi (0.25 * ((y - app.mLastMousePos.2 : Int) : α)))
            0.1 (pi - 0.1),
          mLastMousePos := (x, y) } ∧
      (OnMouseMove pi app btnState x y).mRadius = app.mRadius) ∧
    ((btnState &&& MK_LBUTTON) = 0 → (btnState &&& MK_RBUTTON) ≠ 0 →
      OnMouseMove pi app btnState x y =
        { app with
          mRadius := MathHelper.Clamp
            (app.mRadius + (0.05 * ((x - app.mLastMousePos.1 : Int) : α)
              - 0.05 * ((y - app.mLastMousePos.2 : Int) : α))) 5.0 150.0,
          mLastMousePos := (x, y) } ∧
      (OnMouseMove pi app btnState x y).mTheta = app.mTheta ∧
      (OnMouseMove pi app btnState x y).mPhi = app.mPhi) ∧
    ((btnState &&& MK_LBUTTON) = 0 → (btnState &&& MK_RBUTTON) = 0 →
      OnMouseMove pi app btnState x y = { app with mLastMousePos := (x, y) } ∧
      (OnMouseMove pi app btnState x y).mTheta = app.mTheta ∧
      (OnMouseMove pi app btnState x y).mPhi = app.mPhi ∧
      (OnMouseMove pi app btnState x y).mRadius = app.mRadius) := by
  refine ⟨rfl, ?_, ?_, ?_⟩
  · intro hl
    unfold OnMouseMove
    rw [if_pos hl]
    exact ⟨rfl, rfl⟩
  · intro hl hr
    unfold OnMouseMove
    rw [if_neg (not_not.mpr hl), if_pos hr]
    exact ⟨rfl, rfl, rfl⟩
  · intro hl hr
    unfold OnMouseMove
    rw [if_neg (not_not.mpr hl), if_neg (not_not.mpr hr)]
    exact ⟨rfl, rfl, rfl, rfl⟩

/-- C20, instance: a drag with both buttons held (`btnState = 3`) from the initial camera
leaves `mRadius` at its initial value 2.5 and stores the event position. -/
theorem C20_mouse_move_changes_only_the_dragged_coordinates_witness :
    (3 &&& MK_LBUTTON) ≠ 0 ∧
    (OnMouseMove (355 / 113) (CrateApp.new (355 / 113 : ℚ) exampleBase (0, 0)) 3 40 8).mRadius
      = 2.5 ∧
    (OnMouseMove (355 / 113) (CrateApp.new (355 / 113 : ℚ) exampleBase (0, 0)) 3 40 8).mLastMousePos
      = (40, 8) :=
  ⟨by decide,
   ((C20_mouse_move_changes_only_the_dragged_coordinates (355 / 113 : ℚ)
      (CrateApp.new (355 / 113) exampleBase (0, 0)) 3 40 8).2.1 (by decide)).2,
   (C20_mouse_move_changes_only_the_dragged_coordinates (355 / 113 : ℚ)
      (CrateApp.new (355 / 113) exampleBase (0, 0)) 3 40 8).1⟩

end GAME3111

namespace GAME3111

open CrateApp

section Transposes

variable {α : Type} [LinearOrderedField α]

omit [LinearOrderedField α] in
/-- Transposing a 4x4 matrix twice returns the matrix. -/
theorem XMMatrixTranspose_involutive (M : XMFLOAT4X4 α) :
    XMMatrixTranspose (XMMatrixTranspose M) = M := by
  unfold XMMatrixTranspose
  exact Matrix.transpose_transpose M

omit [LinearOrderedField α] in
/-- The buffer after the loop of `UpdateObjectCBs` over `e :: rest`. -/
theorem UpdateObjectCBs_forEach_cons (cb : UploadBuffer (ObjectConstants α))
    (e : RenderItem α) (rest : List (RenderItem α)) :
    (UpdateObjectCBs.forEach cb (e :: rest)).1
      = if e.NumFramesDirty > 0 then
          (UpdateObjectCBs.forEach (cb.CopyData e.ObjCBIndex (objConstants e)) rest).1
        else (UpdateObjectCBs.forEach cb rest).1 := by
  by_cases hd : e.NumFramesDirty > 0
  · simp only [UpdateObjectCBs.forEach, hd, if_true]
  · simp only [UpdateObjectCBs.forEach, hd, if_false]

omit [LinearOrderedField α] in
/-- The buffer after the loop of `UpdateObjectCBs` over `pre ++ rest` is the buffer after the
loop over `rest`, started from the buffer after the loop over `pre`. -/
theorem UpdateObjectCBs_forEach_append (pre rest : List (RenderItem α)) :
    ∀ cb : UploadBuffer (ObjectConstants α),
      (UpdateObjectCBs.forEach cb (pre ++ rest)).1
        = (UpdateObjectCBs.forEach (UpdateObjectCBs.forEach cb pre).1 rest).1 := by
  induction pre with
  | nil => intro cb; rfl
  | cons e0 pre ih =>
    intro cb
    rw [List.cons_append, UpdateObjectCBs_forEach_cons, UpdateObjectCBs_forEach_cons]
    by_cases hd : e0.NumFramesDirty > 0
    · rw [if_pos hd, if_pos hd]; exact ih _
    · rw [if_neg hd, if_neg hd]; exact ih _

end Transposes

/-- C11: for every dirty render item `e` of `mAllRitems`, `UpdateObjectCBs` returns and
calls `CopyData` for the slot `e.ObjCBIndex` of the current frame resource with constants
whose `World` and `TexTransform` are the transposes of the item's `World` and
`TexTransform`: entry `(a, b)` of each written matrix is entry `(b, a)` of the item's
matrix; transposing the written matrices again returns the item's matrices, since
transposing any 4x4 matrix twice returns it.  When the slot indices are pairwise distinct
these constants are what the slot holds after the call. -/
theorem C11_object_constants_are_transposes {α : Type} [LinearOrderedField α]
    (gt : GameTimer α) (s : CrateApp α) (cur : Nat) (fr : FrameResource α)
    (pre post : List (RenderItem α)) (e : RenderItem α)
    (hcur : s.mCurrFrameResource = some cur) (hfr : s.mFrameResources[cur]? = some fr)
    (hitems : s.mAllRitems = pre ++ e :: post) (hdirty : e.NumFramesDirty > 0) :
    ∃ (c : ObjectConstants α) (s1 : CrateApp α) (fr1 : FrameResource α),
      c.World = XMMatrixTranspose e.World ∧
      c.TexTransform = XMMatrixTranspose e.TexTransform ∧
      (∀ a b : Fin 4, c.World a b = e.World b a) ∧
      (∀ a b : Fin 4, c.TexTransform a b = e.TexTransform b a) ∧
      XMMatrixTranspose c.World = e.World ∧
      XMMatrixTranspose c.TexTransform = e.TexTransform ∧
      (∀ M : XMFLOAT4X4 α, XMMatrixTranspose (XMMatrixTranspose M) = M) ∧
      UpdateObjectCBs gt s = .ok s1 ∧
      s1.mFrameResources[cur]? = some fr1 ∧
      fr1.ObjectCB =
        (UpdateObjectCBs.forEach
          ((UpdateObjectCBs.forEach fr.ObjectCB pre).1.CopyData e.ObjCBIndex c) post).1 ∧
      ((s.mAllRitems.map (fun x => x.ObjCBIndex)).Nodup →
        fr1.ObjectCB.mappedData e.ObjCBIndex = some c) := by
  have hlt : cur < s.mFrameResources.length := by
    by_contra hnot
    rw [List.getElem?_eq_none (not_lt.mp hnot)] at hfr
    cases hfr
  refine ⟨objConstants e,
    { s with
      mFrameResources := s.mFrameResources.set cur
        { fr with ObjectCB := (UpdateObjectCBs.forEach fr.ObjectCB s.mAllRitems).1 },
      mAllRitems := (UpdateObjectCBs.forEach fr.ObjectCB s.mAllRitems).2 },
    { fr with ObjectCB := (UpdateObjectCBs.forEach fr.ObjectCB s.mAllRitems).1 },
    rfl, rfl, fun _ _ => rfl, fun _ _ => rfl,
    XMMatrixTranspose_involutive _, XMMatrixTranspose_involutive _,
    XMMatrixTranspose_involutive, ?_, ?_, ?_, ?_⟩
  · unfold UpdateObjectCBs
    rw [hcur]
    simp only [hfr]
  · simp only [List.getElem?_set_self hlt]
  · show (UpdateObjectCBs.forEach fr.ObjectCB s.mAllRitems).1 = _
    rw [hitems, UpdateObjectCBs_forEach_append, UpdateObjectCBs_forEach_cons, if_pos hdirty]
  · intro hnd
    show (UpdateObjectCBs.forEach fr.ObjectCB s.mAllRitems).1.mappedData e.ObjCBIndex = _
    rw [UpdateObjectCBs_forEach_slot s.mAllRitems fr.ObjectCB hnd e (by rw [hitems]; simp),
      if_pos hdirty]

/-- C11, instance: the second render item of the example application, at the `Update` of
the first frame (slot 1 of the ring is current). -/
theorem C11_object_constants_are_transposes_witness :
    ∃ (c : ObjectConstants ℚ) (s1 : CrateApp ℚ) (fr1 : FrameResource ℚ),
      c.World = XMMatrixTranspose exampleSecondItem.World ∧
      c.TexTransform = XMMatrixTranspose exampleSecondItem.TexTransform ∧
      (∀ a b : Fin 4, c.World a b = exampleSecondItem.World b a) ∧
      (∀ a b : Fin 4, c.TexTransform a b = exampleSecondItem.TexTransform b a) ∧
      XMMatrixTranspose c.World = exampleSecondItem.World ∧
      XMMatrixTranspose c.TexTransform = exampleSecondItem.TexTransform ∧
      (∀ M : XMFLOAT4X4 ℚ, XMMatrixTranspose (XMMatrixTranspose M) = M) ∧
      UpdateObjectCBs exampleTimer
        (resultOr exampleApp (Update.acquire exampleMath exampleTimer ⟨0, 0⟩ exampleApp))
        = .ok s1 ∧
      s1.mFrameResources[1]? = some fr1 ∧
      fr1.ObjectCB =
        (UpdateObjectCBs.forEach
          ((UpdateObjectCBs.forEach (FrameResource.create (exampleAddresses 1) 1 2 5).ObjectCB
            (exampleApp.mAllRitems.take 1)).1.CopyData
              exampleSecondItem.ObjCBIndex c) []).1 ∧
      (((resultOr exampleApp
          (Update.acquire exampleMath exampleTimer ⟨0, 0⟩ exampleApp)).mAllRitems.map
            (fun x => x.ObjCBIndex)).Nodup →
        fr1.ObjectCB.mappedData exampleSecondItem.ObjCBIndex = some c) :=
  C11_object_constants_are_transposes exampleTimer
    (resultOr exampleApp (Update.acquire exampleMath exampleTimer ⟨0, 0⟩ exampleApp))
    1 (FrameResource.create (exampleAddresses 1) 1 2 5)
    (exampleApp.mAllRitems.take 1) [] exampleSecondItem rfl rfl rfl (by decide)

end GAME3111

namespace GAME3111

open CrateApp

/-- C12, counterexample: the example application after the `Update` of its third frame, with
a view matrix of determinant 0.  `UpdateMainPassCB` returns, and the single pass-constant
slot of the current frame resource (slot 0 of the ring) then holds the transposes of that
view matrix and of whatever `XMMatrixInverse` returned for it; every entry of the view
matrix written is 0. -/
theorem C12_singular_view_is_written_to_pass_slot :
    exampleSingularView.mView.det = 0 ∧
    exampleSingularView.mCurrFrameResource = some 0 ∧
    ∃ (s1 : CrateApp ℚ) (fr1 : FrameResource ℚ) (cb : PassConstants ℚ),
      UpdateMainPassCB exampleMath exampleTimer exampleSingularView = .ok s1 ∧
      s1.mFrameResources[0]? = some fr1 ∧
      fr1.PassCB.mappedData 0 = some cb ∧
      cb.View = XMMatrixTranspose exampleSingularView.mView ∧
      cb.InvView = XMMatrixTranspose (exampleMath.XMMatrixInverse exampleSingularView.mView) ∧
      (∀ a b : Fin 4, cb.View a b = 0) := by
  refine ⟨?_, rfl, ?_⟩
  · show Matrix.det (0 : Matrix (Fin 4) (Fin 4) ℚ) = 0
    exact Matrix.det_zero ⟨0⟩
  · exact ⟨resultOr exampleApp (UpdateMainPassCB exampleMath exampleTimer exampleSingularView),
      _, _, rfl, rfl, rfl, rfl, rfl, fun _ _ => rfl⟩

/-- C12, amended: for every view and projection matrix, whatever their determinants,
`UpdateMainPassCB` returns whenever there is a current frame resource; it never inspects a
determinant and unconditionally writes into pass-constant slot 0 of the current frame
resource the transposes of the view matrix, the projection matrix, their product, and of
what `XMMatrixInverse` returns for each of the three: entry `(a, b)` of each matrix
written is entry `(b, a)` of the matrix it transposes, the product having the entries
`sum over k of view(b, k) * proj(k, a)`. -/
theorem C12_pass_constants_written_unconditionally {α : Type} [LinearOrderedField α]
    (dx : DirectXMath α) (gt : GameTimer α) (app : CrateApp α) (cur : Nat)
    (fr : FrameResource α)
    (hcur : app.mCurrFrameResource = some cur) (hfr : app.mFrameResources[cur]? = some fr) :
    ∃ (s1 : CrateApp α) (fr1 : FrameResource α) (cb : PassConstants α),
      UpdateMainPassCB dx gt app = .ok s1 ∧
      s1.mFrameResources[cur]? = some fr1 ∧
      fr1.PassCB.mappedData 0 = some cb ∧
      s1.mMainPassCB = cb ∧
      cb.View = XMMatrixTranspose app.mView ∧
      cb.Proj = XMMatrixTranspose app.mProj ∧
      cb.ViewProj = XMMatrixTranspose (XMMatrixMultiply app.mView app.mProj) ∧
      cb.InvView = XMMatrixTranspose (dx.XMMatrixInverse app.mView) ∧
      cb.InvProj = XMMatrixTranspose (dx.XMMatrixInverse app.mProj) ∧
      cb.InvViewProj
        = XMMatrixTranspose (dx.XMMatrixInverse (XMMatrixMultiply app.mView app.mProj)) ∧
      (∀ a b : Fin 4, cb.View a b = app.mView b a) ∧
      (∀ a b : Fin 4, cb.Proj a b = app.mProj b a) ∧
      (∀ a b : Fin 4, cb.ViewProj a b = ∑ k : Fin 4, app.mView b k * app.mProj k a) ∧
      (∀ a b : Fin 4, cb.InvView a b = dx.XMMatrixInverse app.mView b a) ∧
      (∀ a b : Fin 4, cb.InvProj a b = dx.XMMatrixInverse app.mProj b a) ∧
      (∀ a b : Fin 4, cb.InvViewProj a b
        = dx.XMMatrixInverse (XMMatrixMultiply app.mView app.mProj) b a) := by
  have hlt : cur < app.mFrameResources.length := by
    by_contra hnot
    rw [List.getElem?_eq_none (not_lt.mp hnot)] at hfr
    cases hfr
  unfold UpdateMainPassCB
  rw [hcur]
  simp only [hfr]
  refine ⟨_, _, _, rfl, List.getElem?_set_self hlt, ?_, rfl, rfl, rfl, rfl, rfl, rfl, rfl,
    fun _ _ => rfl, fun _ _ => rfl,
    fun a b => show (app.mView * app.mProj) b a = ∑ k : Fin 4, app.mView b k * app.mProj k a
      from Matrix.mul_apply,
    fun _ _ => rfl, fun _ _ => rfl, fun _ _ => rfl⟩
  simp [UploadBuffer.CopyData]

/-- C12, instance: the example application with the singular view matrix. -/
theorem C12_pass_constants_written_unconditionally_witness :
    ∃ (s1 : CrateApp ℚ) (fr1 : FrameResource ℚ) (cb : PassConstants ℚ),
      UpdateMainPassCB exampleMath exampleTimer exampleSingularView = .ok s1 ∧
      s1.mFrameResources[0]? = some fr1 ∧
      fr1.PassCB.mappedData 0 = some cb ∧
      s1.mMainPassCB = cb ∧
      cb.View = XMMatrixTranspose exampleSingularView.mView ∧
      cb.Proj = XMMatrixTranspose exampleSingularView.mProj ∧
      cb.ViewProj = XMMatrixTranspose
        (XMMatrixMultiply exampleSingularView.mView exampleSingularView.mProj) ∧
      cb.InvView = XMMatrixTranspose (exampleMath.XMMatrixInverse exampleSingularView.mView) ∧
      cb.InvProj = XMMatrixTranspose (exampleMath.XMMatrixInverse exampleSingularView.mProj) ∧
      cb.InvViewProj = XMMatrixTranspose (exampleMath.XMMatrixInverse
        (XMMatrixMultiply exampleSingularView.mView exampleSingularView.mProj)) ∧
      (∀ a b : Fin 4, cb.View a b = exampleSingularView.mView b a) ∧
      (∀ a b : Fin 4, cb.Proj a b = exampleSingularView.mProj b a) ∧
      (∀ a b : Fin 4, cb.ViewProj a b
        = ∑ k : Fin 4, exampleSingularView.mView b k * exampleSingularView.mProj k a) ∧
      (∀ a b : Fin 4, cb.InvView a b
        = exampleMath.XMMatrixInverse exampleSingularView.mView b a) ∧
      (∀ a b : Fin 4, cb.InvProj a b
        = exampleMath.XMMatrixInverse exampleSingularView.mProj b a) ∧
      (∀ a b : Fin 4, cb.InvViewProj a b
        = exampleMath.XMMatrixInverse
            (XMMatrixMultiply exampleSingularView.mView exampleSingularView.mProj) b a) :=
  C12_pass_constants_written_unconditionally exampleMath exampleTimer exampleSingularView 0
    (((exampleThirdUpdate.mFrameResources)[0]?).getD (FrameResource.create (exampleAddresses 0) 1 2 5))
    rfl (by rfl)

/-- C15: `OnKeyboardInput` reads no key and changes nothing, and every `Draw` that returns
has recorded its commands starting with `Reset` on the solid pipeline state `mOpaquePSO`,
the only pipeline state `BuildPSOs` creates; no input makes `Draw` record with a wireframe
pipeline state. -/
theorem C15_draw_records_with_opaque_pipeline_state {α : Type} [LinearOrderedField α]
    (gt : GameTimer α) (app s1 : CrateApp α)
    (h : Draw gt (OnKeyboardInput gt app) = .ok s1) :
    OnKeyboardInput gt app = app ∧
    s1.mCommandList.head? = some (.Reset .mOpaquePSO) ∧
    (∀ pso : PipelineState, .Reset pso ∈ s1.mCommandList → pso = .mOpaquePSO) := by
  refine ⟨rfl, ?_, ?_⟩
  · unfold Draw at h
    cases hcur : (OnKeyboardInput gt app).mCurrFrameResource with
    | none => rw [hcur] at h; cases h
    | some cur =>
      rw [hcur] at h
      simp only at h
      cases hfr : (OnKeyboardInput gt app).mFrameResources[cur]? with
      | none => rw [hfr] at h; cases h
      | some fr =>
        rw [hfr] at h
        simp only at h
        cases hd : DrawRenderItems (OnKeyboardInput gt app) fr
            (OnKeyboardInput gt app).mOpaqueRitems with
        | error e => rw [hd] at h; cases h
        | ok items =>
          rw [hd] at h
          cases h
          rfl
  · intro pso _
    cases pso
    rfl

/-- C15, instance: the `Draw` of the third frame of the example application. -/
theorem C15_draw_records_with_opaque_pipeline_state_witness :
    OnKeyboardInput exampleTimer exampleThirdUpdate = exampleThirdUpdate ∧
    (exampleAfterFrames 3).mCommandList.head? = some (.Reset .mOpaquePSO) ∧
    (∀ pso : PipelineState, .Reset pso ∈ (exampleAfterFrames 3).mCommandList →
      pso = .mOpaquePSO) :=
  C15_draw_records_with_opaque_pipeline_state exampleTimer exampleThirdUpdate
    (exampleAfterFrames 3) rfl

end GAME3111

namespace GAME3111

open CrateApp

section Fences

variable {α : Type} [LinearOrderedField α]

omit [LinearOrderedField α] in
/-- What `Draw` submits when it returns: the queue receives the command list, the present
and, last, the signal of the incremented fence counter, which is also the value recorded in
the current frame resource. -/
theorem Draw_queue (gt : GameTimer α) (s s1 : CrateApp α) (h : Draw gt s = .ok s1) :
    s1.mCommandQueue = s.mCommandQueue ++
      [.ExecuteCommandLists s1.mCommandList, .Present, .Signal s1.mCurrentFence] ∧
    s1.mCurrentFence = (s.mCurrentFence + 1) % UINT64_RANGE := by
  unfold Draw at h
  cases hcur : s.mCurrFrameResource with
  | none => rw [hcur] at h; cases h
  | some cur =>
    rw [hcur] at h
    simp only at h
    cases hfr : s.mFrameResources[cur]? with
    | none => rw [hfr] at h; cases h
    | some fr =>
      rw [hfr] at h
      simp only at h
      cases hd : DrawRenderItems s fr s.mOpaqueRitems with
      | error e => rw [hd] at h; cases h
      | ok items =>
        rw [hd] at h
        cases h
        exact ⟨rfl, rfl⟩

/-- The acquisition blocks on the recorded fence `v` of the slot it selects exactly when
`v` is not 0 and the completed value stays below `v` during the wait. -/
theorem Update_acquire_blocked_iff (dx : DirectXMath α) (gt : GameTimer α) (gpu : GpuProgress)
    (s : CrateApp α) (fr : FrameResource α)
    (hfr : s.mFrameResources[(s.mCurrFrameResourceIndex + 1) % gNumFrameResources]? = some fr) :
    Update.acquire dx gt gpu s = .error (.blockedOnFence fr.Fence) ↔
      fr.Fence ≠ 0 ∧ s.mFence + gpu.beforeCheck + gpu.duringWait < fr.Fence := by
  constructor
  · intro h
    unfold Update.acquire at h
    simp only [Update.cycle, OnKeyboardInput, UpdateCamera] at h
    rw [hfr] at h
    simp only at h
    by_cases hw : Update.mustWait fr.Fence (s.mFence + gpu.beforeCheck) = true
    · rw [if_pos hw] at h
      by_cases hb : s.mFence + gpu.beforeCheck + gpu.duringWait < fr.Fence
      · refine ⟨?_, hb⟩
        intro h0
        rw [h0] at hb
        exact Nat.not_lt_zero _ hb
      · rw [if_neg hb] at h; cases h
    · rw [if_neg hw] at h; cases h
  · rintro ⟨h0, hb⟩
    apply Update_acquire_blocked dx gt gpu s fr hfr _ hb
    simp only [Update.mustWait, Bool.and_eq_true, bne_iff_ne, ne_eq, decide_eq_true_eq]
    exact ⟨h0, by omega⟩

end Fences

/-- C13: for every state at the start of `Draw`, with fence counter `F` and current ring
slot `cur`: after `Draw` the counter is `F + 1` (computed on 64 bits), the recorded fence of
slot `cur` is that value, which is the value of the `Signal` that `Draw` puts last on the
queue, and every other ring slot is unchanged.  Hence, when `cur` is the slot under the ring
cursor, the third acquisition after this `Draw` selects slot `cur` again, finds this value
recorded there, and blocks exactly when the value is not 0 and the completed value stays
below it. -/
theorem C13_draw_records_the_signalled_fence {α : Type} [LinearOrderedField α]
    (dx : DirectXMath α) (gt : GameTimer α) (s s1 : CrateApp α) (cur : Nat)
    (fr : FrameResource α)
    (hcur : s.mCurrFrameResource = some cur) (hfr : s.mFrameResources[cur]? = some fr)
    (hd : Draw gt s = .ok s1) :
    s1.mCurrentFence = (s.mCurrentFence + 1) % UINT64_RANGE ∧
    (s.mCurrentFence + 1 < UINT64_RANGE → s1.mCurrentFence = s.mCurrentFence + 1) ∧
    s1.mFrameResources[cur]? = some { fr with Fence := s1.mCurrentFence } ∧
    s1.mCommandQueue.getLast? = some (.Signal s1.mCurrentFence) ∧
    (∀ j : Nat, j ≠ cur → s1.mFrameResources[j]? = s.mFrameResources[j]?) ∧
    (∀ (g1 g2 gpu : GpuProgress) (s3 : CrateApp α),
      s.mCurrFrameResourceIndex = cur → cur < gNumFrameResources →
      frames dx gt [g1, g2] s1 = .ok s3 →
      (Update.cycle dx gt s3).mCurrFrameResourceIndex = cur ∧
      (∃ fr3 : FrameResource α,
        (Update.cycle dx gt s3).mFrameResources[cur]? = some fr3 ∧
        fr3.Fence = s1.mCurrentFence) ∧
      (Update.acquire dx gt gpu s3 = .error (.blockedOnFence s1.mCurrentFence) ↔
        s1.mCurrentFence ≠ 0 ∧
          s3.mFence + gpu.beforeCheck + gpu.duringWait < s1.mCurrentFence)) := by
  obtain ⟨cur1, fr1, hcur1, hfr1, hcf, hset, _, _, hidx, _, _⟩ := Draw_spec gt s s1 hd
  rw [hcur] at hcur1
  cases hcur1
  rw [hfr] at hfr1
  cases hfr1
  obtain ⟨hqueue, _⟩ := Draw_queue gt s s1 hd
  have hlt : cur < s.mFrameResources.length := by
    by_contra hnot
    rw [List.getElem?_eq_none (not_lt.mp hnot)] at hfr
    cases hfr
  have hslot : s1.mFrameResources[cur]? = some { fr with Fence := s1.mCurrentFence } := by
    rw [hset, List.getElem?_set_self hlt, hcf]
  refine ⟨hcf, ?_, hslot, ?_, ?_, ?_⟩
  · intro hF
    rw [hcf, Nat.mod_eq_of_lt hF]
  · rw [hqueue]
    simp
  · intro j hj
    rw [hset, List.getElem?_set_ne (Ne.symm hj)]
  · intro g1 g2 gpu s3 hcursor hring hframes
    unfold frames at hframes
    cases h1 : frame dx gt g1 s1 with
    | error e => rw [h1] at hframes; cases hframes
    | ok s2 =>
      rw [h1] at hframes
      simp only [Except.bind] at hframes
      unfold frames at hframes
      cases h2 : frame dx gt g2 s2 with
      | error e => rw [h2] at hframes; cases hframes
      | ok s3b =>
        rw [h2] at hframes
        simp only [Except.bind, frames] at hframes
        cases hframes
        obtain ⟨_, fa, _, hseta, _, _, _, hidxa, _⟩ := frame_spec dx gt g1 s1 s2 h1
        obtain ⟨_, fb, _, hsetb, _, _, _, hidxb, _⟩ := frame_spec dx gt g2 s2 s3 h2
        rw [hidx, hcursor] at hidxa hseta
        rw [hidxa] at hidxb hsetb
        have hne1 : (cur + 1) % gNumFrameResources ≠ cur := by
          simp only [gNumFrameResources] at hring ⊢
          omega
        have hne2 : ((cur + 1) % gNumFrameResources + 1) % gNumFrameResources ≠ cur := by
          simp only [gNumFrameResources] at hring ⊢
          omega
        have hnext : (s3.mCurrFrameResourceIndex + 1) % gNumFrameResources = cur := by
          rw [hidxb]
          simp only [gNumFrameResources] at hring ⊢
          omega
        have hkept : s3.mFrameResources[cur]? = some { fr with Fence := s1.mCurrentFence } := by
          rw [hsetb, List.getElem?_set_ne hne2, hseta, List.getElem?_set_ne hne1, hslot]
        refine ⟨hnext, ⟨_, hkept, rfl⟩, ?_⟩
        have hsel : s3.mFrameResources[(s3.mCurrFrameResourceIndex + 1) % gNumFrameResources]?
            = some { fr with Fence := s1.mCurrentFence } := by
          rw [hnext]; exact hkept
        exact Update_acquire_blocked_iff dx gt gpu s3 _ hsel

/-- C13, instance: the `Draw` of the third frame of the example application (slot 0 of the
ring, fence counter 5 before and 6 after). -/
theorem C13_draw_records_the_signalled_fence_witness :
    (exampleAfterFrames 3).mCurrentFence = (exampleThirdUpdate.mCurrentFence + 1) % UINT64_RANGE ∧
    (exampleAfterFrames 3).mCurrentFence = 6 ∧
    (exampleAfterFrames 3).mCommandQueue.getLast? = some (.Signal 6) :=
  ⟨(C13_draw_records_the_signalled_fence exampleMath exampleTimer exampleThirdUpdate
      (exampleAfterFrames 3) 0
      (((exampleThirdUpdate.mFrameResources)[0]?).getD
        (FrameResource.create (exampleAddresses 0) 1 2 5))
      rfl (by rfl) rfl).1,
   rfl,
   (C13_draw_records_the_signalled_fence exampleMath exampleTimer exampleThirdUpdate
      (exampleAfterFrames 3) 0
      (((exampleThirdUpdate.mFrameResources)[0]?).getD
        (FrameResource.create (exampleAddresses 0) 1 2 5))
      rfl (by rfl) rfl).2.2.2.1⟩

end GAME3111

namespace GAME3111

open CrateApp

section Scene

variable {α : Type} [LinearOrderedField α]

/-- The keys after the assignment `m[k] = v`: unchanged when `k` is a key of `m`, with `k`
appended otherwise. -/
theorem UMap_assign_keys {V : Type} (m : UMap V) (k : String) (v : V) :
    (m.assign k v).map Prod.fst
      = if k ∈ m.map Prod.fst then m.map Prod.fst else m.map Prod.fst ++ [k] := by
  induction m with
  | nil => simp [UMap.assign]
  | cons p rest ih =>
    obtain ⟨pk, pv⟩ := p
    unfold UMap.assign
    by_cases hp : pk = k
    · subst hp
      simp
    · rw [if_neg hp, List.map_cons, ih]
      have hne : ¬ k = pk := fun h => hp h.symm
      by_cases hmem : k ∈ rest.map Prod.fst
      · simp [hmem]
      · simp [hmem, hne]

/-- Every entry after the assignment `m[k] = v` is an entry of `m` or the entry assigned. -/
theorem UMap_assign_mem {V : Type} (m : UMap V) (k : String) (v : V) (p : String × V)
    (hp : p ∈ m.assign k v) : p ∈ m ∨ p = (k, v) := by
  induction m with
  | nil =>
    simp only [UMap.assign, List.mem_singleton] at hp
    exact Or.inr hp
  | cons q rest ih =>
    obtain ⟨qk, qv⟩ := q
    unfold UMap.assign at hp
    by_cases hq : qk = k
    · rw [if_pos hq, List.mem_cons] at hp
      rcases hp with h | h
      · exact Or.inr h
      · exact Or.inl (List.mem_cons_of_mem _ h)
    · rw [if_neg hq, List.mem_cons] at hp
      rcases hp with h | h
      · exact Or.inl (by rw [h]; exact List.mem_cons_self _ _)
      · rcases ih h with h1 | h1
        · exact Or.inl (List.mem_cons_of_mem _ h1)
        · exact Or.inr h1

/-- A key that is looked up successfully is a key of the map. -/
theorem UMap_mem_keys_of_lookup {V : Type} (m : UMap V) (k : String) (v : V)
    (h : m.lookup k = some v) : k ∈ m.map Prod.fst := by
  induction m with
  | nil => cases h
  | cons p rest ih =>
    obtain ⟨pk, pv⟩ := p
    by_cases hp : k = pk
    · subst hp; simp
    · rw [UMap_lookup_cons_of_ne _ _ _ _ hp] at h
      simp only [List.map_cons, List.mem_cons]
      exact Or.inr (ih h)

/-- A call of `BuildRenderItems` that names a registered geometry and a registered material:
the state it returns. -/
theorem BuildRenderItems_scene (app : CrateApp α) (name materials : String)
    (sX sY sZ tX tY tZ : α) (geo : MeshGeometry α) (mat : Material α)
    (hgeo : app.mGeometries.lookup name = some (some geo))
    (hmat : app.mMaterials.lookup materials = some (some mat)) :
    ∃ item : RenderItem α,
      BuildRenderItems app name materials sX sY sZ tX tY tZ
        = .ok { app with
                mGeometries := app.mGeometries.assign name
                  (some { geo with
                    DrawArgs := (geo.DrawArgs.index "box" SubmeshGeometry.zero).2 }),
                mAllRitems := app.mAllRitems ++ [item],
                mOpaqueRitems := List.range (app.mAllRitems ++ [item]).length } ∧
      item.Geo = some name ∧ item.Mat = some materials ∧
      item.ObjCBIndex = app.mAllRitems.length % UINT_RANGE ∧
      item.IndexCount = (geo.DrawArgs.index "box" SubmeshGeometry.zero).1.IndexCount ∧
      item.StartIndexLocation
        = (geo.DrawArgs.index "box" SubmeshGeometry.zero).1.StartIndexLocation ∧
      item.BaseVertexLocation
        = (geo.DrawArgs.index "box" SubmeshGeometry.zero).1.BaseVertexLocation := by
  unfold BuildRenderItems
  simp only [UMap.index, hgeo, hmat]
  exact ⟨_, rfl, rfl, rfl, rfl, rfl, rfl, rfl⟩

/-- A sequence of calls of `BuildRenderItems` that name registered geometries and registered
materials returns.  It appends one render item per call, whose `Geo` and `Mat` point to the
geometry and the material named by the call; it changes nothing but the render-item lists
and the sub-mesh tables of the geometries: no key is added to `mGeometries` or
`mMaterials`. -/
theorem buildRenderItems_scene (calls : List (BuildRenderItemsArgs α)) :
    ∀ app : CrateApp α,
      (∀ c ∈ calls, ((app.mGeometries.lookup c.name).join).isSome ∧
        ((app.mMaterials.lookup c.materials).join).isSome) →
      ∃ (app1 : CrateApp α) (items : List (RenderItem α)),
        buildRenderItems calls app = .ok app1 ∧
        app1.mAllRitems = app.mAllRitems ++ items ∧
        items.length = calls.length ∧
        (∀ (i : Nat) (c : BuildRenderItemsArgs α) (item : RenderItem α),
          calls[i]? = some c → items[i]? = some item →
            item.Geo = some c.name ∧ item.Mat = some c.materials ∧
            item.ObjCBIndex = (app.mAllRitems.length + i) % UINT_RANGE) ∧
        { app1 with mGeometries := app.mGeometries, mAllRitems := app.mAllRitems,
                    mOpaqueRitems := app.mOpaqueRitems } = app ∧
        app1.mGeometries.map Prod.fst = app.mGeometries.map Prod.fst ∧
        (∀ k, ((app1.mGeometries.lookup k).join).isSome
                = ((app.mGeometries.lookup k).join).isSome) ∧
        (app.mOpaqueRitems = List.range app.mAllRitems.length →
          app1.mOpaqueRitems = List.range app1.mAllRitems.length) := by
  induction calls with
  | nil =>
    intro app _
    exact ⟨app, [], rfl, by simp, rfl, by simp, rfl, rfl, fun _ => rfl, fun h => h⟩
  | cons c rest ih =>
    intro app hreg
    obtain ⟨hcg, hcm⟩ := hreg c (List.mem_cons_self _ _)
    obtain ⟨geo, hgeo⟩ : ∃ geo, app.mGeometries.lookup c.name = some (some geo) := by
      cases h1 : app.mGeometries.lookup c.name with
      | none => rw [h1] at hcg; simp at hcg
      | some o =>
        cases o with
        | none => rw [h1] at hcg; simp at hcg
        | some geo => exact ⟨geo, rfl⟩
    obtain ⟨mat, hmat⟩ : ∃ mat, app.mMaterials.lookup c.materials = some (some mat) := by
      cases h1 : app.mMaterials.lookup c.materials with
      | none => rw [h1] at hcm; simp at hcm
      | some o =>
        cases o with
        | none => rw [h1] at hcm; simp at hcm
        | some mat => exact ⟨mat, rfl⟩
    obtain ⟨item, hok, hig, him, hidx, _, _, _⟩ :=
      BuildRenderItems_scene app c.name c.materials c.sX c.sY c.sZ c.tX c.tY c.tZ geo mat
        hgeo hmat
    obtain ⟨app2, happ2⟩ : ∃ app2 : CrateApp α, app2 =
        { app with
          mGeometries := app.mGeometries.assign c.name
            (some { geo with DrawArgs := (geo.DrawArgs.index "box" SubmeshGeometry.zero).2 }),
          mAllRitems := app.mAllRitems ++ [item],
          mOpaqueRitems := List.range (app.mAllRitems ++ [item]).length } := ⟨_, rfl⟩
    rw [← happ2] at hok
    have hkeys2 : app2.mGeometries.map Prod.fst = app.mGeometries.map Prod.fst := by
      rw [happ2]
      show (app.mGeometries.assign c.name _).map Prod.fst = _
      rw [UMap_assign_keys, if_pos (UMap_mem_keys_of_lookup _ _ _ hgeo)]
    have hkeep2 : ∀ k, ((app2.mGeometries.lookup k).join).isSome
        = ((app.mGeometries.lookup k).join).isSome := by
      intro k
      rw [happ2]
      show (((app.mGeometries.assign c.name _).lookup k).join).isSome = _
      rw [UMap_lookup_assign]
      by_cases hk : k = c.name
      · subst hk; simp [hgeo]
      · simp [hk]
    have hmat2 : app2.mMaterials = app.mMaterials := by rw [happ2]
    have hitems2 : app2.mAllRitems = app.mAllRitems ++ [item] := by rw [happ2]
    have hframe2 :
        ({ app2 with
            mGeometries := app.mGeometries,
            mAllRitems := app.mAllRitems,
            mOpaqueRitems := app.mOpaqueRitems } : CrateApp α) = app := by rw [happ2]
    have hopq2 : app2.mOpaqueRitems = List.range app2.mAllRitems.length := by rw [happ2]
    obtain ⟨app1, items, hok1, hitems1, hlen1, hidx1, hframe1, hkeys1, hkeep1, hopq1⟩ :=
      ih app2 (by
        intro c1 hc1
        obtain ⟨h1, h2⟩ := hreg c1 (List.mem_cons_of_mem _ hc1)
        rw [hkeep2, hmat2]
        exact ⟨h1, h2⟩)
    refine ⟨app1, item :: items, ?_, ?_, ?_, ?_, ?_, ?_, ?_, ?_⟩
    · show (BuildRenderItems app c.name c.materials c.sX c.sY c.sZ c.tX c.tY c.tZ).bind
        (buildRenderItems rest) = .ok app1
      rw [hok]
      exact hok1
    · rw [hitems1, hitems2]; simp
    · simp [hlen1]
    · intro i c1 it hc1 hit
      cases i with
      | zero =>
        simp at hit hc1
        subst hit
        subst hc1
        exact ⟨hig, him, by simpa using hidx⟩
      | succ i =>
        simp at hit hc1
        obtain ⟨h1, h2, h3⟩ := hidx1 i c1 it hc1 hit
        refine ⟨h1, h2, ?_⟩
        rw [h3, hitems2]
        simp [Nat.add_assoc, Nat.add_comm 1 i]
    · have h :
          ({ app1 with
              mGeometries := app.mGeometries,
              mAllRitems := app.mAllRitems,
              mOpaqueRitems := app.mOpaqueRitems } : CrateApp α)
          = { ({ app1 with
                  mGeometries := app2.mGeometries,
                  mAllRitems := app2.mAllRitems,
                  mOpaqueRitems := app2.mOpaqueRitems } : CrateApp α) with
              mGeometries := app.mGeometries,
              mAllRitems := app.mAllRitems,
              mOpaqueRitems := app.mOpaqueRitems } := rfl
      rw [h, hframe1]
      exact hframe2
    · rw [hkeys1, hkeys2]
    · intro k; rw [hkeep1, hkeep2]
    · intro _; exact hopq1 hopq2

end Scene

end GAME3111

namespace GAME3111

open CrateApp

section Recording

variable {α : Type} [LinearOrderedField α]

omit [LinearOrderedField α] in
/-- The commands recorded by `DrawRenderItems` are the blocks recorded for the items, one
after the other in the order of the list. -/
theorem DrawRenderItems_blocks (app : CrateApp α) (fr : FrameResource α)
    (f : Nat → List Command) :
    ∀ ris : List Nat, (∀ ri ∈ ris, DrawRenderItems.item app fr ri = .ok (f ri)) →
      DrawRenderItems app fr ris = .ok (ris.map f).flatten := by
  intro ris
  induction ris with
  | nil => intro _; rfl
  | cons ri rest ih =>
    intro h
    unfold DrawRenderItems
    rw [h ri (List.mem_cons_self _ _), ih (fun r hr => h r (List.mem_cons_of_mem _ hr))]
    rfl

omit [LinearOrderedField α] in
/-- When every block holds exactly one command satisfying `p`, the commands satisfying `p`
in the concatenation of the blocks are those commands, one per block and in order. -/
theorem filter_flatten_singletons (p : Command → Bool) (f : Nat → List Command)
    (g : Nat → Command) :
    ∀ l : List Nat, (∀ x ∈ l, (f x).filter p = [g x]) →
      ((l.map f).flatten).filter p = l.map g := by
  intro l
  induction l with
  | nil => intro _; rfl
  | cons x rest ih =>
    intro h
    rw [List.map_cons, List.flatten_cons, List.filter_append, h x (List.mem_cons_self _ _),
      ih (fun y hy => h y (List.mem_cons_of_mem _ hy))]
    rfl

omit [LinearOrderedField α] in
/-- The block `DrawRenderItems` records for a render item whose geometry and material are
registered. -/
theorem DrawRenderItems_item_eq (app : CrateApp α) (fr : FrameResource α) (ri : Nat)
    (item : RenderItem α) (geo : MeshGeometry α) (mat : Material α)
    (hi : app.mAllRitems[ri]? = some item)
    (hgeo : item.Geo.bind (fun k => (app.mGeometries.lookup k).join) = some geo)
    (hmat : item.Mat.bind (fun k => (app.mMaterials.lookup k).join) = some mat) :
    DrawRenderItems.item app fr ri = .ok
      [ .IASetVertexBuffers geo.Name,
        .IASetIndexBuffer geo.Name,
        .IASetPrimitiveTopology item.PrimitiveType,
        .SetGraphicsRootDescriptorTable 0 (mat.DiffuseSrvHeapIndex * app.mCbvSrvDescriptorSize),
        .SetGraphicsRootConstantBufferView 1
          (fr.ObjectCB.gpuVirtualAddress
            + (item.ObjCBIndex * CalcConstantBufferByteSize sizeofObjectConstants) % UINT_RANGE),
        .SetGraphicsRootConstantBufferView 3
          (fr.MaterialCB.gpuVirtualAddress
            + (mat.MatCBIndex * CalcConstantBufferByteSize sizeofMaterialConstants) % UINT_RANGE),
        .DrawIndexedInstanced item.IndexCount 1 item.StartIndexLocation
          item.BaseVertexLocation 0 ] := by
  unfold DrawRenderItems.item
  simp only [hi, hgeo, hmat]

/-- After a sequence of calls of `BuildRenderItems` that name registered geometries and
materials, from a state without render items, the geometry and the material of every render
item are registered. -/
theorem buildRenderItems_drawable (calls : List (BuildRenderItemsArgs α)) (app app1 : CrateApp α)
    (hempty : app.mAllRitems = [])
    (hreg : ∀ c ∈ calls, ((app.mGeometries.lookup c.name).join).isSome ∧
      ((app.mMaterials.lookup c.materials).join).isSome)
    (hok : buildRenderItems calls app = .ok app1) :
    app1.mAllRitems.length = calls.length ∧
    app1.mMaterials = app.mMaterials ∧
    app1.mCbvSrvDescriptorSize = app.mCbvSrvDescriptorSize ∧
    (app.mOpaqueRitems = [] → app1.mOpaqueRitems = List.range app1.mAllRitems.length) ∧
    ∀ (i : Nat) (item : RenderItem α), app1.mAllRitems[i]? = some item →
      item.ObjCBIndex = i % UINT_RANGE ∧
      ∃ (c : BuildRenderItemsArgs α) (geo : MeshGeometry α) (mat : Material α),
        calls[i]? = some c ∧ item.Geo = some c.name ∧ item.Mat = some c.materials ∧
        item.Geo.bind (fun k => (app1.mGeometries.lookup k).join) = some geo ∧
        item.Mat.bind (fun k => (app1.mMaterials.lookup k).join) = some mat := by
  obtain ⟨app1b, items, hok1, hitems, hlen, hidx, hframe, _, hkeep, hopq⟩ :=
    buildRenderItems_scene calls app hreg
  rw [hok] at hok1
  cases hok1
  rw [hempty, List.nil_append] at hitems
  rw [hempty] at hidx hopq
  have hmats : app1.mMaterials = app.mMaterials := congrArg (fun a => a.mMaterials) hframe
  refine ⟨by rw [hitems, hlen], hmats, congrArg (fun a => a.mCbvSrvDescriptorSize) hframe,
    fun h => hopq (by rw [h]; rfl), ?_⟩
  intro i item hi
  rw [hitems] at hi
  have hlt : i < calls.length := by
    by_contra hnot
    rw [List.getElem?_eq_none (by omega)] at hi
    cases hi
  obtain ⟨hg, hm, hx⟩ := hidx i calls[i] item (List.getElem?_eq_getElem hlt) hi
  obtain ⟨hcg, hcm⟩ := hreg calls[i] (List.getElem_mem _)
  refine ⟨by simpa using hx, calls[i], ?_⟩
  rw [← hkeep] at hcg
  rw [← hmats] at hcm
  obtain ⟨geo, hgeo⟩ := Option.isSome_iff_exists.mp hcg
  obtain ⟨mat, hmat⟩ := Option.isSome_iff_exists.mp hcm
  refine ⟨geo, mat, List.getElem?_eq_getElem hlt, hg, hm, ?_, ?_⟩
  · rw [hg]; exact hgeo
  · rw [hm]; exact hmat

end Recording

end GAME3111

namespace GAME3111

open CrateApp

/-- C14: for every scene built by a sequence of `BuildRenderItems` calls that name
registered geometries and materials, from a state without render items: the opaque list
points to the render items of the master list, element for element; `DrawRenderItems`
returns for the opaque list, and what it records is one block of seven commands per render
item, in the order the items were created.  The block of the `i`-th item ends with the one
indexed draw of the block, which uses the item's `IndexCount`, `StartIndexLocation` and
`BaseVertexLocation`, preceded by the bindings of the texture table of the item's material,
of the item's object constants and of its material constants.  The indexed draws recorded
are exactly one per render item, in creation order. -/
theorem C14_one_draw_per_item_in_creation_order {α : Type} [LinearOrderedField α]
    (calls : List (BuildRenderItemsArgs α)) (app : CrateApp α) (fr : FrameResource α)
    (hitems : app.mAllRitems = []) (hnone : app.mOpaqueRitems = [])
    (hreg : ∀ c ∈ calls, ((app.mGeometries.lookup c.name).join).isSome ∧
      ((app.mMaterials.lookup c.materials).join).isSome) :
    ∃ (app1 : CrateApp α) (cmds : List Command) (blocks : List (List Command)),
      buildRenderItems calls app = .ok app1 ∧
      app1.mAllRitems.length = calls.length ∧
      app1.mOpaqueRitems = List.range app1.mAllRitems.length ∧
      DrawRenderItems app1 fr app1.mOpaqueRitems = .ok cmds ∧
      cmds = blocks.flatten ∧
      blocks.length = calls.length ∧
      cmds.filter Command.isDrawIndexedInstanced
        = app1.mAllRitems.map (fun item =>
            Command.DrawIndexedInstanced item.IndexCount 1 item.StartIndexLocation
              item.BaseVertexLocation 0) ∧
      ∀ (i : Nat) (item : RenderItem α), app1.mAllRitems[i]? = some item →
        ∃ (geo : MeshGeometry α) (mat : Material α),
          item.Geo.bind (fun k => (app1.mGeometries.lookup k).join) = some geo ∧
          item.Mat.bind (fun k => (app1.mMaterials.lookup k).join) = some mat ∧
          blocks[i]? = some
            [ .IASetVertexBuffers geo.Name,
              .IASetIndexBuffer geo.Name,
              .IASetPrimitiveTopology item.PrimitiveType,
              .SetGraphicsRootDescriptorTable 0
                (mat.DiffuseSrvHeapIndex * app1.mCbvSrvDescriptorSize),
              .SetGraphicsRootConstantBufferView 1
                (fr.ObjectCB.gpuVirtualAddress
                  + (item.ObjCBIndex * CalcConstantBufferByteSize sizeofObjectConstants)
                      % UINT_RANGE),
              .SetGraphicsRootConstantBufferView 3
                (fr.MaterialCB.gpuVirtualAddress
                  + (mat.MatCBIndex * CalcConstantBufferByteSize sizeofMaterialConstants)
                      % UINT_RANGE),
              .DrawIndexedInstanced item.IndexCount 1 item.StartIndexLocation
                item.BaseVertexLocation 0 ] := by
  obtain ⟨app1, _, hok, _⟩ := buildRenderItems_scene calls app hreg
  obtain ⟨hlen, _, _, hopq, hdraw⟩ := buildRenderItems_drawable calls app app1 hitems hreg hok
  have hopq1 := hopq hnone
  -- the block recorded for the item at position `ri`
  obtain ⟨f, hf⟩ : ∃ f : Nat → List Command, f = fun ri =>
      match DrawRenderItems.item app1 fr ri with
      | .ok b => b
      | .error _ => [] := ⟨_, rfl⟩
  obtain ⟨g, hg⟩ : ∃ g : Nat → Command, g = fun ri =>
      match app1.mAllRitems[ri]? with
      | some item => Command.DrawIndexedInstanced item.IndexCount 1 item.StartIndexLocation
          item.BaseVertexLocation 0
      | none => Command.Close := ⟨_, rfl⟩
  have hblock : ∀ (i : Nat) (item : RenderItem α), app1.mAllRitems[i]? = some item →
      ∃ (geo : MeshGeometry α) (mat : Material α),
        item.Geo.bind (fun k => (app1.mGeometries.lookup k).join) = some geo ∧
        item.Mat.bind (fun k => (app1.mMaterials.lookup k).join) = some mat ∧
        DrawRenderItems.item app1 fr i = .ok (f i) ∧
        f i =
          [ .IASetVertexBuffers geo.Name,
            .IASetIndexBuffer geo.Name,
            .IASetPrimitiveTopology item.PrimitiveType,
            .SetGraphicsRootDescriptorTable 0
              (mat.DiffuseSrvHeapIndex * app1.mCbvSrvDescriptorSize),
            .SetGraphicsRootConstantBufferView 1
              (fr.ObjectCB.gpuVirtualAddress
                + (item.ObjCBIndex * CalcConstantBufferByteSize sizeofObjectConstants)
                    % UINT_RANGE),
            .SetGraphicsRootConstantBufferView 3
              (fr.MaterialCB.gpuVirtualAddress
                + (mat.MatCBIndex * CalcConstantBufferByteSize sizeofMaterialConstants)
                    % UINT_RANGE),
            .DrawIndexedInstanced item.IndexCount 1 item.StartIndexLocation
              item.BaseVertexLocation 0 ] := by
    intro i item hi
    obtain ⟨_, _, geo, mat, _, _, _, hgeo, hmat⟩ := hdraw i item hi
    have hrun := DrawRenderItems_item_eq app1 fr i item geo mat hi hgeo hmat
    have hfi : DrawRenderItems.item app1 fr i = .ok (f i) := by rw [hf]; simp only [hrun]
    exact ⟨geo, mat, hgeo, hmat, hfi, Except.ok.inj (hfi.symm.trans hrun)⟩
  have hrange : ∀ ri ∈ List.range app1.mAllRitems.length,
      ∃ item : RenderItem α, app1.mAllRitems[ri]? = some item := by
    intro ri hri
    exact ⟨_, List.getElem?_eq_getElem (List.mem_range.mp hri)⟩
  have hcmds : DrawRenderItems app1 fr app1.mOpaqueRitems
      = .ok ((List.range app1.mAllRitems.length).map f).flatten := by
    rw [hopq1]
    apply DrawRenderItems_blocks
    intro ri hri
    obtain ⟨item, hi⟩ := hrange ri hri
    obtain ⟨_, _, _, _, h, _⟩ := hblock ri item hi
    exact h
  refine ⟨app1, _, (List.range app1.mAllRitems.length).map f, hok, hlen, hopq1, hcmds, rfl,
    by simp [hlen], ?_, ?_⟩
  · rw [filter_flatten_singletons Command.isDrawIndexedInstanced f g]
    · apply List.ext_getElem?
      intro i
      rw [List.getElem?_map, List.getElem?_map]
      by_cases hlt : i < app1.mAllRitems.length
      · rw [List.getElem?_range hlt, List.getElem?_eq_getElem hlt]
        simp only [Option.map_some']
        rw [hg]
        simp only [List.getElem?_eq_getElem hlt]
      · rw [List.getElem?_eq_none (by simpa using not_lt.mp hlt),
          List.getElem?_eq_none (not_lt.mp hlt)]
        rfl
    · intro ri hri
      obtain ⟨item, hi⟩ := hrange ri hri
      obtain ⟨_, _, _, _, _, h⟩ := hblock ri item hi
      rw [h, hg]
      simp only [hi]
      rfl
  · intro i item hi
    obtain ⟨geo, mat, hgeo, hmat, _, h⟩ := hblock i item hi
    have hlt : i < app1.mAllRitems.length := by
      by_contra hnot
      rw [List.getElem?_eq_none (not_lt.mp hnot)] at hi
      cases hi
    refine ⟨geo, mat, hgeo, hmat, ?_⟩
    rw [List.getElem?_map, List.getElem?_range hlt]
    simp only [Option.map_some']
    rw [h]

/-- C14, instance: the two render items of the example scene, drawn from a frame resource
with room for two objects and five materials. -/
theorem C14_one_draw_per_item_in_creation_order_witness :
    ∃ (app1 : CrateApp ℚ) (cmds : List Command) (blocks : List (List Command)),
      buildRenderItems [exampleCall, exampleCall] exampleScene = .ok app1 ∧
      app1.mAllRitems.length = [exampleCall, exampleCall].length ∧
      app1.mOpaqueRitems = List.range app1.mAllRitems.length ∧
      DrawRenderItems app1 (FrameResource.create (exampleAddresses 0) 1 2 5)
        app1.mOpaqueRitems = .ok cmds ∧
      cmds = blocks.flatten ∧
      blocks.length = [exampleCall, exampleCall].length ∧
      cmds.filter Command.isDrawIndexedInstanced
        = app1.mAllRitems.map (fun item =>
            Command.DrawIndexedInstanced item.IndexCount 1 item.StartIndexLocation
              item.BaseVertexLocation 0) ∧
      ∀ (i : Nat) (item : RenderItem ℚ), app1.mAllRitems[i]? = some item →
        ∃ (geo : MeshGeometry ℚ) (mat : Material ℚ),
          item.Geo.bind (fun k => (app1.mGeometries.lookup k).join) = some geo ∧
          item.Mat.bind (fun k => (app1.mMaterials.lookup k).join) = some mat ∧
          blocks[i]? = some
            [ .IASetVertexBuffers geo.Name,
              .IASetIndexBuffer geo.Name,
              .IASetPrimitiveTopology item.PrimitiveType,
              .SetGraphicsRootDescriptorTable 0
                (mat.DiffuseSrvHeapIndex * app1.mCbvSrvDescriptorSize),
              .SetGraphicsRootConstantBufferView 1
                ((FrameResource.create (exampleAddresses 0) 1 2 5 :
                    FrameResource ℚ).ObjectCB.gpuVirtualAddress
                  + (item.ObjCBIndex * CalcConstantBufferByteSize sizeofObjectConstants)
                      % UINT_RANGE),
              .SetGraphicsRootConstantBufferView 3
                ((FrameResource.create (exampleAddresses 0) 1 2 5 :
                    FrameResource ℚ).MaterialCB.gpuVirtualAddress
                  + (mat.MatCBIndex * CalcConstantBufferByteSize sizeofMaterialConstants)
                      % UINT_RANGE),
              .DrawIndexedInstanced item.IndexCount 1 item.StartIndexLocation
                item.BaseVertexLocation 0 ] :=
  C14_one_draw_per_item_in_creation_order [exampleCall, exampleCall] exampleScene
    (FrameResource.create (exampleAddresses 0) 1 2 5) rfl rfl (by decide)

end GAME3111

namespace GAME3111

open CrateApp

/-- The value of `UINT_RANGE`, `2^32`. -/
theorem UINT_RANGE_eq : UINT_RANGE = 4294967296 := by
  norm_num [UINT_RANGE]

/-- The stride `CalcConstantBufferByteSize` returns is a multiple of 256. -/
theorem CalcConstantBufferByteSize_dvd (n : Nat) : 256 ∣ CalcConstantBufferByteSize n :=
  Dvd.intro_left _ rfl

/-- When `byteSize + 255` is representable on 32 bits, the stride is `byteSize` rounded up:
the least multiple of 256 that is at least `byteSize` . -/
theorem CalcConstantBufferByteSize_round (n : Nat) (h : n + 255 < UINT_RANGE) :
    n ≤ CalcConstantBufferByteSize n ∧ CalcConstantBufferByteSize n < n + 256 := by
  unfold CalcConstantBufferByteSize
  rw [Nat.mod_eq_of_lt h]
  omega

/-- C16: `DrawRenderItems` binds the object-constant view of a render item at byte offset
`ObjCBIndex * stride` (computed on 32 bits) from the address of the per-object buffer of the
frame resource, and the material view at `MatCBIndex * material stride` from the address of
the per-material buffer; both strides are 256, the constant sizes 128 and 96 rounded up to
a multiple of 256.  For every scene built by fewer than `2^32 / stride` calls of
`BuildRenderItems`, from a state without render items: the 32-bit product
`ObjCBIndex * stride` does not wrap, every offset is a multiple of 256, and the byte ranges
`[offset, offset + stride)` of two distinct render items do not overlap. -/
theorem C16_constant_views_at_disjoint_aligned_offsets {α : Type} [LinearOrderedField α]
    (calls : List (BuildRenderItemsArgs α)) (app : CrateApp α) (fr : FrameResource α)
    (hitems : app.mAllRitems = [])
    (hreg : ∀ c ∈ calls, ((app.mGeometries.lookup c.name).join).isSome ∧
      ((app.mMaterials.lookup c.materials).join).isSome)
    (hfew : calls.length < UINT_RANGE / CalcConstantBufferByteSize sizeofObjectConstants) :
    CalcConstantBufferByteSize sizeofObjectConstants = 256 ∧
    CalcConstantBufferByteSize sizeofMaterialConstants = 256 ∧
    (∀ n : Nat, 256 ∣ CalcConstantBufferByteSize n) ∧
    (∀ n : Nat, n + 255 < UINT_RANGE →
      n ≤ CalcConstantBufferByteSize n ∧ CalcConstantBufferByteSize n < n + 256) ∧
    ∃ app1 : CrateApp α,
      buildRenderItems calls app = .ok app1 ∧
      (∀ (i : Nat) (item : RenderItem α), app1.mAllRitems[i]? = some item →
        item.ObjCBIndex * CalcConstantBufferByteSize sizeofObjectConstants < UINT_RANGE ∧
        256 ∣ item.ObjCBIndex * CalcConstantBufferByteSize sizeofObjectConstants ∧
        ∃ (cmds : List Command) (mat : Material α),
          DrawRenderItems.item app1 fr i = .ok cmds ∧
          item.Mat.bind (fun k => (app1.mMaterials.lookup k).join) = some mat ∧
          cmds[4]? = some (.SetGraphicsRootConstantBufferView 1
            (fr.ObjectCB.gpuVirtualAddress
              + item.ObjCBIndex * CalcConstantBufferByteSize sizeofObjectConstants)) ∧
          cmds[5]? = some (.SetGraphicsRootConstantBufferView 3
            (fr.MaterialCB.gpuVirtualAddress
              + (mat.MatCBIndex * CalcConstantBufferByteSize sizeofMaterialConstants)
                  % UINT_RANGE)) ∧
          256 ∣ (mat.MatCBIndex * CalcConstantBufferByteSize sizeofMaterialConstants)
                  % UINT_RANGE ∧
          (mat.MatCBIndex < UINT_RANGE / CalcConstantBufferByteSize sizeofMaterialConstants →
            (mat.MatCBIndex * CalcConstantBufferByteSize sizeofMaterialConstants) % UINT_RANGE
              = mat.MatCBIndex * CalcConstantBufferByteSize sizeofMaterialConstants)) ∧
      (∀ (i j : Nat) (a b : RenderItem α), i ≠ j →
        app1.mAllRitems[i]? = some a → app1.mAllRitems[j]? = some b →
        a.ObjCBIndex * CalcConstantBufferByteSize sizeofObjectConstants
            + CalcConstantBufferByteSize sizeofObjectConstants
          ≤ b.ObjCBIndex * CalcConstantBufferByteSize sizeofObjectConstants ∨
        b.ObjCBIndex * CalcConstantBufferByteSize sizeofObjectConstants
            + CalcConstantBufferByteSize sizeofObjectConstants
          ≤ a.ObjCBIndex * CalcConstantBufferByteSize sizeofObjectConstants) := by
  have hobj : CalcConstantBufferByteSize sizeofObjectConstants = 256 := by decide
  have hmat : CalcConstantBufferByteSize sizeofMaterialConstants = 256 := by decide
  rw [hobj] at hfew
  rw [UINT_RANGE_eq] at hfew
  refine ⟨hobj, hmat, CalcConstantBufferByteSize_dvd, CalcConstantBufferByteSize_round, ?_⟩
  obtain ⟨app1, _, hok, _⟩ := buildRenderItems_scene calls app hreg
  obtain ⟨hlen, _, _, _, hdraw⟩ := buildRenderItems_drawable calls app app1 hitems hreg hok
  have hslot : ∀ (i : Nat) (item : RenderItem α), app1.mAllRitems[i]? = some item →
      item.ObjCBIndex = i ∧ i < 16777216 := by
    intro i item hi
    have hlt : i < app1.mAllRitems.length := by
      by_contra hnot
      rw [List.getElem?_eq_none (not_lt.mp hnot)] at hi
      cases hi
    obtain ⟨hx, _⟩ := hdraw i item hi
    rw [hlen] at hlt
    rw [hx, UINT_RANGE_eq]
    omega
  refine ⟨app1, hok, ?_, ?_⟩
  · intro i item hi
    obtain ⟨hx, hlt⟩ := hslot i item hi
    obtain ⟨_, _, geo, mat, _, _, _, hgeo, hm⟩ := hdraw i item hi
    rw [hobj, hmat, UINT_RANGE_eq]
    refine ⟨by omega, Dvd.intro_left _ rfl, _, mat,
      DrawRenderItems_item_eq app1 fr i item geo mat hi hgeo hm, hm, ?_, ?_, ?_, ?_⟩
    · rw [hobj, UINT_RANGE_eq]
      have hnowrap : item.ObjCBIndex * 256 % 4294967296 = item.ObjCBIndex * 256 :=
        Nat.mod_eq_of_lt (by omega)
      simp [hnowrap]
    · rw [hmat, UINT_RANGE_eq]
      simp
    · omega
    · intro hsmall
      exact Nat.mod_eq_of_lt (by omega)
  · intro i j a b hij ha hb
    obtain ⟨hxa, _⟩ := hslot i a ha
    obtain ⟨hxb, _⟩ := hslot j b hb
    rw [hobj, hxa, hxb]
    omega

/-- C16, instance: the two render items of the example scene; their object-constant ranges
start at offsets 0 and 256 and do not overlap. -/
theorem C16_constant_views_at_disjoint_aligned_offsets_witness :
    [exampleCall, exampleCall].length
      < UINT_RANGE / CalcConstantBufferByteSize sizeofObjectConstants ∧
    ∃ app1 : CrateApp ℚ,
      buildRenderItems [exampleCall, exampleCall] exampleScene = .ok app1 ∧
      (∀ (i : Nat) (item : RenderItem ℚ), app1.mAllRitems[i]? = some item →
        item.ObjCBIndex * CalcConstantBufferByteSize sizeofObjectConstants < UINT_RANGE ∧
        256 ∣ item.ObjCBIndex * CalcConstantBufferByteSize sizeofObjectConstants) ∧
      (∀ (i j : Nat) (a b : RenderItem ℚ), i ≠ j →
        app1.mAllRitems[i]? = some a → app1.mAllRitems[j]? = some b →
        a.ObjCBIndex * CalcConstantBufferByteSize sizeofObjectConstants
            + CalcConstantBufferByteSize sizeofObjectConstants
          ≤ b.ObjCBIndex * CalcConstantBufferByteSize sizeofObjectConstants ∨
        b.ObjCBIndex * CalcConstantBufferByteSize sizeofObjectConstants
            + CalcConstantBufferByteSize sizeofObjectConstants
          ≤ a.ObjCBIndex * CalcConstantBufferByteSize sizeofObjectConstants) := by
  refine ⟨by decide, ?_⟩
  obtain ⟨_, _, _, _, app1, hok, hoff, hdisj⟩ :=
    C16_constant_views_at_disjoint_aligned_offsets [exampleCall, exampleCall] exampleScene
      (FrameResource.create (exampleAddresses 0) 1 2 5) rfl (by decide) (by decide)
  exact ⟨app1, hok, fun i item hi => ⟨(hoff i item hi).1, (hoff i item hi).2.1⟩, hdisj⟩

end GAME3111

namespace GAME3111

open CrateApp

section Materials

variable {α : Type} [LinearOrderedField α]

/-- The material table `BuildMaterials` builds from an empty table. -/
theorem BuildMaterials_from_empty (app : CrateApp α) (h : app.mMaterials = []) :
    (BuildMaterials app).mMaterials.map
        (fun p => (p.1, p.2.map (fun m => (m.Name, m.MatCBIndex, m.DiffuseSrvHeapIndex))))
      = [("woodCrate", some ("woodCrate", 0, 0)), ("grass", some ("grass", 1, 1)),
         ("bricks", some ("bricks", 2, 2)), ("ice", some ("ice", 3, 3)),
         ("water", some ("water", 4, 4))] := by
  unfold BuildMaterials BuildMaterials.add
  simp only [h]
  rfl

omit [LinearOrderedField α] in
/-- The texture table `LoadTextures` builds from an empty table. -/
theorem LoadTextures_from_empty (app : CrateApp α) (h : app.mTextures = []) :
    (LoadTextures app).mTextures
      = [("woodCrateTex", some ⟨"woodCrateTex", "../../Textures/stone.dds"⟩),
         ("grassTex", some ⟨"grassTex", "../../Textures/grass.dds"⟩),
         ("bricksTex", some ⟨"bricksTex", "../../Textures/bricks3.dds"⟩),
         ("iceTex", some ⟨"iceTex", "../../Textures/ice.dds"⟩),
         ("waterTex", some ⟨"waterTex", "../../Textures/water1.dds"⟩)] := by
  unfold LoadTextures LoadTextures.load
  simp only [h]
  rfl

omit [LinearOrderedField α] in
/-- After `LoadTextures` from an empty texture table, `BuildDescriptorHeaps` returns: the
five lookups find their textures, no entry is inserted, and the heap holds the five
descriptors in the order of lines 674-678. -/
theorem BuildDescriptorHeaps_ok (app : CrateApp α) (h : app.mTextures = []) :
    BuildDescriptorHeaps (LoadTextures app)
      = .ok { LoadTextures app with
              mSrvDescriptorHeap :=
                ["woodCrateTex", "grassTex", "bricksTex", "iceTex", "waterTex"] } := by
  have hL := LoadTextures_from_empty app h
  unfold BuildDescriptorHeaps
  simp only [hL]
  have hT : (LoadTextures app) = { LoadTextures app with mTextures := (LoadTextures app).mTextures } := rfl
  rw [hT, hL]
  rfl

/-- A successful lookup returns the value of an entry of the map. -/
theorem UMap_mem_of_lookup {V : Type} (m : UMap V) (k : String) (v : V)
    (h : m.lookup k = some v) : (k, v) ∈ m := by
  induction m with
  | nil => cases h
  | cons p rest ih =>
    obtain ⟨pk, pv⟩ := p
    by_cases hp : k = pk
    · subst hp
      rw [UMap_lookup_cons_self] at h
      cases h
      exact List.mem_cons_self _ _
    · rw [UMap_lookup_cons_of_ne _ _ _ _ hp] at h
      exact List.mem_cons_of_mem _ (ih h)

end Materials

/-- C19: from empty material and texture tables, `LoadTextures` and `BuildDescriptorHeaps`
return and fill the SRV heap of 5 descriptors with the views of woodCrateTex, grassTex,
bricksTex, iceTex and waterTex at positions 0 to 4; `BuildMaterials` then registers exactly
the 5 materials woodCrate, grass, bricks, ice and water, with `MatCBIndex` 0 to 4, pairwise
distinct.  The `DiffuseSrvHeapIndex` of each material is below 5 and is the heap position of
the texture named after the material, so the descriptor-table offset recorded for a render
item, `DiffuseSrvHeapIndex` times the descriptor size, is the offset of the descriptor of
the texture of the item's own material. -/
theorem C19_materials_index_their_own_textures {α : Type} [LinearOrderedField α]
    (app : CrateApp α) (hmats : app.mMaterials = []) (htex : app.mTextures = []) :
    ∃ app1 : CrateApp α,
      BuildDescriptorHeaps (LoadTextures app) = .ok app1 ∧
      app1.mSrvDescriptorHeap
        = ["woodCrateTex", "grassTex", "bricksTex", "iceTex", "waterTex"] ∧
      app1.mSrvDescriptorHeap.length = 5 ∧
      (BuildMaterials app1).mSrvDescriptorHeap = app1.mSrvDescriptorHeap ∧
      (BuildMaterials app1).mMaterials.map
          (fun p => (p.1, p.2.map (fun m => (m.Name, m.MatCBIndex, m.DiffuseSrvHeapIndex))))
        = [("woodCrate", some ("woodCrate", 0, 0)), ("grass", some ("grass", 1, 1)),
           ("bricks", some ("bricks", 2, 2)), ("ice", some ("ice", 3, 3)),
           ("water", some ("water", 4, 4))] ∧
      (BuildMaterials app1).mMaterials.map (fun p => p.2.map (fun m => m.MatCBIndex))
        = [some 0, some 1, some 2, some 3, some 4] ∧
      ((BuildMaterials app1).mMaterials.map (fun p => p.2.map (fun m => m.MatCBIndex))).Nodup ∧
      (∀ (key : String) (mat : Material α), (key, some mat) ∈ (BuildMaterials app1).mMaterials →
        mat.Name = key ∧ mat.MatCBIndex < 5 ∧
        mat.DiffuseSrvHeapIndex < app1.mSrvDescriptorHeap.length ∧
        app1.mSrvDescriptorHeap[mat.DiffuseSrvHeapIndex]? = some (mat.Name ++ "Tex")) ∧
      (∀ (scene : CrateApp α) (fr : FrameResource α) (ri : Nat) (item : RenderItem α)
          (key : String) (geo : MeshGeometry α) (mat : Material α),
        scene.mMaterials = (BuildMaterials app1).mMaterials →
        scene.mSrvDescriptorHeap = app1.mSrvDescriptorHeap →
        scene.mAllRitems[ri]? = some item →
        item.Geo.bind (fun k => (scene.mGeometries.lookup k).join) = some geo →
        item.Mat = some key → scene.mMaterials.lookup key = some (some mat) →
        ∃ cmds : List Command,
          DrawRenderItems.item scene fr ri = .ok cmds ∧
          cmds[3]? = some (.SetGraphicsRootDescriptorTable 0
            (mat.DiffuseSrvHeapIndex * scene.mCbvSrvDescriptorSize)) ∧
          scene.mSrvDescriptorHeap[mat.DiffuseSrvHeapIndex]? = some (key ++ "Tex")) := by
  have hmats1 : (LoadTextures app).mMaterials = [] := hmats
  obtain ⟨app1, happ1⟩ : ∃ app1 : CrateApp α, app1 =
      { LoadTextures app with
        mSrvDescriptorHeap :=
          ["woodCrateTex", "grassTex", "bricksTex", "iceTex", "waterTex"] } := ⟨_, rfl⟩
  have hok : BuildDescriptorHeaps (LoadTextures app) = .ok app1 := by
    rw [happ1]; exact BuildDescriptorHeaps_ok app htex
  have hheap : app1.mSrvDescriptorHeap
      = ["woodCrateTex", "grassTex", "bricksTex", "iceTex", "waterTex"] := by rw [happ1]
  have hempty : app1.mMaterials = [] := by rw [happ1]; exact hmats1
  have htable := BuildMaterials_from_empty app1 hempty
  have hidx : (BuildMaterials app1).mMaterials.map (fun p => p.2.map (fun m => m.MatCBIndex))
      = [some 0, some 1, some 2, some 3, some 4] := by
    have h := congrArg (List.map (fun (p : String × Option (String × Nat × Nat)) =>
      p.2.map (fun t => t.2.1))) htable
    simp only [List.map_map] at h
    refine Eq.trans (List.map_congr_left ?_) h
    intro p _
    obtain ⟨k, o⟩ := p
    cases o <;> rfl
  have hmem : ∀ (key : String) (mat : Material α),
      (key, some mat) ∈ (BuildMaterials app1).mMaterials →
      mat.Name = key ∧ mat.MatCBIndex < 5 ∧
      mat.DiffuseSrvHeapIndex < app1.mSrvDescriptorHeap.length ∧
      app1.mSrvDescriptorHeap[mat.DiffuseSrvHeapIndex]? = some (mat.Name ++ "Tex") := by
    intro key mat hin
    have h := List.mem_map_of_mem
      (fun (p : String × Option (Material α)) =>
        (p.1, p.2.map (fun m => (m.Name, m.MatCBIndex, m.DiffuseSrvHeapIndex)))) hin
    rw [htable] at h
    rw [hheap]
    simp only [List.mem_cons, Prod.mk.injEq, Option.map_some', Option.some.injEq,
      List.mem_singleton, List.not_mem_nil, or_false] at h
    rcases h with h | h | h | h | h <;>
      (obtain ⟨hk, hn, hc, hs⟩ := h
       rw [hn, hc, hs, hk]
       decide)
  refine ⟨app1, hok, hheap, by rw [hheap]; rfl, rfl, htable, hidx, by rw [hidx]; decide,
    hmem, ?_⟩
  intro scene fr ri item key geo mat hsm hsh hi hgeo hkey hlook
  have hin := UMap_mem_of_lookup _ _ _ hlook
  have hmat : item.Mat.bind (fun k => (scene.mMaterials.lookup k).join) = some mat := by
    rw [hkey]
    show (scene.mMaterials.lookup key).join = some mat
    rw [hlook]
    rfl
  rw [hsm] at hin
  obtain ⟨hname, _, _, hpos⟩ := hmem key mat hin
  refine ⟨_, DrawRenderItems_item_eq scene fr ri item geo mat hi hgeo hmat, rfl, ?_⟩
  rw [hsh, hpos, hname]

/-- C19, instance: the tables built from the state the constructor leaves. -/
theorem C19_materials_index_their_own_textures_witness :
    ∃ app1 : CrateApp ℚ,
      BuildDescriptorHeaps (LoadTextures (CrateApp.new (355 / 113) exampleBase (0, 0)))
        = .ok app1 ∧
      app1.mSrvDescriptorHeap
        = ["woodCrateTex", "grassTex", "bricksTex", "iceTex", "waterTex"] ∧
      (BuildMaterials app1).mMaterials.map
          (fun p => (p.1, p.2.map (fun m => (m.Name, m.MatCBIndex, m.DiffuseSrvHeapIndex))))
        = [("woodCrate", some ("woodCrate", 0, 0)), ("grass", some ("grass", 1, 1)),
           ("bricks", some ("bricks", 2, 2)), ("ice", some ("ice", 3, 3)),
           ("water", some ("water", 4, 4))] := by
  obtain ⟨app1, hok, hheap, _, _, htable, _⟩ :=
    C19_materials_index_their_own_textures
      (CrateApp.new (355 / 113 : ℚ) exampleBase (0, 0)) rfl rfl
  exact ⟨app1, hok, hheap, htable⟩

end GAME3111

namespace GAME3111

open CrateApp

section Packing

variable {α : Type} [LinearOrderedField α]

omit [LinearOrderedField α] in
/-- One iteration of the packing loop. -/
theorem pack_succ (box : List (GeneratedVertex α)) (rem i k : Nat) (vs : List (Vertex α))
    (bi bk : GeneratedVertex α) (v : Vertex α)
    (hi : box[i]? = some bi) (hk : box[k]? = some bk) (hv : vs[k]? = some v) :
    BuildShapeGeometry.pack box (rem + 1) i k vs
      = BuildShapeGeometry.pack box rem (i + 1) ((k + 1) % UINT_RANGE)
          (vs.set k { Pos := bi.Position, Normal := bk.Normal, TexC := bk.TexC }) := by
  rw [BuildShapeGeometry.pack]
  simp only [hi, hk, hv]

omit [LinearOrderedField α] in
/-- The packing loop returns for every generated mesh: the counter `k` never exceeds the
counter `i`, which stays below the number of vertices. -/
theorem pack_total (box : List (GeneratedVertex α)) :
    ∀ (rem i k : Nat) (vs : List (Vertex α)),
      vs.length = box.length → i + rem ≤ box.length → k ≤ i →
      ∃ r : List (Vertex α), BuildShapeGeometry.pack box rem i k vs = .ok r ∧
        r.length = box.length := by
  intro rem
  induction rem with
  | zero =>
    intro i k vs hlen _ _
    exact ⟨vs, rfl, hlen⟩
  | succ rem ih =>
    intro i k vs hlen hi hk
    have hib : i < box.length := by omega
    have hkb : k < box.length := by omega
    have hkv : k < vs.length := by omega
    rw [pack_succ box rem i k vs box[i] box[k] vs[k]
      (List.getElem?_eq_getElem hib) (List.getElem?_eq_getElem hkb)
      (List.getElem?_eq_getElem hkv)]
    apply ih
    · rw [List.length_set]; exact hlen
    · omega
    · exact Nat.le_trans (Nat.mod_le _ _) (by omega)

omit [LinearOrderedField α] in
/-- While the two counters are equal and below `2^32`, the packing loop copies generated
vertex `j` into packed vertex `j`, for every `j` it visits. -/
theorem pack_eq (box : List (GeneratedVertex α)) :
    ∀ (rem i k : Nat) (vs : List (Vertex α)),
      vs.length = box.length → i + rem ≤ box.length → i + rem ≤ UINT_RANGE →
      (0 < rem → k = i) →
      ∃ r : List (Vertex α), BuildShapeGeometry.pack box rem i k vs = .ok r ∧
        r.length = box.length ∧
        ∀ j : Nat, r[j]? =
          if i ≤ j ∧ j < i + rem then
            box[j]?.map (fun b => { Pos := b.Position, Normal := b.Normal, TexC := b.TexC })
          else vs[j]? := by
  intro rem
  induction rem with
  | zero =>
    intro i k vs hlen _ _ _
    refine ⟨vs, rfl, hlen, ?_⟩
    intro j
    rw [if_neg (by omega)]
  | succ rem ih =>
    intro i k vs hlen hi hu hk
    have hki : k = i := hk (Nat.succ_pos _)
    subst hki
    have hib : k < box.length := by omega
    have hkv : k < vs.length := by omega
    rw [pack_succ box rem k k vs box[k] box[k] vs[k]
      (List.getElem?_eq_getElem hib) (List.getElem?_eq_getElem hib)
      (List.getElem?_eq_getElem hkv)]
    obtain ⟨r, hr, hrlen, hrj⟩ := ih (k + 1) ((k + 1) % UINT_RANGE)
      (vs.set k { Pos := box[k].Position, Normal := box[k].Normal, TexC := box[k].TexC })
      (by rw [List.length_set]; exact hlen) (by omega) (by omega)
      (by intro hpos; exact Nat.mod_eq_of_lt (by omega))
    refine ⟨r, hr, hrlen, ?_⟩
    intro j
    rw [hrj j]
    by_cases hj : j = k
    · subst hj
      rw [if_neg (by omega), if_pos (by omega), List.getElem?_set_self hkv,
        List.getElem?_eq_getElem hib]
      rfl
    · rw [List.getElem?_set_ne (Ne.symm hj)]
      by_cases hin : k + 1 ≤ j ∧ j < k + 1 + rem
      · rw [if_pos hin, if_pos (by omega)]
      · rw [if_neg hin, if_neg (by omega)]

omit [LinearOrderedField α] in
/-- The packing loop over `a + b` iterations is the loop over `a` iterations followed by the
loop over `b` iterations; the 32-bit counter `k` has advanced by `a` modulo `2^32`. -/
theorem pack_add (box : List (GeneratedVertex α)) (b : Nat) :
    ∀ (a i k : Nat) (vs : List (Vertex α)), k < UINT_RANGE →
      BuildShapeGeometry.pack box (a + b) i k vs
        = (BuildShapeGeometry.pack box a i k vs).bind
            (fun r => BuildShapeGeometry.pack box b (i + a) ((k + a) % UINT_RANGE) r) := by
  intro a
  induction a with
  | zero =>
    intro i k vs hk
    rw [Nat.zero_add, Nat.add_zero, Nat.add_zero, Nat.mod_eq_of_lt hk]
    rfl
  | succ a ih =>
    intro i k vs hk
    rw [show a + 1 + b = (a + b) + 1 by omega]
    cases hbi : box[i]? with
    | none => simp [BuildShapeGeometry.pack, hbi, Except.bind]
    | some bi =>
      cases hbk : box[k]? with
      | none => simp [BuildShapeGeometry.pack, hbi, hbk, Except.bind]
      | some bk =>
        cases hv : vs[k]? with
        | none => simp [BuildShapeGeometry.pack, hbi, hbk, hv, Except.bind]
        | some v =>
          rw [pack_succ box (a + b) i k vs bi bk v hbi hbk hv,
            pack_succ box a i k vs bi bk v hbi hbk hv,
            ih (i + 1) ((k + 1) % UINT_RANGE) _ (Nat.mod_lt _ (by rw [UINT_RANGE_eq]; omega))]
          have h1 : i + 1 + a = i + (a + 1) := by omega
          have h2 : ((k + 1) % UINT_RANGE + a) % UINT_RANGE = (k + (a + 1)) % UINT_RANGE := by
            rw [UINT_RANGE_eq]; omega
          rw [h1, h2]

end Packing

end GAME3111

namespace GAME3111

open CrateApp

section Packing

variable {α : Type} [LinearOrderedField α]

/-- What `BuildShapeGeometry` returns, in terms of the result of the packing loop. -/
theorem BuildShapeGeometry_eq (app : CrateApp α) (name : String) (shape : MeshData α)
    (vertices : List (Vertex α))
    (hpack : BuildShapeGeometry.pack shape.Vertices shape.Vertices.length 0 0
      (List.replicate shape.Vertices.length Vertex.zero) = .ok vertices) :
    BuildShapeGeometry app name shape = .ok
      { app with mGeometries := app.mGeometries.assign name (some
        { Name := name,
          VertexBufferCPU := vertices.take
            (((vertices.length % UINT_RANGE) * sizeofVertex) % UINT_RANGE / sizeofVertex),
          IndexBufferCPU := shape.GetIndices16.take
            (((shape.GetIndices16.length % UINT_RANGE) * 2) % UINT_RANGE / 2),
          VertexByteStride := sizeofVertex,
          VertexBufferByteSize :=
            ((vertices.length % UINT_RANGE) * sizeofVertex) % UINT_RANGE,
          IndexBufferByteSize := ((shape.GetIndices16.length % UINT_RANGE) * 2) % UINT_RANGE,
          DrawArgs := [("box", { IndexCount := shape.Indices32.length % UINT_RANGE,
                                 StartIndexLocation := 0, BaseVertexLocation := 0 })] }) } := by
  unfold BuildShapeGeometry
  simp only [hpack]
  rfl

/-- The method `BuildShapeGeometry` returns for every generated mesh, and registers a
geometry under the given name. -/
theorem BuildShapeGeometry_ok (app : CrateApp α) (name : String) (shape : MeshData α) :
    ∃ geo : MeshGeometry α,
      BuildShapeGeometry app name shape
        = .ok { app with mGeometries := app.mGeometries.assign name (some geo) } := by
  obtain ⟨vertices, hpack, _⟩ := pack_total shape.Vertices shape.Vertices.length 0 0
    (List.replicate shape.Vertices.length Vertex.zero) (by simp) (by omega) (Nat.le_refl _)
  exact ⟨_, BuildShapeGeometry_eq app name shape vertices hpack⟩

end Packing

end GAME3111

namespace GAME3111

open CrateApp

section Packing

variable {α : Type} [LinearOrderedField α]

/-- For a mesh of at most `2^32` vertices the packing loop returns the generated vertices,
converted one by one. -/
theorem pack_small (box : List (GeneratedVertex α)) (hn : box.length ≤ UINT_RANGE) :
    BuildShapeGeometry.pack box box.length 0 0 (List.replicate box.length Vertex.zero)
      = .ok (box.map (fun b => { Pos := b.Position, Normal := b.Normal, TexC := b.TexC })) := by
  obtain ⟨r, hr, hrlen, hrj⟩ := pack_eq box box.length 0 0
    (List.replicate box.length Vertex.zero) (by simp) (by omega) (by omega) (fun _ => rfl)
  rw [hr]
  congr 1
  apply List.ext_getElem?
  intro j
  rw [hrj j, List.getElem?_map]
  by_cases hj : j < box.length
  · rw [if_pos ⟨Nat.zero_le _, by omega⟩]
  · rw [if_neg (by omega), List.getElem?_eq_none (by simpa using not_lt.mp hj),
      List.getElem?_eq_none (not_lt.mp hj)]
    rfl

end Packing

/-- The bind of a run that has returned. -/
theorem Except_bind_ok {ε β γ : Type} (a : β) (f : β → Except ε γ) :
    (Except.ok a : Except ε β).bind f = f a := rfl

/-- The vertices of `exampleWrapMesh`. -/
theorem exampleWrapMesh_Vertices :
    exampleWrapMesh.Vertices
      = List.replicate UINT_RANGE (exampleVertex 1) ++ [exampleVertex 2] :=
  rfl

/-- C17, counterexample: a generated mesh of `2^32 + 1` vertices, `2^32` copies of one
vertex followed by a different vertex.  At the last iteration the 32-bit counter `k` is back
at 0 while `i` is `2^32`: packed vertex 0 gets the `Position` of generated vertex `2^32` and
keeps the `Normal` and `TexC` of generated vertex 0.  The vertex buffer of the geometry
holds `vbByteSize = 32` bytes, that one vertex. -/
theorem C17_wrapped_counter_mixes_source_vertices :
    ∃ (app1 : CrateApp ℚ) (geo : MeshGeometry ℚ),
      exampleWrapMesh.Vertices.length = UINT_RANGE + 1 ∧
      exampleWrapMesh.Vertices[0]? = some (exampleVertex 1) ∧
      exampleWrapMesh.Vertices[UINT_RANGE]? = some (exampleVertex 2) ∧
      BuildShapeGeometry exampleScene "Big" exampleWrapMesh = .ok app1 ∧
      app1.mGeometries.lookup "Big" = some (some geo) ∧
      geo.VertexBufferCPU =
        [{ Pos := (exampleVertex 2).Position, Normal := (exampleVertex 1).Normal,
           TexC := (exampleVertex 1).TexC }] ∧
      geo.VertexBufferCPU.length ≠ exampleWrapMesh.Vertices.length ∧
      (exampleVertex 2).Position ≠ (exampleVertex 1).Position := by
  have hUR : 0 < UINT_RANGE := by rw [UINT_RANGE_eq]; omega
  have hlen : exampleWrapMesh.Vertices.length = UINT_RANGE + 1 := by
    rw [exampleWrapMesh_Vertices, List.length_append, List.length_replicate,
      List.length_singleton]
  have h0 : exampleWrapMesh.Vertices[0]? = some (exampleVertex 1) := by
    rw [exampleWrapMesh_Vertices, List.getElem?_append_left (by rw [List.length_replicate]; exact hUR),
      List.getElem?_replicate, if_pos hUR]
  have hlast : exampleWrapMesh.Vertices[UINT_RANGE]? = some (exampleVertex 2) := by
    rw [exampleWrapMesh_Vertices, List.getElem?_append_right (by rw [List.length_replicate]), List.length_replicate,
      Nat.sub_self]
    rfl
  -- the first `2^32` iterations
  obtain ⟨r, hr, hrlen, hrj⟩ := pack_eq exampleWrapMesh.Vertices UINT_RANGE 0 0
    (List.replicate exampleWrapMesh.Vertices.length Vertex.zero) (by simp)
    (by rw [hlen]; omega) (by omega) (fun _ => rfl)
  have hr0 : r[0]? = some (⟨(exampleVertex 1).Position, (exampleVertex 1).Normal, (exampleVertex 1).TexC⟩ : Vertex ℚ) := by
    rw [hrj 0, if_pos ⟨Nat.le_refl _, by omega⟩, h0]
    rfl
  -- the last iteration
  have hpack : BuildShapeGeometry.pack exampleWrapMesh.Vertices
      exampleWrapMesh.Vertices.length 0 0
      (List.replicate exampleWrapMesh.Vertices.length Vertex.zero)
      = .ok (r.set 0 (⟨(exampleVertex 2).Position, (exampleVertex 1).Normal, (exampleVertex 1).TexC⟩ : Vertex ℚ)) := by
    rw [show exampleWrapMesh.Vertices.length = UINT_RANGE + 1 from hlen,
      pack_add exampleWrapMesh.Vertices 1 UINT_RANGE 0 0 _ hUR, ← hlen, hr]
    rw [Except_bind_ok, Nat.zero_add, Nat.mod_self,
      pack_succ exampleWrapMesh.Vertices 0 UINT_RANGE 0 r _ _ _ hlast h0 hr0,
      BuildShapeGeometry.pack]
  have hsize : (r.set 0 (⟨(exampleVertex 2).Position, (exampleVertex 1).Normal, (exampleVertex 1).TexC⟩ : Vertex ℚ)).length
      = UINT_RANGE + 1 := by
    rw [List.length_set, hrlen, hlen]
  have hrun := BuildShapeGeometry_eq exampleScene "Big" exampleWrapMesh _ hpack
  have htake : ((UINT_RANGE + 1) % UINT_RANGE * sizeofVertex) % UINT_RANGE / sizeofVertex = 1 := by
    rw [UINT_RANGE_eq]
    rfl
  have hbuf : (r.set 0 (⟨(exampleVertex 2).Position, (exampleVertex 1).Normal, (exampleVertex 1).TexC⟩ : Vertex ℚ)).take 1
      = [(⟨(exampleVertex 2).Position, (exampleVertex 1).Normal, (exampleVertex 1).TexC⟩ : Vertex ℚ)] := by
    cases r with
    | nil => simp at hrlen; omega
    | cons a rest => rfl
  rw [hsize, htake, hbuf] at hrun
  obtain ⟨geo, hrun2, hgeo⟩ : ∃ geo : MeshGeometry ℚ,
      BuildShapeGeometry exampleScene "Big" exampleWrapMesh
        = .ok { exampleScene with
                mGeometries := exampleScene.mGeometries.assign "Big" (some geo) } ∧
      geo.VertexBufferCPU =
        [(⟨(exampleVertex 2).Position, (exampleVertex 1).Normal, (exampleVertex 1).TexC⟩ :
          Vertex ℚ)] := ⟨_, hrun, rfl⟩
  refine ⟨_, geo, hlen, h0, hlast, hrun2, ?_, hgeo, ?_, ?_⟩
  · show (UMap.assign exampleScene.mGeometries "Big" (some geo)).lookup "Big" = _
    rw [UMap_lookup_assign, if_pos rfl]
  · rw [hgeo, hlen, UINT_RANGE_eq]
    simp
  · intro h
    have hx := congrArg XMFLOAT3.x h
    norm_num [exampleVertex] at hx

/-- C17, amended: for every generated mesh with `n` vertices and `m` indices such that
`n * sizeof(Vertex)` and `m` are representable on 32 bits, `BuildShapeGeometry` returns; the
packed vertex array has length `n` and packed vertex `k` has the `Position`, the `Normal`
and the `TexC` of generated vertex `k`, no field coming from another vertex; the geometry is
registered under the given name with exactly one sub-mesh, under the key "box", with
`IndexCount = m`, `StartIndexLocation = 0` and `BaseVertexLocation = 0`. -/
theorem C17_representable_mesh_is_packed_vertex_by_vertex {α : Type} [LinearOrderedField α]
    (app : CrateApp α) (name : String) (shape : MeshData α)
    (hn : shape.Vertices.length * sizeofVertex < UINT_RANGE)
    (hm : shape.Indices32.length < UINT_RANGE) :
    ∃ geo : MeshGeometry α,
      BuildShapeGeometry app name shape
        = .ok { app with mGeometries := app.mGeometries.assign name (some geo) } ∧
      (app.mGeometries.assign name (some geo)).lookup name = some (some geo) ∧
      geo.Name = name ∧
      geo.VertexBufferCPU.length = shape.Vertices.length ∧
      geo.VertexBufferCPU = shape.Vertices.map
        (fun b => { Pos := b.Position, Normal := b.Normal, TexC := b.TexC }) ∧
      (∀ (k : Nat) (b : GeneratedVertex α), shape.Vertices[k]? = some b →
        geo.VertexBufferCPU[k]?
          = some { Pos := b.Position, Normal := b.Normal, TexC := b.TexC }) ∧
      geo.DrawArgs = [("box", { IndexCount := shape.Indices32.length,
                                StartIndexLocation := 0, BaseVertexLocation := 0 })] := by
  have hsv : sizeofVertex = 32 := rfl
  rw [hsv, UINT_RANGE_eq] at hn
  have hsmall : shape.Vertices.length ≤ UINT_RANGE := by rw [UINT_RANGE_eq]; omega
  have hrun := BuildShapeGeometry_eq app name shape _ (pack_small shape.Vertices hsmall)
  rw [List.length_map] at hrun
  have htake : ((shape.Vertices.length % UINT_RANGE) * sizeofVertex) % UINT_RANGE / sizeofVertex
      = shape.Vertices.length := by
    rw [hsv, UINT_RANGE_eq]
    omega
  have hcount : shape.Indices32.length % UINT_RANGE = shape.Indices32.length :=
    Nat.mod_eq_of_lt hm
  rw [htake, hcount] at hrun
  have hwhole : (shape.Vertices.map
      (fun b => ({ Pos := b.Position, Normal := b.Normal, TexC := b.TexC } : Vertex α))).take
        shape.Vertices.length
      = shape.Vertices.map
          (fun b => ({ Pos := b.Position, Normal := b.Normal, TexC := b.TexC } : Vertex α)) :=
    List.take_of_length_le (by rw [List.length_map])
  rw [hwhole] at hrun
  refine ⟨_, hrun, ?_, rfl, ?_, rfl, ?_, rfl⟩
  · rw [UMap_lookup_assign, if_pos rfl]
  · show (shape.Vertices.map _).length = _
    rw [List.length_map]
  · intro k b hk
    show (shape.Vertices.map _)[k]? = _
    rw [List.getElem?_map, hk]
    rfl

/-- C17, instance: a mesh of three distinct vertices and three indices. -/
theorem C17_representable_mesh_is_packed_vertex_by_vertex_witness :
    ∃ geo : MeshGeometry ℚ,
      BuildShapeGeometry exampleScene "Box2" exampleMesh
        = .ok { exampleScene with
                mGeometries := exampleScene.mGeometries.assign "Box2" (some geo) } ∧
      (exampleScene.mGeometries.assign "Box2" (some geo)).lookup "Box2" = some (some geo) ∧
      geo.Name = "Box2" ∧
      geo.VertexBufferCPU.length = exampleMesh.Vertices.length ∧
      geo.VertexBufferCPU = exampleMesh.Vertices.map
        (fun b => { Pos := b.Position, Normal := b.Normal, TexC := b.TexC }) ∧
      (∀ (k : Nat) (b : GeneratedVertex ℚ), exampleMesh.Vertices[k]? = some b →
        geo.VertexBufferCPU[k]?
          = some { Pos := b.Position, Normal := b.Normal, TexC := b.TexC }) ∧
      geo.DrawArgs = [("box", { IndexCount := exampleMesh.Indices32.length,
                                StartIndexLocation := 0, BaseVertexLocation := 0 })] :=
  C17_representable_mesh_is_packed_vertex_by_vertex exampleScene "Box2" exampleMesh
    (by decide) (by decide)

end GAME3111

namespace GAME3111

open CrateApp

section Startup

variable {α : Type} [LinearOrderedField α]

/-- A key of the map is looked up successfully, and the value found is the value of an entry
of the map. -/
theorem UMap_lookup_of_mem_keys {V : Type} (m : UMap V) (k : String)
    (h : k ∈ m.map Prod.fst) : ∃ v : V, m.lookup k = some v ∧ (k, v) ∈ m := by
  induction m with
  | nil => simp at h
  | cons p rest ih =>
    obtain ⟨pk, pv⟩ := p
    by_cases hp : k = pk
    · subst hp
      exact ⟨pv, UMap_lookup_cons_self _ _ _, List.mem_cons_self _ _⟩
    · simp only [List.map_cons, List.mem_cons] at h
      rcases h with h | h
      · exact absurd h hp
      · obtain ⟨v, hv, hmem⟩ := ih h
        exact ⟨v, by rw [UMap_lookup_cons_of_ne _ _ _ _ hp]; exact hv,
          List.mem_cons_of_mem _ hmem⟩

/-- In a map without null entries, every key is looked up to a non-null value. -/
theorem UMap_lookup_isSome {V : Type} (m : UMap (Option V)) (k : String)
    (hk : k ∈ m.map Prod.fst) (hall : ∀ p ∈ m, p.2.isSome) :
    ((m.lookup k).join).isSome := by
  obtain ⟨v, hv, hmem⟩ := UMap_lookup_of_mem_keys m k hk
  rw [hv]
  exact hall (k, v) hmem

/-- A sequence of calls of `BuildShapeGeometry` returns for all generated meshes; it changes
nothing but `mGeometries`, where it adds each name not yet present and stores no null
entry. -/
theorem buildShapeGeometries_ok (shapes : List (String × MeshData α)) :
    ∀ app : CrateApp α,
      ∃ app1 : CrateApp α,
        buildShapeGeometries shapes app = .ok app1 ∧
        ({ app1 with mGeometries := app.mGeometries } : CrateApp α) = app ∧
        app1.mGeometries.map Prod.fst
          = shapes.foldl (fun ks c => if c.1 ∈ ks then ks else ks ++ [c.1])
              (app.mGeometries.map Prod.fst) ∧
        ((∀ p ∈ app.mGeometries, p.2.isSome) → ∀ p ∈ app1.mGeometries, p.2.isSome) := by
  induction shapes with
  | nil => intro app; exact ⟨app, rfl, rfl, rfl, fun h => h⟩
  | cons c rest ih =>
    intro app
    obtain ⟨geo, hgeo⟩ := BuildShapeGeometry_ok app c.1 c.2
    obtain ⟨app1, hok, hframe, hkeys, hall⟩ :=
      ih { app with mGeometries := app.mGeometries.assign c.1 (some geo) }
    have hframe1 := congrArg
      (fun a : CrateApp α => ({ a with mGeometries := app.mGeometries } : CrateApp α)) hframe
    refine ⟨app1, ?_, hframe1, ?_, ?_⟩
    · show (BuildShapeGeometry app c.1 c.2).bind (buildShapeGeometries rest) = .ok app1
      rw [hgeo]
      exact hok
    · rw [hkeys, List.foldl_cons]
      show List.foldl _ ((app.mGeometries.assign c.1 (some geo)).map Prod.fst) rest = _
      rw [UMap_assign_keys]
    · intro h
      apply hall
      intro p hp
      rcases UMap_assign_mem _ _ _ _ hp with h1 | h1
      · exact h p h1
      · rw [h1]; rfl

/-- The material table `BuildMaterials` builds from an empty table: five entries, none
null, with `MatCBIndex` 0 to 4. -/
theorem BuildMaterials_entries (app : CrateApp α) (h : app.mMaterials = []) :
    ∃ m0 m1 m2 m3 m4 : Material α,
      (BuildMaterials app).mMaterials
        = [("woodCrate", some m0), ("grass", some m1), ("bricks", some m2),
           ("ice", some m3), ("water", some m4)] ∧
      m0.MatCBIndex = 0 ∧ m1.MatCBIndex = 1 ∧ m2.MatCBIndex = 2 ∧ m3.MatCBIndex = 3 ∧
      m4.MatCBIndex = 4 := by
  unfold BuildMaterials BuildMaterials.add
  simp only [h]
  exact ⟨_, _, _, _, _, rfl, rfl, rfl, rfl, rfl, rfl⟩

omit [LinearOrderedField α] in
/-- The method `BuildFrameResources` appends three frame resources, each with one pass slot,
one object slot per render item and one material slot per material. -/
theorem BuildFrameResources_eq (va : Nat → FrameAddresses) (app : CrateApp α) :
    BuildFrameResources va app
      = { app with mFrameResources := app.mFrameResources ++
          [FrameResource.create (va 0) 1 (app.mAllRitems.length % UINT_RANGE)
            (app.mMaterials.length % UINT_RANGE),
           FrameResource.create (va 1) 1 (app.mAllRitems.length % UINT_RANGE)
            (app.mMaterials.length % UINT_RANGE),
           FrameResource.create (va 2) 1 (app.mAllRitems.length % UINT_RANGE)
            (app.mMaterials.length % UINT_RANGE)] } := by
  unfold BuildFrameResources
  simp [gNumFrameResources, List.range, List.range.loop]

/-- Every call of `BuildRenderItems` in `Initialize` names one of the 13 geometries and one
of the 5 materials that `Initialize` registers. -/
theorem initialRenderItems_registered :
    ∀ c ∈ (initialRenderItems : List (BuildRenderItemsArgs α)),
      c.name ∈ ["Box", "Box2", "Box3", "Cylinder", "Sphere", "Grid", "Grid2", "Grid3",
        "Pyramid", "Cone2", "Wedge", "TriangularPrism", "Diamond"] ∧
      c.materials ∈ ["woodCrate", "grass", "bricks", "ice", "water"] := by
  intro c hc
  have hmap : (initialRenderItems : List (BuildRenderItemsArgs α)).map
      (fun c => (c.name, c.materials))
      = [("TriangularPrism", "grass"), ("TriangularPrism", "grass"),
         ("TriangularPrism", "grass"), ("TriangularPrism", "grass"),
         ("TriangularPrism", "grass"), ("TriangularPrism", "grass"),
         ("TriangularPrism", "grass"), ("Diamond", "ice"), ("Wedge", "woodCrate"),
         ("Wedge", "woodCrate"), ("Box", "bricks"), ("Box", "bricks"), ("Box", "bricks"),
         ("Box", "bricks"), ("Cylinder", "grass"), ("Cylinder", "grass"),
         ("Cylinder", "grass"), ("Cylinder", "grass"), ("Cone2", "woodCrate"),
         ("Cone2", "woodCrate"), ("Cone2", "woodCrate"), ("Cone2", "woodCrate"),
         ("Sphere", "ice"), ("Sphere", "ice"), ("Sphere", "ice"), ("Sphere", "ice"),
         ("Box2", "woodCrate"), ("Box3", "woodCrate"), ("Pyramid", "ice"),
         ("Pyramid", "ice"), ("Pyramid", "ice"), ("Pyramid", "ice"), ("Pyramid", "ice"),
         ("Pyramid", "ice"), ("Pyramid", "ice"), ("Pyramid", "ice"), ("Pyramid", "ice"),
         ("Grid", "water"), ("Grid2", "grass"), ("Grid3", "woodCrate")] := rfl
  have hin := List.mem_map_of_mem (fun c : BuildRenderItemsArgs α => (c.name, c.materials)) hc
  rw [hmap] at hin
  have hall : ∀ p ∈ [("TriangularPrism", "grass"), ("Diamond", "ice"), ("Wedge", "woodCrate"),
      ("Box", "bricks"), ("Cylinder", "grass"), ("Cone2", "woodCrate"), ("Sphere", "ice"),
      ("Box2", "woodCrate"), ("Box3", "woodCrate"), ("Pyramid", "ice"), ("Grid", "water"),
      ("Grid2", "grass"), ("Grid3", "woodCrate")],
      p.1 ∈ ["Box", "Box2", "Box3", "Cylinder", "Sphere", "Grid", "Grid2", "Grid3",
        "Pyramid", "Cone2", "Wedge", "TriangularPrism", "Diamond"] ∧
      p.2 ∈ ["woodCrate", "grass", "bricks", "ice", "water"] := by decide
  apply hall (c.name, c.materials)
  simp only [List.mem_cons, List.mem_singleton, List.not_mem_nil, or_false] at hin ⊢
  tauto

end Startup

end GAME3111

namespace GAME3111

open CrateApp

section Startup

variable {α : Type} [LinearOrderedField α]

/-- The method `Initialize` returns when its fallible steps return: the state it returns. -/
theorem Initialize_eq (geoGen : GeometryGenerator α) (descriptorSize : Nat)
    (va : Nat → FrameAddresses) (app a2 a3 a5 : CrateApp α)
    (h1 : BuildDescriptorHeaps (LoadTextures
      { ({ app with mCommandList := [] } : CrateApp α) with
        mCbvSrvDescriptorSize := descriptorSize }) = .ok a2)
    (h2 : buildShapeGeometries (initialShapes geoGen) a2 = .ok a3)
    (h3 : buildRenderItems initialRenderItems (BuildMaterials a3) = .ok a5) :
    ∃ app1 : CrateApp α,
      Initialize geoGen descriptorSize va app = .ok app1 ∧
      app1.mFrameResources = (BuildFrameResources va a5).mFrameResources ∧
      app1.mAllRitems = a5.mAllRitems ∧
      app1.mOpaqueRitems = a5.mOpaqueRitems ∧
      app1.mMaterials = a5.mMaterials ∧
      app1.mGeometries = a5.mGeometries := by
  unfold Initialize
  simp only [h1, h2, h3, Except_bind_ok]
  rw [BuildFrameResources_eq]
  exact ⟨_, rfl, rfl, rfl, rfl, rfl, rfl⟩

end Startup

end GAME3111

namespace GAME3111

open CrateApp

set_option maxHeartbeats 1600000 in
/-- C18: from the state the constructor leaves, `Initialize` returns for every geometry
generator, and the scene it assembles is well formed.  The geometry table holds exactly the
13 names registered by `BuildShapeGeometry` and the material table exactly the 5 names
registered by `BuildMaterials`, none with a null entry: no lookup of the 40 calls of
`BuildRenderItems` has inserted an entry.  There are 40 render items, all in the opaque
list; the `Geo` and `Mat` of each point to a registered geometry and a registered material,
those named by its call.  The three frame resources are created with 1 pass slot, 40 object
slots and 5 material slots; every `ObjCBIndex` is the position of the item, below 40, and
every `MatCBIndex` is below 5. -/
theorem C18_initialized_scene_is_well_formed {α : Type} [LinearOrderedField α]
    (geoGen : GeometryGenerator α) (descriptorSize : Nat) (va : Nat → FrameAddresses)
    (pi : α) (base : D3DApp) (lastMousePos : Int × Int) :
    ∃ app1 : CrateApp α,
      Initialize geoGen descriptorSize va (CrateApp.new pi base lastMousePos) = .ok app1 ∧
      (initialRenderItems : List (BuildRenderItemsArgs α)).length = 40 ∧
      app1.mGeometries.map Prod.fst
        = ["Box", "Box2", "Box3", "Cylinder", "Sphere", "Grid", "Grid2", "Grid3",
           "Pyramid", "Cone2", "Wedge", "TriangularPrism", "Diamond"] ∧
      app1.mMaterials.map Prod.fst = ["woodCrate", "grass", "bricks", "ice", "water"] ∧
      (∀ k ∈ app1.mGeometries.map Prod.fst, ((app1.mGeometries.lookup k).join).isSome) ∧
      (∀ p ∈ app1.mMaterials, p.2.isSome) ∧
      app1.mAllRitems.length = 40 ∧
      app1.mOpaqueRitems = List.range 40 ∧
      (∀ (i : Nat) (item : RenderItem α), app1.mAllRitems[i]? = some item →
        item.ObjCBIndex = i ∧ item.ObjCBIndex < 40 ∧
        ∃ (c : BuildRenderItemsArgs α) (geo : MeshGeometry α) (mat : Material α),
          initialRenderItems[i]? = some c ∧
          item.Geo = some c.name ∧ item.Mat = some c.materials ∧
          app1.mGeometries.lookup c.name = some (some geo) ∧
          app1.mMaterials.lookup c.materials = some (some mat)) ∧
      app1.mFrameResources.length = gNumFrameResources ∧
      (∀ fr ∈ app1.mFrameResources,
        fr.PassCB.elementCount = 1 ∧ fr.ObjectCB.elementCount = 40 ∧
        fr.MaterialCB.elementCount = 5 ∧ fr.Fence = 0) ∧
      (∀ (key : String) (mat : Material α), (key, some mat) ∈ app1.mMaterials →
        mat.MatCBIndex < 5) := by
  -- the state before `LoadTextures`
  obtain ⟨a0, ha0⟩ : ∃ a0 : CrateApp α, a0 =
      { ({ CrateApp.new pi base lastMousePos with mCommandList := [] } : CrateApp α) with
        mCbvSrvDescriptorSize := descriptorSize } := ⟨_, rfl⟩
  have hTex0 : a0.mTextures = [] := by rw [ha0]; rfl
  have h1 := BuildDescriptorHeaps_ok a0 hTex0
  obtain ⟨a2, ha2⟩ : ∃ a2 : CrateApp α, a2 =
      { LoadTextures a0 with
        mSrvDescriptorHeap :=
          ["woodCrateTex", "grassTex", "bricksTex", "iceTex", "waterTex"] } := ⟨_, rfl⟩
  rw [← ha2] at h1
  have hG2 : a2.mGeometries = [] := by rw [ha2, ha0]; rfl
  have hM2 : a2.mMaterials = [] := by rw [ha2, ha0]; rfl
  have hA2 : a2.mAllRitems = [] := by rw [ha2, ha0]; rfl
  have hO2 : a2.mOpaqueRitems = [] := by rw [ha2, ha0]; rfl
  have hF2 : a2.mFrameResources = [] := by rw [ha2, ha0]; rfl
  -- the geometries
  obtain ⟨a3, h2, hframe3, hkeys3, hall3⟩ := buildShapeGeometries_ok (initialShapes geoGen) a2
  have hM3 : a3.mMaterials = [] := (congrArg (fun a => a.mMaterials) hframe3).trans hM2
  have hA3 : a3.mAllRitems = [] := (congrArg (fun a => a.mAllRitems) hframe3).trans hA2
  have hO3 : a3.mOpaqueRitems = [] := (congrArg (fun a => a.mOpaqueRitems) hframe3).trans hO2
  have hF3 : a3.mFrameResources = [] :=
    (congrArg (fun a => a.mFrameResources) hframe3).trans hF2
  have hnames : a3.mGeometries.map Prod.fst
      = ["Box", "Box2", "Box3", "Cylinder", "Sphere", "Grid", "Grid2", "Grid3",
         "Pyramid", "Cone2", "Wedge", "TriangularPrism", "Diamond"] := by
    have hfold : (initialShapes geoGen).foldl
        (fun ks c => if c.1 ∈ ks then ks else ks ++ [c.1]) ([] : List String)
        = ((initialShapes geoGen).map Prod.fst).foldl
            (fun ks k => if k ∈ ks then ks else ks ++ [k]) [] := by
      rw [List.foldl_map]
    have hmap : (initialShapes geoGen).map Prod.fst
        = ["Box", "Box2", "Box3", "Cylinder", "Sphere", "Grid", "Grid2", "Grid3",
           "Pyramid", "Cone2", "Wedge", "TriangularPrism", "Diamond"] := rfl
    rw [hkeys3, hG2]
    show (initialShapes geoGen).foldl _ ([] : List String) = _
    rw [hfold, hmap]
    decide
  have hsome3 : ∀ p ∈ a3.mGeometries, p.2.isSome := by
    apply hall3
    rw [hG2]
    intro p hp
    cases hp
  -- the materials
  obtain ⟨m0, m1, m2, m3, m4, hmats, hi0, hi1, hi2, hi3, hi4⟩ := BuildMaterials_entries a3 hM3
  have hG4 : (BuildMaterials a3).mGeometries = a3.mGeometries := rfl
  have hA4 : (BuildMaterials a3).mAllRitems = [] := hA3
  have hO4 : (BuildMaterials a3).mOpaqueRitems = [] := hO3
  have hF4 : (BuildMaterials a3).mFrameResources = [] := hF3
  have hmatkeys : (BuildMaterials a3).mMaterials.map Prod.fst
      = ["woodCrate", "grass", "bricks", "ice", "water"] := by rw [hmats]; rfl
  have hmatsome : ∀ p ∈ (BuildMaterials a3).mMaterials, p.2.isSome := by
    rw [hmats]
    intro p hp
    simp only [List.mem_cons, List.mem_singleton, List.not_mem_nil, or_false] at hp
    rcases hp with h | h | h | h | h <;> (rw [h]; rfl)
  -- the render items
  have hreg : ∀ c ∈ (initialRenderItems : List (BuildRenderItemsArgs α)),
      (((BuildMaterials a3).mGeometries.lookup c.name).join).isSome ∧
      (((BuildMaterials a3).mMaterials.lookup c.materials).join).isSome := by
    intro c hc
    obtain ⟨hg, hm⟩ := initialRenderItems_registered c hc
    exact ⟨UMap_lookup_isSome _ _ (by rw [hG4, hnames]; exact hg) (by rw [hG4]; exact hsome3),
      UMap_lookup_isSome _ _ (by rw [hmatkeys]; exact hm) hmatsome⟩
  obtain ⟨a5, _, h3, _, _, _, hframe5, hkeys5, hkeep5, _⟩ :=
    buildRenderItems_scene initialRenderItems (BuildMaterials a3) hreg
  obtain ⟨hlen5, hM5, _, hopq5, hdraw5⟩ :=
    buildRenderItems_drawable initialRenderItems (BuildMaterials a3) a5 hA4 hreg h3
  have hcount : (initialRenderItems : List (BuildRenderItemsArgs α)).length = 40 := rfl
  rw [hcount] at hlen5
  have hF5 : a5.mFrameResources = [] :=
    (congrArg (fun a => a.mFrameResources) hframe5).trans hF4
  -- the whole of `Initialize`
  rw [ha0] at h1
  obtain ⟨app1, hok, hfr, hitems, hopq, hmat, hgeo⟩ :=
    Initialize_eq geoGen descriptorSize va (CrateApp.new pi base lastMousePos) a2 a3 a5 h1 h2 h3
  rw [BuildFrameResources_eq] at hfr
  have hfr1 : app1.mFrameResources
      = [FrameResource.create (va 0) 1 40 5, FrameResource.create (va 1) 1 40 5,
         FrameResource.create (va 2) 1 40 5] := by
    rw [hfr]
    show a5.mFrameResources ++ _ = _
    rw [hF5, hlen5, hM5, hmats]
    rfl
  refine ⟨app1, hok, hcount, ?_, ?_, ?_, ?_, ?_, ?_, ?_, ?_, ?_, ?_⟩
  · rw [hgeo, hkeys5, hG4, hnames]
  · rw [hmat, hM5, hmatkeys]
  · intro k hk
    rw [hgeo] at hk ⊢
    rw [hkeep5]
    rw [hkeys5] at hk
    exact UMap_lookup_isSome _ _ hk (by rw [hG4]; exact hsome3)
  · rw [hmat, hM5]; exact hmatsome
  · rw [hitems, hlen5]
  · rw [hopq, hopq5 hO4, hlen5]
  · intro i item hi
    rw [hitems] at hi
    have hlt : i < 40 := by
      by_contra hnot
      rw [List.getElem?_eq_none (by omega)] at hi
      cases hi
    obtain ⟨hx, c, geo, mat, hc, hg, hm, hgl, hml⟩ := hdraw5 i item hi
    have hxi : item.ObjCBIndex = i := by
      rw [hx, UINT_RANGE_eq]
      omega
    refine ⟨hxi, by omega, c, geo, mat, hc, hg, hm, ?_, ?_⟩
    · rw [hgeo]
      rw [hg] at hgl
      have hgl1 : ((a5.mGeometries.lookup c.name).join) = some geo := hgl
      cases hl : a5.mGeometries.lookup c.name with
      | none => rw [hl] at hgl1; cases hgl1
      | some o =>
        rw [hl] at hgl1
        have ho : o = some geo := hgl1
        rw [ho]
    · rw [hmat]
      rw [hm] at hml
      have hml1 : ((a5.mMaterials.lookup c.materials).join) = some mat := hml
      cases hl : a5.mMaterials.lookup c.materials with
      | none => rw [hl] at hml1; cases hml1
      | some o =>
        rw [hl] at hml1
        have ho : o = some mat := hml1
        rw [ho]
  · rw [hfr1]; rfl
  · intro fr hfrm
    rw [hfr1] at hfrm
    simp only [List.mem_cons, List.mem_singleton, List.not_mem_nil, or_false] at hfrm
    rcases hfrm with h | h | h <;> (rw [h]; exact ⟨rfl, rfl, rfl, rfl⟩)
  · intro key mat hin
    rw [hmat, hM5, hmats] at hin
    simp only [List.mem_cons, Prod.mk.injEq, Option.some.injEq, List.mem_singleton,
      List.not_mem_nil, or_false] at hin
    rcases hin with h | h | h | h | h <;> (obtain ⟨_, hm⟩ := h; rw [hm]; omega)

end GAME3111

namespace GAME3111

open CrateApp

section InFlight

variable {α : Type} [LinearOrderedField α]

omit [LinearOrderedField α] in
/-- The fence of a slot after another slot has been replaced. -/
theorem slotFence_set_ne (s s1 : CrateApp α) (c j : Nat) (fr : FrameResource α)
    (hset : s1.mFrameResources = s.mFrameResources.set c fr) (hne : c ≠ j) :
    slotFence s1 j = slotFence s j := by
  unfold slotFence
  rw [hset, List.getElem?_set_ne hne]

omit [LinearOrderedField α] in
/-- The fence of a slot after it has been replaced. -/
theorem slotFence_set_self (s s1 : CrateApp α) (c : Nat) (fr0 fr : FrameResource α)
    (hfr : s.mFrameResources[c]? = some fr0)
    (hset : s1.mFrameResources = s.mFrameResources.set c fr) :
    slotFence s1 c = fr.Fence := by
  have hlt : c < s.mFrameResources.length := by
    by_contra hnot
    rw [List.getElem?_eq_none (not_lt.mp hnot)] at hfr
    cases hfr
  unfold slotFence
  rw [hset, List.getElem?_set_self hlt]

omit [LinearOrderedField α] in
/-- Before the first frame, when no slot has been submitted and the GPU has completed
everything signalled, the bound on the frames in flight holds. -/
theorem framesInFlightBounded_initial (app : CrateApp α)
    (hzero : ∀ fr ∈ app.mFrameResources, fr.Fence = 0)
    (hgpu : app.mFence = app.mCurrentFence) : framesInFlightBounded app := by
  have h0 : ∀ j : Nat, slotFence app j = 0 := by
    intro j
    unfold slotFence
    cases h : app.mFrameResources[j]? with
    | none => rfl
    | some fr => exact hzero fr (List.getElem?_mem h)
  unfold framesInFlightBounded
  rw [h0, h0, h0, hgpu]
  exact ⟨Or.inl ⟨rfl, by omega⟩, Or.inl ⟨rfl, by omega⟩, Or.inl ⟨rfl, le_refl _⟩, by omega⟩

/-- When the acquisition returns in a state satisfying the bound, the fence counter is at
most two ahead of the completed value. -/
theorem framesInFlightBounded_acquire (dx : DirectXMath α) (gt : GameTimer α)
    (gpu : GpuProgress) (s s1 : CrateApp α) (hinv : framesInFlightBounded s)
    (h : Update.acquire dx gt gpu s = .ok s1) :
    s1.mCurrentFence ≤ s1.mFence + 2 := by
  obtain ⟨fr, hfr, _, _, _, _, _, hcf, hle, hsafe, _, _⟩ := Update_acquire_spec dx gt gpu s s1 h
  obtain ⟨hA, _, _, _⟩ := hinv
  have hslot : slotFence s ((s.mCurrFrameResourceIndex + 1) % gNumFrameResources) = fr.Fence := by
    unfold slotFence
    rw [hfr]
  rw [hslot] at hA
  rw [hcf]
  rcases hA with ⟨_, h2⟩ | h2
  · omega
  · rcases hsafe with h0 | h0
    · omega
    · omega

/-- One frame that returns preserves the bound on the frames in flight. -/
theorem framesInFlightBounded_frame (dx : DirectXMath α) (gt : GameTimer α)
    (gpu : GpuProgress) (s s3 : CrateApp α) (hinv : framesInFlightBounded s)
    (h : frame dx gt gpu s = .ok s3) : framesInFlightBounded s3 := by
  obtain ⟨fr, fr3, hfr, hset, hfence, _, _, hidx, _, hcf, hle, hsafe, _⟩ :=
    frame_spec dx gt gpu s s3 h
  obtain ⟨hA, hB, hC, _⟩ := hinv
  have hslot : slotFence s ((s.mCurrFrameResourceIndex + 1) % gNumFrameResources) = fr.Fence := by
    unfold slotFence
    rw [hfr]
  rw [hslot] at hA
  have hstep : s3.mCurrentFence ≤ s.mCurrentFence + 1 := by
    rw [hcf]
    exact Nat.le_trans (Nat.mod_le _ _) (le_refl _)
  -- the slots of the new state
  have hn1 : (s3.mCurrFrameResourceIndex + 1) % gNumFrameResources
      = (s.mCurrFrameResourceIndex + 2) % gNumFrameResources := by
    rw [hidx]; simp only [gNumFrameResources]; omega
  have hn2 : (s3.mCurrFrameResourceIndex + 2) % gNumFrameResources
      = s.mCurrFrameResourceIndex % gNumFrameResources := by
    rw [hidx]; simp only [gNumFrameResources]; omega
  have hn3 : s3.mCurrFrameResourceIndex % gNumFrameResources
      = (s.mCurrFrameResourceIndex + 1) % gNumFrameResources := by
    rw [hidx]; simp only [gNumFrameResources]; omega
  have hne1 : (s.mCurrFrameResourceIndex + 1) % gNumFrameResources
      ≠ (s.mCurrFrameResourceIndex + 2) % gNumFrameResources := by
    simp only [gNumFrameResources]; omega
  have hne2 : (s.mCurrFrameResourceIndex + 1) % gNumFrameResources
      ≠ s.mCurrFrameResourceIndex % gNumFrameResources := by
    simp only [gNumFrameResources]; omega
  have hacq : s.mCurrentFence ≤ s3.mFence + 2 := by
    rcases hA with ⟨_, h2⟩ | h2
    · omega
    · rcases hsafe with h0 | h0
      · omega
      · omega
  unfold framesInFlightBounded
  rw [hn1, hn2, hn3, slotFence_set_ne s s3 _ _ fr3 hset hne1,
    slotFence_set_ne s s3 _ _ fr3 hset hne2, slotFence_set_self s s3 _ fr fr3 hfr hset, hfence,
    ← hcf]
  refine ⟨?_, ?_, Or.inr (le_refl _), by omega⟩
  · rcases hB with ⟨hb0, hb⟩ | hb
    · exact Or.inl ⟨hb0, by omega⟩
    · exact Or.inr (by omega)
  · rcases hC with ⟨hc0, hc⟩ | hc
    · exact Or.inl ⟨hc0, by omega⟩
    · exact Or.inr (by omega)

/-- Every run of frames preserves the bound on the frames in flight. -/
theorem framesInFlightBounded_frames (dx : DirectXMath α) (gt : GameTimer α)
    (gs : List GpuProgress) :
    ∀ s s1 : CrateApp α, framesInFlightBounded s → frames dx gt gs s = .ok s1 →
      framesInFlightBounded s1 := by
  induction gs with
  | nil => intro s s1 hinv h; cases h; exact hinv
  | cons g rest ih =>
    intro s s1 hinv h
    unfold frames at h
    cases h1 : frame dx gt g s with
    | error e => rw [h1] at h; cases h
    | ok s2 =>
      rw [h1] at h
      simp only [Except.bind] at h
      exact ih s2 s1 (framesInFlightBounded_frame dx gt g s s2 hinv h1) h

end InFlight

/-- C21: in the frame loop, where only `Draw` increments the fence counter: when the fences
of all slots are 0 and the completed value equals the fence counter before the first frame,
then for every number of frames and every GPU schedule (increments of the completed value,
which never decreases; the wait returns only once the waited fence is reached), the fence
counter minus the completed value is at most 3 after every `Draw`, and at most 2 whenever
the acquisition of the next `Update`, or that `Update`, has returned: the CPU is never more
than `gNumFrameResources = 3` submitted frames ahead of the GPU. -/
theorem C21_at_most_three_frames_in_flight {α : Type} [LinearOrderedField α]
    (dx : DirectXMath α) (gt : GameTimer α) (app : CrateApp α) (gs : List GpuProgress)
    (hzero : ∀ fr ∈ app.mFrameResources, fr.Fence = 0)
    (hgpu : app.mFence = app.mCurrentFence) :
    (∀ s : CrateApp α, frames dx gt gs app = .ok s →
      s.mCurrentFence ≤ s.mFence + gNumFrameResources ∧
      s.mCurrentFence - s.mFence ≤ 3) ∧
    (∀ (gpu : GpuProgress) (s1 : CrateApp α),
      (frames dx gt gs app).bind (Update.acquire dx gt gpu) = .ok s1 →
      s1.mCurrentFence ≤ s1.mFence + 2 ∧ s1.mCurrentFence - s1.mFence ≤ 2) ∧
    (∀ (gpu : GpuProgress) (s2 : CrateApp α),
      (frames dx gt gs app).bind (Update dx gt gpu) = .ok s2 →
      s2.mCurrentFence ≤ s2.mFence + 2 ∧ s2.mCurrentFence - s2.mFence ≤ 2) := by
  have hinit := framesInFlightBounded_initial app hzero hgpu
  refine ⟨?_, ?_, ?_⟩
  · intro s hs
    obtain ⟨_, _, _, h3⟩ := framesInFlightBounded_frames dx gt gs app s hinit hs
    simp only [gNumFrameResources]
    omega
  · intro gpu s1 h
    cases hs : frames dx gt gs app with
    | error e => rw [hs] at h; cases h
    | ok s =>
      rw [hs] at h
      have hinv := framesInFlightBounded_frames dx gt gs app s hinit hs
      have hb := framesInFlightBounded_acquire dx gt gpu s s1 hinv h
      omega
  · intro gpu s2 h
    cases hs : frames dx gt gs app with
    | error e => rw [hs] at h; cases h
    | ok s =>
      rw [hs] at h
      have hinv := framesInFlightBounded_frames dx gt gs app s hinit hs
      have hrun : Update dx gt gpu s = .ok s2 := h
      unfold Update at hrun
      cases h1 : Update.acquire dx gt gpu s with
      | error e => rw [h1] at hrun; cases hrun
      | ok s1 =>
        rw [h1] at hrun
        have hb := framesInFlightBounded_acquire dx gt gpu s s1 hinv h1
        obtain ⟨_, _, _, _, _, _, _, _, _, _, _, hcf, hfen⟩ :=
          Update_upload_spec dx gt s1 s2 hrun
        rw [hcf, hfen]
        omega

/-- C21, instance: the example application under an idle GPU.  After three frames the
fence counter is 6 and the completed value 3; the fourth acquisition, during which the GPU
completes one fence value, returns with the counter 6 and the completed value 4. -/
theorem C21_at_most_three_frames_in_flight_witness :
    ((exampleAfterFrames 3).mCurrentFence = 6 ∧ (exampleAfterFrames 3).mFence = 3 ∧
      (exampleAfterFrames 3).mCurrentFence - (exampleAfterFrames 3).mFence ≤ 3) ∧
    (exampleFourthAcquisition.mCurrentFence = 6 ∧ exampleFourthAcquisition.mFence = 4 ∧
      exampleFourthAcquisition.mCurrentFence - exampleFourthAcquisition.mFence ≤ 2) :=
  ⟨⟨rfl, rfl,
    ((C21_at_most_three_frames_in_flight exampleMath exampleTimer exampleApp
      [⟨0, 0⟩, ⟨0, 0⟩, ⟨0, 0⟩] (by decide) rfl).1 (exampleAfterFrames 3) rfl).2⟩,
   ⟨rfl, rfl,
    ((C21_at_most_three_frames_in_flight exampleMath exampleTimer exampleApp
      [⟨0, 0⟩, ⟨0, 0⟩, ⟨0, 0⟩] (by decide) rfl).2.1 ⟨0, 1⟩ exampleFourthAcquisition rfl).2⟩⟩

end GAME3111
